import Mathlib

/-!
Sapphire / Motutapu pooled allocator.

A shallow embedding of `Sources/Motutapu/util/MemoryManager.cpp`.

* The four static pools become the fields of one record, `MemoryManager`.
* `std::unordered_map` is an association list with unique keys: `mapFind`,
  `mapEmplace` (no effect when the key is present), `mapErase`, `mapSet`.
* `std::unordered_multimap` is an association list, newest entry first:
  `mapFind` returns the first entry of the key, `multiErase` removes exactly that
  entry, `multiEmplace` adds one entry.
* The calls that leave the translation unit (`new float[]`, `delete[]`,
  `CudaSetDevice`, `CudaMalloc`, `CudaFree`, `cudaDeviceSynchronize`) take their
  answer as an argument of the operation and are recorded in `Outcome.calls`.
* A thrown `std::runtime_error` is `Except.error` with the message of the source;
  the pools survive a throw, so every operation returns the state next to its result.
-/

namespace Motutapu.Util

/-- The value of `intptr_t(ptr)`; `nullptr` is `0`. -/
abbrev Ptr := Nat

/-- The null pointer, the initial value of `cudaPtr` in `GetMemoryCuda`. -/
def nullptr : Ptr := 0

/-- One `float` cell as its 32-bit pattern; the literal `0` of `std::fill` is pattern `0`. -/
abbrev FloatBits := Nat

/-- Width of `size_t`. -/
def SIZE_MOD : Nat := 2 ^ 64

/-- The constant `sizeof(float)`. -/
def sizeofFloat : Nat := 4

/-- Modelled from the spec: `struct MemoryChunk` is declared in `MemoryManager.hpp`, which is
not among the sources; the fields are the ones `MemoryManager.cpp` uses
(`MemoryChunk(size, data, refCount)`, `.Size`, `.Data`, `.RefCount`), with `RefCount` an
integer as in the data model. -/
structure MemoryChunk where
  Size : Nat
  Data : Ptr
  RefCount : Int
deriving DecidableEq, Repr

deriving instance DecidableEq for Except

/-- Calls that leave `MemoryManager.cpp`. -/
inductive SysCall where
  | newFloatArray (size : Nat)
  | deleteArray (p : Ptr)
  | CudaSetDevice (deviceId : Int)
  | CudaMalloc (byteSize : Nat)
  | CudaFree (p : Ptr)
  | cudaDeviceSynchronize
deriving DecidableEq, Repr

/-- The static members of `MemoryManager` (lines 14-20) together with the content of the host
buffers obtained from `new float[]`. -/
structure MemoryManager where
  m_hostFreeMemoryPool : List (Nat × MemoryChunk)
  m_hostBusyMemoryPool : List (Ptr × MemoryChunk)
  m_cudaFreeMemoryPool : List ((Int × Nat) × MemoryChunk)
  m_cudaBusyMemoryPool : List ((Int × Ptr) × MemoryChunk)
  hostHeap : List (Ptr × List FloatBits)
deriving DecidableEq

/-- The static `m_allocationUnitSize = 256` of line 24. -/
def m_allocationUnitSize : Nat := 256

/-- Both pools empty, no host buffer allocated. -/
def MemoryManager.empty : MemoryManager :=
  { m_hostFreeMemoryPool := [], m_hostBusyMemoryPool := [],
    m_cudaFreeMemoryPool := [], m_cudaBusyMemoryPool := [], hostHeap := [] }

/-- What an operation leaves behind: the returned value or the thrown message, the static
state after the call, and the external calls it made, in order. -/
structure Outcome (α : Type) where
  result : Except String α
  state : MemoryManager
  calls : List SysCall
deriving DecidableEq

section Maps

variable {κ : Type} [DecidableEq κ] {V : Type}

/-- The container `find(key)`: the value of the first entry stored under `key`. -/
def mapFind (key : κ) : List (κ × V) → Option V
  | [] => none
  | e :: rest => if e.1 = key then some e.2 else mapFind key rest

/-- The `unordered_map::emplace`: nothing happens when the key is already present. -/
def mapEmplace (key : κ) (v : V) (m : List (κ × V)) : List (κ × V) :=
  match mapFind key m with
  | some _ => m
  | none => (key, v) :: m

/-- The `unordered_map::erase(itr)` for the entry found under `key`. -/
def mapErase (key : κ) (m : List (κ × V)) : List (κ × V) :=
  m.filter (fun e => decide (e.1 ≠ key))

/-- A write through `itr->second` for the entry found under `key`. -/
def mapSet (key : κ) (f : V → V) : List (κ × V) → List (κ × V)
  | [] => []
  | e :: rest => if e.1 = key then (e.1, f e.2) :: rest else e :: mapSet key f rest

/-- The `unordered_multimap::emplace`: one more entry, also when the key is present. -/
def multiEmplace (key : κ) (v : V) (m : List (κ × V)) : List (κ × V) :=
  (key, v) :: m

/-- The `unordered_multimap::erase(itr)` for the entry that `find(key)` returned. -/
def multiErase (key : κ) : List (κ × V) → List (κ × V)
  | [] => []
  | e :: rest => if e.1 = key then rest else e :: multiErase key rest

end Maps

/-- The `allocationSize` of lines 32-34, in `size_t` arithmetic. -/
def allocationSize (size : Nat) : Nat :=
  ((size / m_allocationUnitSize) * m_allocationUnitSize +
    (if size % m_allocationUnitSize ≠ 0 then m_allocationUnitSize else 0)) % SIZE_MOD

/-- The function `MemoryManager::GetMemoryCuda` (lines 26-64). `setDeviceOk` is the answer of
`CudaSetDevice`; `mallocResult` is the answer of `CudaMalloc`: `some p` when it succeeds and
stores `p`, `none` when it fails and `cudaPtr` keeps the `nullptr` of line 30. -/
def GetMemoryCuda (st : MemoryManager) (size : Nat) (deviceId : Int)
    (setDeviceOk : Bool) (mallocResult : Option Ptr) : Outcome Ptr :=
  let allocSize := allocationSize size
  match mapFind (deviceId, allocSize) st.m_cudaFreeMemoryPool with
  | some chunk =>
    let cudaPtr := chunk.Data
    let targetChunk : MemoryChunk := { chunk with RefCount := chunk.RefCount + 1 }
    { result := Except.ok cudaPtr
      state := { st with
        m_cudaFreeMemoryPool := multiErase (deviceId, allocSize) st.m_cudaFreeMemoryPool
        m_cudaBusyMemoryPool :=
          mapEmplace (deviceId, cudaPtr) targetChunk st.m_cudaBusyMemoryPool }
      calls := [] }
  | none =>
    let success := setDeviceOk && mallocResult.isSome
    let cudaPtr := mallocResult.getD nullptr
    { result :=
        if success then Except.ok cudaPtr
        else Except.error "GetMemoryCuda - Allocation failure"
      state := { st with
        m_cudaBusyMemoryPool :=
          mapEmplace (deviceId, cudaPtr) (MemoryChunk.mk allocSize cudaPtr 1)
            st.m_cudaBusyMemoryPool }
      calls := [SysCall.CudaSetDevice deviceId,
                SysCall.CudaMalloc (allocSize * sizeofFloat % SIZE_MOD)] }

/-- The function `MemoryManager::GetMemoryHost` (lines 66-88). `newResult` is the answer of
`new float[size]`: `some p` for the fresh array, `none` when it throws `std::bad_alloc`. -/
def GetMemoryHost (st : MemoryManager) (size : Nat) (newResult : Option Ptr) : Outcome Ptr :=
  match mapFind size st.m_hostFreeMemoryPool with
  | some chunk =>
    let targetChunk : MemoryChunk := { chunk with RefCount := chunk.RefCount + 1 }
    let dataPtr := targetChunk.Data
    { result := Except.ok dataPtr
      state := { st with
        m_hostFreeMemoryPool := multiErase size st.m_hostFreeMemoryPool
        m_hostBusyMemoryPool := mapEmplace dataPtr targetChunk st.m_hostBusyMemoryPool }
      calls := [] }
  | none =>
    match newResult with
    | none =>
      { result := Except.error "std::bad_alloc", state := st,
        calls := [SysCall.newFloatArray size] }
    | some dataPtr =>
      { result := Except.ok dataPtr
        state := { st with
          hostHeap := (dataPtr, List.replicate size 0) :: mapErase dataPtr st.hostHeap
          m_hostBusyMemoryPool :=
            mapEmplace dataPtr (MemoryChunk.mk size dataPtr 1) st.m_hostBusyMemoryPool }
        calls := [SysCall.newFloatArray size] }

/-- The function `MemoryManager::AddReferenceCuda` (lines 90-103). -/
def AddReferenceCuda (st : MemoryManager) (ptr : Ptr) (deviceId : Int) : Outcome Unit :=
  match mapFind (deviceId, ptr) st.m_cudaBusyMemoryPool with
  | none =>
    { result := Except.error "AddReferenceCuda - Reference was not found", state := st,
      calls := [] }
  | some _ =>
    { result := Except.ok ()
      state := { st with
        m_cudaBusyMemoryPool :=
          mapSet (deviceId, ptr) (fun chunk => { chunk with RefCount := chunk.RefCount + 1 })
            st.m_cudaBusyMemoryPool }
      calls := [] }

/-- The function `MemoryManager::AddReferenceHost` (lines 105-117). -/
def AddReferenceHost (st : MemoryManager) (ptr : Ptr) : Outcome Unit :=
  match mapFind ptr st.m_hostBusyMemoryPool with
  | none =>
    { result := Except.error "AddReferenceHost - Reference was not found", state := st,
      calls := [] }
  | some _ =>
    { result := Except.ok ()
      state := { st with
        m_hostBusyMemoryPool :=
          mapSet ptr (fun chunk => { chunk with RefCount := chunk.RefCount + 1 })
            st.m_hostBusyMemoryPool }
      calls := [] }

/-- The function `MemoryManager::DeReferenceCuda` (lines 119-140). The reference `chunk` is
read after `erase(itr)`; it is taken with the values it had just before the erase. -/
def DeReferenceCuda (st : MemoryManager) (ptr : Ptr) (deviceId : Int) : Outcome Unit :=
  match mapFind (deviceId, ptr) st.m_cudaBusyMemoryPool with
  | none =>
    { result := Except.error "DeReferenceCuda - Reference was not found", state := st,
      calls := [] }
  | some found =>
    let chunk : MemoryChunk := { found with RefCount := found.RefCount - 1 }
    if chunk.RefCount = 0 then
      { result := Except.ok ()
        state := { st with
          m_cudaBusyMemoryPool := mapErase (deviceId, ptr) st.m_cudaBusyMemoryPool
          m_cudaFreeMemoryPool :=
            multiEmplace (deviceId, chunk.Size) chunk st.m_cudaFreeMemoryPool }
        calls := [] }
    else
      { result := Except.ok ()
        state := { st with
          m_cudaBusyMemoryPool :=
            mapSet (deviceId, ptr) (fun _ => chunk) st.m_cudaBusyMemoryPool }
        calls := [] }

/-- The function `MemoryManager::DeReferenceHost` (lines 142-160). The reference `chunk` is
read after `erase(itr)`; it is taken with the values it had just before the erase. -/
def DeReferenceHost (st : MemoryManager) (ptr : Ptr) : Outcome Unit :=
  match mapFind ptr st.m_hostBusyMemoryPool with
  | none =>
    { result := Except.error "DeReferenceHost - Reference was not found", state := st,
      calls := [] }
  | some found =>
    let chunk : MemoryChunk := { found with RefCount := found.RefCount - 1 }
    if chunk.RefCount = 0 then
      { result := Except.ok ()
        state := { st with
          m_hostBusyMemoryPool := mapErase ptr st.m_hostBusyMemoryPool
          m_hostFreeMemoryPool := multiEmplace chunk.Size chunk st.m_hostFreeMemoryPool }
        calls := [] }
    else
      { result := Except.ok ()
        state := { st with
          m_hostBusyMemoryPool := mapSet ptr (fun _ => chunk) st.m_hostBusyMemoryPool }
        calls := [] }

/-- The loop `for (chunk : pool) if (!CudaFree(chunk.Data)) throw`: whether it ran to the end,
and the `CudaFree` calls it made. -/
def cudaFreeLoop {κ : Type} (cudaFreeOk : Ptr → Bool) :
    List (κ × MemoryChunk) → Bool × List SysCall
  | [] => (true, [])
  | e :: rest =>
    if cudaFreeOk e.2.Data then
      ((cudaFreeLoop cudaFreeOk rest).1,
        SysCall.CudaFree e.2.Data :: (cudaFreeLoop cudaFreeOk rest).2)
    else (false, [SysCall.CudaFree e.2.Data])

/-- The loop `for (chunk : pool) delete[] chunk.Data` on the host heap. -/
def deleteLoop {κ : Type} (heap : List (Ptr × List FloatBits)) :
    List (κ × MemoryChunk) → List (Ptr × List FloatBits)
  | [] => heap
  | e :: rest => deleteLoop (mapErase e.2.Data heap) rest

/-- The function `MemoryManager::ClearUnusedCudaMemoryPool` (lines 162-174). -/
def ClearUnusedCudaMemoryPool (st : MemoryManager) (cudaFreeOk : Ptr → Bool) : Outcome Unit :=
  let freed := cudaFreeLoop cudaFreeOk st.m_cudaFreeMemoryPool
  if freed.1 then
    { result := Except.ok (), state := { st with m_cudaFreeMemoryPool := [] },
      calls := freed.2 }
  else
    { result := Except.error "ClearUnusedCudaMemoryPool - CudaFree failed", state := st,
      calls := freed.2 }

/-- The function `MemoryManager::ClearUnusedHostMemoryPool` (lines 176-186). -/
def ClearUnusedHostMemoryPool (st : MemoryManager) : Outcome Unit :=
  { result := Except.ok ()
    state := { st with
      hostHeap := deleteLoop st.hostHeap st.m_hostFreeMemoryPool
      m_hostFreeMemoryPool := [] }
    calls := st.m_hostFreeMemoryPool.map (fun e => SysCall.deleteArray e.2.Data) }

/-- The function `MemoryManager::ClearCudaMemoryPool` (lines 188-215). -/
def ClearCudaMemoryPool (st : MemoryManager) (cudaFreeOk : Ptr → Bool) : Outcome Unit :=
  let freedUnused := cudaFreeLoop cudaFreeOk st.m_cudaFreeMemoryPool
  if freedUnused.1 then
    let freedBusy := cudaFreeLoop cudaFreeOk st.m_cudaBusyMemoryPool
    if freedBusy.1 then
      { result := Except.ok ()
        state := { st with m_cudaFreeMemoryPool := [], m_cudaBusyMemoryPool := [] }
        calls := SysCall.cudaDeviceSynchronize :: freedUnused.2 ++ freedBusy.2 ++
          [SysCall.cudaDeviceSynchronize] }
    else
      { result := Except.error "ClearCudaMemoryPool - CudaFree(Busy) failed"
        state := { st with m_cudaFreeMemoryPool := [] }
        calls := SysCall.cudaDeviceSynchronize :: freedUnused.2 ++ freedBusy.2 }
  else
    { result := Except.error "ClearCudaMemoryPool - CudaFree(Unused) failed", state := st,
      calls := SysCall.cudaDeviceSynchronize :: freedUnused.2 }

/-- The function `MemoryManager::ClearHostMemoryPool` (lines 217-233). -/
def ClearHostMemoryPool (st : MemoryManager) : Outcome Unit :=
  { result := Except.ok ()
    state := { st with
      hostHeap :=
        deleteLoop (deleteLoop st.hostHeap st.m_hostFreeMemoryPool) st.m_hostBusyMemoryPool
      m_hostFreeMemoryPool := []
      m_hostBusyMemoryPool := [] }
    calls := st.m_hostFreeMemoryPool.map (fun e => SysCall.deleteArray e.2.Data) ++
      st.m_hostBusyMemoryPool.map (fun e => SysCall.deleteArray e.2.Data) }

/-- The accumulation `size += chunk.Size * sizeof(float)` over one pool, in `size_t`. -/
def byteSizeLoop {κ : Type} (acc : Nat) : List (κ × MemoryChunk) → Nat
  | [] => acc
  | e :: rest => byteSizeLoop ((acc + e.2.Size * sizeofFloat) % SIZE_MOD) rest

/-- The function `MemoryManager::GetTotalAllocationByteSizeCuda` (lines 235-252). -/
def GetTotalAllocationByteSizeCuda (st : MemoryManager) : Nat :=
  byteSizeLoop (byteSizeLoop 0 st.m_cudaBusyMemoryPool) st.m_cudaFreeMemoryPool

/-- The function `MemoryManager::GetTotalAllocationByteSizeHost` (lines 254-271). -/
def GetTotalAllocationByteSizeHost (st : MemoryManager) : Nat :=
  byteSizeLoop (byteSizeLoop 0 st.m_hostBusyMemoryPool) st.m_hostFreeMemoryPool


/-! ### Call sequences and reachable states -/

/-- The same call issued `n` times in a row, stopping at the first one that throws. -/
def repeatCall (op : MemoryManager → Outcome Unit) : Nat → MemoryManager → Outcome Unit
  | 0, st => { result := Except.ok (), state := st, calls := [] }
  | n + 1, st =>
    match (op st).result with
    | Except.ok _ => repeatCall op n (op st).state
    | Except.error _ => op st

/-- The allocator contract for `new float[]`: the array it returns is distinct from every
buffer the host pool still tracks. -/
def HostFresh (st : MemoryManager) (p : Ptr) : Prop :=
  mapFind p st.m_hostBusyMemoryPool = none ∧ ∀ e ∈ st.m_hostFreeMemoryPool, e.2.Data ≠ p

/-- The allocator contract for a successful `CudaMalloc` on device `deviceId`: the address is
distinct from every buffer the accelerator pool still tracks for that device. -/
def CudaFresh (st : MemoryManager) (deviceId : Int) (p : Ptr) : Prop :=
  mapFind (deviceId, p) st.m_cudaBusyMemoryPool = none ∧
    ∀ e ∈ st.m_cudaFreeMemoryPool, e.1.1 = deviceId → e.2.Data ≠ p

instance (st : MemoryManager) (p : Ptr) : Decidable (HostFresh st p) := by
  unfold HostFresh; infer_instance

instance (st : MemoryManager) (deviceId : Int) (p : Ptr) : Decidable (CudaFresh st deviceId p) := by
  unfold CudaFresh; infer_instance

/-- States reachable from two empty pools by calls of the public operations, the ones that
throw included. The external answers are arbitrary except that an allocation that succeeds
returns a fresh buffer. -/
inductive Reachable : MemoryManager → Prop where
  | init : Reachable MemoryManager.empty
  | getMemoryHost {st : MemoryManager} (size : Nat) (newResult : Option Ptr) :
      Reachable st → (∀ p, newResult = some p → HostFresh st p) →
      Reachable (GetMemoryHost st size newResult).state
  | getMemoryCuda {st : MemoryManager} (size : Nat) (deviceId : Int) (setDeviceOk : Bool)
      (mallocResult : Option Ptr) :
      Reachable st → (∀ p, mallocResult = some p → CudaFresh st deviceId p) →
      Reachable (GetMemoryCuda st size deviceId setDeviceOk mallocResult).state
  | addReferenceHost {st : MemoryManager} (ptr : Ptr) :
      Reachable st → Reachable (AddReferenceHost st ptr).state
  | addReferenceCuda {st : MemoryManager} (ptr : Ptr) (deviceId : Int) :
      Reachable st → Reachable (AddReferenceCuda st ptr deviceId).state
  | deReferenceHost {st : MemoryManager} (ptr : Ptr) :
      Reachable st → Reachable (DeReferenceHost st ptr).state
  | deReferenceCuda {st : MemoryManager} (ptr : Ptr) (deviceId : Int) :
      Reachable st → Reachable (DeReferenceCuda st ptr deviceId).state
  | clearUnusedHost {st : MemoryManager} :
      Reachable st → Reachable (ClearUnusedHostMemoryPool st).state
  | clearUnusedCuda {st : MemoryManager} (cudaFreeOk : Ptr → Bool) :
      Reachable st → Reachable (ClearUnusedCudaMemoryPool st cudaFreeOk).state
  | clearHost {st : MemoryManager} :
      Reachable st → Reachable (ClearHostMemoryPool st).state
  | clearCuda {st : MemoryManager} (cudaFreeOk : Ptr → Bool) :
      Reachable st → Reachable (ClearCudaMemoryPool st cudaFreeOk).state

/-- The pool invariant of the data model: no buffer identity sits in the free and in the busy
collection of one domain, `RefCount` is `0` while free and at least `1` while busy. -/
def PoolInvariant (st : MemoryManager) : Prop :=
  (∀ e ∈ st.m_hostFreeMemoryPool,
      e.2.RefCount = 0 ∧ mapFind e.2.Data st.m_hostBusyMemoryPool = none) ∧
  (∀ e ∈ st.m_hostBusyMemoryPool, 1 ≤ e.2.RefCount) ∧
  (∀ e ∈ st.m_cudaFreeMemoryPool,
      e.2.RefCount = 0 ∧ mapFind (e.1.1, e.2.Data) st.m_cudaBusyMemoryPool = none) ∧
  (∀ e ∈ st.m_cudaBusyMemoryPool, 1 ≤ e.2.RefCount)

instance (st : MemoryManager) : Decidable (PoolInvariant st) := by
  unfold PoolInvariant; infer_instance

/-- The bookkeeping facts that every call keeps, a throwing one too: free chunks have
`RefCount` `0` and are keyed by their `Size`, busy chunks have `RefCount` at least `1` and are
keyed by their `Data`, and accelerator sizes are rounded. -/
def Bookkeeping (st : MemoryManager) : Prop :=
  (∀ e ∈ st.m_hostFreeMemoryPool, e.2.RefCount = 0 ∧ e.1 = e.2.Size) ∧
  (∀ e ∈ st.m_hostBusyMemoryPool, 1 ≤ e.2.RefCount ∧ e.1 = e.2.Data) ∧
  (∀ e ∈ st.m_cudaFreeMemoryPool,
      e.2.RefCount = 0 ∧ e.1.2 = e.2.Size ∧ allocationSize e.2.Size = e.2.Size) ∧
  (∀ e ∈ st.m_cudaBusyMemoryPool,
      1 ≤ e.2.RefCount ∧ e.1.2 = e.2.Data ∧ allocationSize e.2.Size = e.2.Size)

/-- The state after: a `GetMemoryCuda(1, 0)` whose `CudaMalloc` fails, `DeReferenceCuda(nullptr,
0)`, and a `GetMemoryCuda(257, 0)` whose `CudaMalloc` fails again. -/
def failedMallocTrace : MemoryManager :=
  (GetMemoryCuda
    (DeReferenceCuda (GetMemoryCuda MemoryManager.empty 1 0 true none).state nullptr 0).state
    257 0 true none).state

/-- The state after `p = GetMemoryHost(1000)` answered with address `4096`, then
`DeReferenceHost(p)`. -/
def hostReleased1000 : MemoryManager :=
  (DeReferenceHost (GetMemoryHost MemoryManager.empty 1000 (some 4096)).state 4096).state

/-! ### Tensor data (`Sapphire/tensor/TensorData.hpp`) -/

/-- Modelled from the spec: `class Shape` (`Sapphire/tensor/Shape.hpp`) is not among the
sources. The data model makes it an ordered sequence of dimension sizes. -/
structure Shape where
  dims : List Nat
deriving DecidableEq, Repr

/-- Modelled from the spec: `Shape::Size()`, the product of all dimensions. -/
def Shape.Size (s : Shape) : Nat := s.dims.prod

/-- Modelled from the spec: `Shape::Cols()`, the last dimension (`0` stands for "there is
none"). -/
def Shape.Cols (s : Shape) : Nat := s.dims.getLastD 0

/-- Modelled from the spec: `Shape::Rows()`, the second-to-last dimension, or 1 if there are
fewer than two dimensions. -/
def Shape.Rows (s : Shape) : Nat :=
  match s.dims.reverse with
  | _ :: r :: _ => r
  | _ => 1

/-- Modelled from the spec: the domain of a `Device` (`Sapphire/util/Device.hpp` is not among
the sources). -/
inductive DeviceDomain where
  | Host
  | Accelerator
deriving DecidableEq, Repr

/-- Modelled from the spec: `class Device`, a domain and an index that is meaningful only for
an accelerator; equality-comparable. -/
structure Device where
  domain : DeviceDomain
  index : Int
deriving DecidableEq, Repr

/-- Modelled from the spec: the enumeration `Type` of `TensorData.hpp` (`Type::Dense`, and
`Sparse` by the comment of `GetType`), called `ElementKind` in the data model. -/
inductive ElementKind where
  | Dense
  | Sparse
deriving DecidableEq, Repr

/-- The data members of `class TensorData` (lines 35-38, 67-69, 152-159). Pointers are
addresses, `unsigned long` fields are naturals. -/
structure TensorData where
  DenseTotalLengthHost : Nat
  DenseTotalLengthCuda : Nat
  SparseTotalLength : Nat
  PaddedHostColSize : Nat
  SparseMatHost : Ptr
  SparseMatCuda : Ptr
  TensorShape : Shape
  DenseMatHost : Ptr
  DenseMatCuda : Ptr
  m_parentDescKey : Int
  m_type : ElementKind
  m_device : Device
deriving DecidableEq, Repr

/-- The accessor `TensorData::GetDevice` (lines 83-86). -/
def TensorData.GetDevice (t : TensorData) : Device := t.m_device

/-- The accessor `TensorData::GetShape` (lines 95-98). -/
def TensorData.GetShape (t : TensorData) : Shape := t.TensorShape

/-- The accessor `TensorData::GetHostElementSize` (lines 100-104): the quotient is widened to
`size_t` and multiplied by `PaddedHostColSize` in `size_t`. -/
def TensorData.GetHostElementSize (t : TensorData) : Nat :=
  (t.TensorShape.Size / t.TensorShape.Cols) * t.PaddedHostColSize % SIZE_MOD

/-- The accessor `TensorData::GetCudaElementSize` (lines 106-109). -/
def TensorData.GetCudaElementSize (t : TensorData) : Nat := t.TensorShape.Size

/-- The external answers one `SendTo` may need: those of the allocator of the target domain
and the outcome of the copy across the domain boundary. -/
structure TransferAnswers where
  newResult : Option Ptr
  setDeviceOk : Bool
  mallocResult : Option Ptr
  copyOk : Bool

/-- What `SendTo` leaves behind: the returned flag or the failure, the tensor, the pools. -/
structure SendOutcome where
  result : Except String Bool
  tensor : TensorData
  pools : MemoryManager
deriving DecidableEq

/-- The buffer handle a tensor holds on a domain, by element kind. -/
def TensorData.handle (t : TensorData) (domain : DeviceDomain) : Ptr :=
  match t.m_type, domain with
  | ElementKind.Dense, DeviceDomain.Host => t.DenseMatHost
  | ElementKind.Dense, DeviceDomain.Accelerator => t.DenseMatCuda
  | ElementKind.Sparse, DeviceDomain.Host => t.SparseMatHost
  | ElementKind.Sparse, DeviceDomain.Accelerator => t.SparseMatCuda

/-- The tensor with device `device` and the buffer `target` as its only handle of its kind. -/
def TensorData.moveTo (t : TensorData) (device : Device) (target : Ptr) : TensorData :=
  match t.m_type, device.domain with
  | ElementKind.Dense, DeviceDomain.Host =>
    { t with m_device := device, DenseMatHost := target, DenseMatCuda := nullptr }
  | ElementKind.Dense, DeviceDomain.Accelerator =>
    { t with m_device := device, DenseMatHost := nullptr, DenseMatCuda := target }
  | ElementKind.Sparse, DeviceDomain.Host =>
    { t with m_device := device, SparseMatHost := target, SparseMatCuda := nullptr }
  | ElementKind.Sparse, DeviceDomain.Accelerator =>
    { t with m_device := device, SparseMatHost := nullptr, SparseMatCuda := target }

/-- Acquire on the domain of `device` with the length accessor of that domain. -/
def acquireOn (pools : MemoryManager) (t : TensorData) (device : Device)
    (env : TransferAnswers) : Outcome Ptr :=
  match device.domain with
  | DeviceDomain.Host => GetMemoryHost pools t.GetHostElementSize env.newResult
  | DeviceDomain.Accelerator =>
    GetMemoryCuda pools t.GetCudaElementSize device.index env.setDeviceOk env.mallocResult

/-- Release of the buffer `ptr` on the domain of `device`. -/
def releaseOn (pools : MemoryManager) (device : Device) (ptr : Ptr) : Outcome Unit :=
  match device.domain with
  | DeviceDomain.Host => DeReferenceHost pools ptr
  | DeviceDomain.Accelerator => DeReferenceCuda pools ptr device.index

/-- Modelled from the spec: `TensorData::SendTo` is declared in `TensorData.hpp` (line 119),
its body is not among the sources. By the contract of section 4.2 it returns `false` and does
nothing when the target is the current device; otherwise it acquires a buffer on the target
domain, copies the content across, releases the source buffer and updates the device and the
handles, returning `true`; when the copy fails it raises `TransferFailure`, gives the target
buffer back and leaves the tensor as it was. The content of the buffers is not part of this
model. -/
def TensorData.SendTo (t : TensorData) (pools : MemoryManager) (device : Device)
    (env : TransferAnswers) : SendOutcome :=
  if device = t.m_device then
    { result := Except.ok false, tensor := t, pools := pools }
  else
    match (acquireOn pools t device env).result with
    | Except.error msg =>
      { result := Except.error msg, tensor := t, pools := (acquireOn pools t device env).state }
    | Except.ok target =>
      if env.copyOk then
        match (releaseOn (acquireOn pools t device env).state t.m_device
            (t.handle t.m_device.domain)).result with
        | Except.error msg =>
          { result := Except.error msg, tensor := t
            pools := (releaseOn (acquireOn pools t device env).state t.m_device
              (t.handle t.m_device.domain)).state }
        | Except.ok _ =>
          { result := Except.ok true, tensor := t.moveTo device target
            pools := (releaseOn (acquireOn pools t device env).state t.m_device
              (t.handle t.m_device.domain)).state }
      else
        { result := Except.error "TransferFailure", tensor := t
          pools := (releaseOn (acquireOn pools t device env).state device target).state }

/-- A dense tensor of shape `(2, 1)` on the host whose `PaddedHostColSize` is `2^63`. -/
def paddedOverflowTensor : TensorData :=
  { DenseTotalLengthHost := 0, DenseTotalLengthCuda := 2, SparseTotalLength := 0,
    PaddedHostColSize := 2 ^ 63, SparseMatHost := nullptr, SparseMatCuda := nullptr,
    TensorShape := Shape.mk [2, 1], DenseMatHost := 4096, DenseMatCuda := nullptr,
    m_parentDescKey := -1, m_type := ElementKind.Dense,
    m_device := Device.mk DeviceDomain.Host 0 }

/-- A dense tensor of shape `(4, 4)` on accelerator 0 with host rows padded to 8 columns. -/
def tensor4x4 : TensorData :=
  { DenseTotalLengthHost := 32, DenseTotalLengthCuda := 16, SparseTotalLength := 0,
    PaddedHostColSize := 8, SparseMatHost := nullptr, SparseMatCuda := nullptr,
    TensorShape := Shape.mk [4, 4], DenseMatHost := nullptr, DenseMatCuda := 8192,
    m_parentDescKey := -1, m_type := ElementKind.Dense,
    m_device := Device.mk DeviceDomain.Accelerator 0 }

/-! ### Tracked chunks -/

/-- The chunks the host pool tracks, free ones first: buffer identity and `Size`. -/
def hostTracked (st : MemoryManager) : List (Ptr × Nat) :=
  st.m_hostFreeMemoryPool.map (fun e => (e.2.Data, e.2.Size)) ++
    st.m_hostBusyMemoryPool.map (fun e => (e.2.Data, e.2.Size))

/-- The chunks the accelerator pool tracks, free ones first: buffer identity (device of the
key and address) and `Size`. -/
def cudaTracked (st : MemoryManager) : List ((Int × Ptr) × Nat) :=
  st.m_cudaFreeMemoryPool.map (fun e => ((e.1.1, e.2.Data), e.2.Size)) ++
    st.m_cudaBusyMemoryPool.map (fun e => ((e.1.1, e.2.Data), e.2.Size))

/-- The keys of a busy collection are pairwise distinct, as in any `std::unordered_map`. -/
def UniqueKeys (st : MemoryManager) : Prop :=
  (st.m_hostBusyMemoryPool.map Prod.fst).Nodup ∧ (st.m_cudaBusyMemoryPool.map Prod.fst).Nodup

/-- The host half of the pool invariant that concerns identities: no free host buffer is a
busy key, and no host buffer is free twice. -/
def HostSound (st : MemoryManager) : Prop :=
  (∀ e ∈ st.m_hostFreeMemoryPool, mapFind e.2.Data st.m_hostBusyMemoryPool = none) ∧
  (st.m_hostFreeMemoryPool.map (fun e => e.2.Data)).Nodup

/-- The state after a `GetMemoryCuda(257, 0)` whose `CudaMalloc` fails, `DeReferenceCuda(nullptr,
0)`, and a `GetMemoryCuda(1, 0)` whose `CudaMalloc` fails. -/
def shrunkenNullTrace : MemoryManager :=
  (GetMemoryCuda
    (DeReferenceCuda (GetMemoryCuda MemoryManager.empty 257 0 true none).state nullptr 0).state
    1 0 true none).state

/-- The state after the calls of `failedMallocTrace` and one more `DeReferenceCuda(nullptr, 0)`:
the free collection of device 0 holds `nullptr` twice, under 512 and under 256. -/
def twoNullChunksFree : MemoryManager :=
  (DeReferenceCuda failedMallocTrace nullptr 0).state

/-- A pool with one busy host buffer of 3 cells at address 4096 into which a kernel has written
the patterns 7, 8, 9. -/
def writtenHostBuffer : MemoryManager :=
  { MemoryManager.empty with
    m_hostBusyMemoryPool := [(4096, MemoryChunk.mk 3 4096 1)]
    hostHeap := [(4096, [7, 8, 9])] }

/-! ### Convolution and pooling dispatch (`Sapphire/compute/ConvolutionOps.cpp`) -/

/-- Modelled from the spec: `Shape::Dim()`, the number of dimensions. -/
def Shape.Dim (s : Shape) : Nat := s.dims.length

/-- Modelled from the spec: `Shape::At(i)`, the dimension at position `i` of the ordered
sequence (`0` stands for an index out of range). -/
def Shape.At (s : Shape) (i : Nat) : Nat := s.dims.getD i 0

/-- The conversion `static_cast<int>` of an unsigned value, 32-bit two's complement. -/
def static_cast_int (n : Nat) : Int :=
  if n % 2 ^ 32 < 2 ^ 31 then ((n % 2 ^ 32 : Nat) : Int) else ((n % 2 ^ 32 : Nat) : Int) - 2 ^ 32

/-- Modelled from the spec: the enumeration `DeviceType` that `Mode()` returns
(`DeviceType::Cuda` and the host mode); its header is not among the sources. -/
inductive DeviceType where
  | Host
  | Cuda
deriving DecidableEq, Repr

/-- Modelled from the spec: `class CudaDevice`, built as `CudaDevice(0, "cuda0")` in
`Conv2DTest.cpp`, compared with `==` and read with `GetID()`. -/
structure CudaDevice where
  id : Int
  name : String
deriving DecidableEq, Repr

/-- The accessor `CudaDevice::GetID`. -/
def CudaDevice.GetID (device : CudaDevice) : Int := device.id

/-- The members of `TensorData` that `ConvolutionOps.cpp` calls and that have no body among
the sources: `Mode()`, `GetCudaDevice()` and `GetBatchSize(requiredDim)`. They are parameters
of the model. -/
structure TensorAccessors where
  Mode : TensorData → DeviceType
  GetCudaDevice : TensorData → CudaDevice
  GetBatchSize : TensorData → Nat → Nat

/-- The aggregate `Dense::Cuda::Shape4D`, in the order of its initialiser: batch, channels,
rows, columns. -/
structure Shape4D where
  batch : Int
  channels : Int
  rows : Int
  cols : Int
deriving DecidableEq, Repr

/-- The enumeration `Dense::Cuda::PoolingMode`. -/
inductive PoolingMode where
  | Max
  | Avg
deriving DecidableEq, Repr

/-- The kernels and runtime functions that `ConvolutionOps.cpp` calls, with their arguments in
the order of the call. A tensor argument is touched by nothing but these calls. -/
inductive ComputeCall where
  | cudaSetDevice (id : Int)
  | CudaConv2DForward (y x filter : Ptr) (xShape filterShape : Shape4D)
      (strideRow strideCol dilationRow dilationCol rowPadding columnPadding : Int)
      (deviceId : Int)
  | NaiveConv2D (y x filter : TensorData)
      (strideRow strideCol rowPadding columnPadding dilationRow dilationCol : Int)
      (device : CudaDevice)
  | CudaPool2DForward (y x : Ptr) (xShape : Shape4D)
      (windowRows windowCols strideRow strideCol rowPadding columnPadding : Int)
      (mode : PoolingMode) (deviceId : Int)
  | CudaConv2DBackward (dx filter dFilter x dy : Ptr) (xShape filterShape : Shape4D)
      (strideRow strideCol dilationRow dilationCol rowPadding colPadding : Int)
      (deviceId : Int)
  | NaiveConv2DBackward (dx dFilter dy x filter : TensorData)
      (strideRow strideCol rowPadding colPadding dilationRow dilationCol : Int)
      (device : CudaDevice)
  | CudaPool2DBackward (y dy x dx : Ptr) (xShape : Shape4D)
      (windowRows windowCols strideRow strideCol rowPadding columnPadding : Int)
      (mode : PoolingMode) (deviceId : Int)
deriving DecidableEq

/-- How a dispatch function can end without returning: a thrown `std::invalid_argument` with
its message, or a failed `assert`. -/
inductive Thrown where
  | invalid_argument (what : String)
  | assertion_failed
deriving DecidableEq, Repr

/-- The result of a dispatch function and the calls it made, in order. -/
structure ComputeOutcome where
  result : Except Thrown Unit
  calls : List ComputeCall
deriving DecidableEq

/-- The `Shape4D` built from a tensor with its own number of dimensions, as `xShape`
everywhere and as `filterShape` in `Conv2DForward` (lines 27-33). With fewer than three
dimensions the index `Dim() - 3` leaves the shape in the source; the subtraction of naturals
reads position 0 there, and no statement below is about such a shape. -/
def shape4DOf (api : TensorAccessors) (t : TensorData) : Shape4D :=
  { batch := static_cast_int (api.GetBatchSize t 3)
    channels := static_cast_int (t.GetShape.At (t.GetShape.Dim - 3))
    rows := static_cast_int t.GetShape.Rows
    cols := static_cast_int t.GetShape.Cols }

/-- The `filterShape` of `Conv2DBackward` (lines 128-133): the channel is read from the filter
at the position `x.GetShape().Dim() - 3`. -/
def backwardFilterShape (api : TensorAccessors) (x filter : TensorData) : Shape4D :=
  { batch := static_cast_int (api.GetBatchSize filter 3)
    channels := static_cast_int (filter.GetShape.At (x.GetShape.Dim - 3))
    rows := static_cast_int filter.GetShape.Rows
    cols := static_cast_int filter.GetShape.Cols }

/-- An `assert` block: it ends the call when assertions are compiled in (`ndebug = false`) and
the condition is false. -/
def assertPasses (ndebug : Bool) (condition : Bool) : Bool := ndebug || condition

/-- The conditions asserted by `Conv2DForward` (lines 19-21). -/
def convForwardAsserts (api : TensorAccessors) (y x filter : TensorData) : Bool :=
  decide (api.Mode y = api.Mode x ∧ api.Mode y = api.Mode filter) &&
    decide (api.GetCudaDevice y = api.GetCudaDevice x ∧
      api.GetCudaDevice y = api.GetCudaDevice filter)

/-- The conditions asserted by `MaxPool2DForward` and `AvgPool2DForward` (lines 58-59,
88-89). -/
def poolForwardAsserts (api : TensorAccessors) (y x : TensorData) : Bool :=
  decide (api.Mode y = api.Mode x) && decide (api.GetCudaDevice y = api.GetCudaDevice x)

/-- The conditions asserted by `Conv2DBackward` (lines 118-123). -/
def convBackwardAsserts (api : TensorAccessors) (dx dFilter dy x filter : TensorData) : Bool :=
  decide (api.Mode dy = api.Mode dx ∧ api.Mode dy = api.Mode dFilter) &&
    decide (api.Mode dy = api.Mode x ∧ api.Mode dy = api.Mode filter) &&
    decide (api.GetCudaDevice dy = api.GetCudaDevice x ∧
      api.GetCudaDevice dy = api.GetCudaDevice filter) &&
    decide (api.GetCudaDevice dy = api.GetCudaDevice dx ∧
      api.GetCudaDevice dy = api.GetCudaDevice dFilter)

/-- The conditions asserted by `MaxPool2DBackward` and `AvgPool2DBackward` (lines 163-167,
199-204). -/
def poolBackwardAsserts (api : TensorAccessors) (dx dy x y : TensorData) : Bool :=
  decide (api.Mode dx = api.Mode dy ∧ api.Mode dx = api.Mode x ∧ api.Mode dx = api.Mode y) &&
    decide (api.GetCudaDevice dx = api.GetCudaDevice dy ∧
      api.GetCudaDevice dx = api.GetCudaDevice x ∧
      api.GetCudaDevice dx = api.GetCudaDevice y)

/-- The function `Compute::Conv2DForward` (lines 15-52). -/
def Conv2DForward (api : TensorAccessors) (ndebug : Bool) (y x filter : TensorData)
    (strideRow strideCol dilationRow dilationCol rowPadding columnPadding : Int) :
    ComputeOutcome :=
  if assertPasses ndebug (convForwardAsserts api y x filter) then
    if api.Mode y = DeviceType.Cuda then
      { result := Except.ok ()
        calls := [ComputeCall.cudaSetDevice (api.GetCudaDevice y).GetID,
          ComputeCall.CudaConv2DForward y.DenseMatCuda x.DenseMatCuda filter.DenseMatCuda
            (shape4DOf api x) (shape4DOf api filter) strideRow strideCol dilationRow
            dilationCol rowPadding columnPadding (api.GetCudaDevice y).GetID] }
    else
      { result := Except.ok ()
        calls := [ComputeCall.NaiveConv2D y x filter strideRow strideCol rowPadding
          columnPadding dilationRow dilationCol (api.GetCudaDevice y)] }
  else { result := Except.error Thrown.assertion_failed, calls := [] }

/-- The function `Compute::MaxPool2DForward` (lines 54-82). -/
def MaxPool2DForward (api : TensorAccessors) (ndebug : Bool) (y x : TensorData)
    (windowRows windowCols strideRow strideCol rowPadding columnPadding : Int) :
    ComputeOutcome :=
  if assertPasses ndebug (poolForwardAsserts api y x) then
    if api.Mode y = DeviceType.Cuda then
      { result := Except.ok ()
        calls := [ComputeCall.cudaSetDevice (api.GetCudaDevice y).GetID,
          ComputeCall.CudaPool2DForward y.DenseMatCuda x.DenseMatCuda (shape4DOf api x)
            windowRows windowCols strideRow strideCol rowPadding columnPadding
            PoolingMode.Max (api.GetCudaDevice y).GetID] }
    else
      { result := Except.error
          (Thrown.invalid_argument "Compute::Conv2DForward - Host mode Not implemented")
        calls := [] }
  else { result := Except.error Thrown.assertion_failed, calls := [] }

/-- The function `Compute::AvgPool2DForward` (lines 84-111). -/
def AvgPool2DForward (api : TensorAccessors) (ndebug : Bool) (y x : TensorData)
    (windowRows windowCols strideRow strideCol rowPadding columnPadding : Int) :
    ComputeOutcome :=
  if assertPasses ndebug (poolForwardAsserts api y x) then
    if api.Mode y = DeviceType.Cuda then
      { result := Except.ok ()
        calls := [ComputeCall.cudaSetDevice (api.GetCudaDevice y).GetID,
          ComputeCall.CudaPool2DForward y.DenseMatCuda x.DenseMatCuda (shape4DOf api x)
            windowRows windowCols strideRow strideCol rowPadding columnPadding
            PoolingMode.Avg (api.GetCudaDevice y).GetID] }
    else
      { result := Except.error
          (Thrown.invalid_argument "Compute::Conv2DForward - Host mode Not implemented")
        calls := [] }
  else { result := Except.error Thrown.assertion_failed, calls := [] }

/-- The function `Compute::Conv2DBackward` (lines 113-155). -/
def Conv2DBackward (api : TensorAccessors) (ndebug : Bool) (dx dFilter dy x filter : TensorData)
    (strideRow strideCol rowPadding colPadding dilationRow dilationCol : Int) :
    ComputeOutcome :=
  if assertPasses ndebug (convBackwardAsserts api dx dFilter dy x filter) then
    if api.Mode dx = DeviceType.Cuda then
      { result := Except.ok ()
        calls := [ComputeCall.cudaSetDevice (api.GetCudaDevice dx).GetID,
          ComputeCall.CudaConv2DBackward dx.DenseMatCuda filter.DenseMatCuda
            dFilter.DenseMatCuda x.DenseMatCuda dy.DenseMatCuda (shape4DOf api x)
            (backwardFilterShape api x filter) strideRow strideCol dilationRow dilationCol
            rowPadding colPadding (api.GetCudaDevice dx).GetID] }
    else
      { result := Except.ok ()
        calls := [ComputeCall.NaiveConv2DBackward dx dFilter dy x filter strideRow strideCol
          rowPadding colPadding dilationRow dilationCol (api.GetCudaDevice dx)] }
  else { result := Except.error Thrown.assertion_failed, calls := [] }

/-- The function `Compute::MaxPool2DBackward` (lines 157-191). -/
def MaxPool2DBackward (api : TensorAccessors) (ndebug : Bool) (dx dy x y : TensorData)
    (windowRows windowCols strideRow strideCol rowPadding columnPadding : Int) :
    ComputeOutcome :=
  if assertPasses ndebug (poolBackwardAsserts api dx dy x y) then
    if api.Mode dx = DeviceType.Cuda then
      { result := Except.ok ()
        calls := [ComputeCall.cudaSetDevice (api.GetCudaDevice dx).GetID,
          ComputeCall.CudaPool2DBackward y.DenseMatCuda dy.DenseMatCuda x.DenseMatCuda
            dx.DenseMatCuda (shape4DOf api x) windowRows windowCols strideRow strideCol
            rowPadding columnPadding PoolingMode.Max (api.GetCudaDevice dx).GetID] }
    else
      { result := Except.error
          (Thrown.invalid_argument "Compute::MaxPool2DBackward - Host mode Not implemented")
        calls := [] }
  else { result := Except.error Thrown.assertion_failed, calls := [] }

/-- The function `Compute::AvgPool2DBackward` (lines 193-228). -/
def AvgPool2DBackward (api : TensorAccessors) (ndebug : Bool) (dx dy x y : TensorData)
    (windowRows windowCols strideRow strideCol rowPadding columnPadding : Int) :
    ComputeOutcome :=
  if assertPasses ndebug (poolBackwardAsserts api dx dy x y) then
    if api.Mode dx = DeviceType.Cuda then
      { result := Except.ok ()
        calls := [ComputeCall.cudaSetDevice (api.GetCudaDevice dx).GetID,
          ComputeCall.CudaPool2DBackward y.DenseMatCuda dy.DenseMatCuda x.DenseMatCuda
            dx.DenseMatCuda (shape4DOf api x) windowRows windowCols strideRow strideCol
            rowPadding columnPadding PoolingMode.Avg (api.GetCudaDevice dx).GetID] }
    else
      { result := Except.error
          (Thrown.invalid_argument "Compute::MaxPool2DBackward - Host mode Not implemented")
        calls := [] }
  else { result := Except.error Thrown.assertion_failed, calls := [] }

/-- A dense accelerator tensor of the given shape with its device buffer at `buffer`. -/
def cudaTensor (dims : List Nat) (buffer : Ptr) : TensorData :=
  { DenseTotalLengthHost := dims.prod, DenseTotalLengthCuda := dims.prod,
    SparseTotalLength := 0, PaddedHostColSize := dims.getLastD 0, SparseMatHost := nullptr,
    SparseMatCuda := nullptr, TensorShape := Shape.mk dims, DenseMatHost := nullptr,
    DenseMatCuda := buffer, m_parentDescKey := -1, m_type := ElementKind.Dense,
    m_device := Device.mk DeviceDomain.Accelerator 0 }

/-- Accessors for tensors that all sit on `CudaDevice(0, "cuda0")`; the batch size is the
product of the dimensions in front of the last `requiredDim` ones. -/
def cudaAccessors : TensorAccessors :=
  { Mode := fun _ => DeviceType.Cuda
    GetCudaDevice := fun _ => CudaDevice.mk 0 "cuda0"
    GetBatchSize := fun t requiredDim => (t.TensorShape.dims.reverse.drop requiredDim).prod }

/-- Accessors for tensors that all sit on the host. -/
def hostAccessors : TensorAccessors :=
  { Mode := fun _ => DeviceType.Host
    GetCudaDevice := fun _ => CudaDevice.mk 0 "cuda0"
    GetBatchSize := fun t requiredDim => (t.TensorShape.dims.reverse.drop requiredDim).prod }

/-- Two free accelerator entries name the same buffer only when that buffer is `nullptr`. -/
def SameBufferOnlyNull (a b : (Int × Nat) × MemoryChunk) : Prop :=
  (a.1.1, a.2.Data) = (b.1.1, b.2.Data) → a.2.Data = nullptr

/-- The accelerator half of the pool invariant that concerns identities, for the buffers other
than `nullptr`: no free buffer is a busy key of its device, and no buffer is free twice. -/
def CudaSound (st : MemoryManager) : Prop :=
  (∀ e ∈ st.m_cudaFreeMemoryPool, e.2.Data ≠ nullptr →
    mapFind (e.1.1, e.2.Data) st.m_cudaBusyMemoryPool = none) ∧
  st.m_cudaFreeMemoryPool.Pairwise SameBufferOnlyNull

/-! ### Buffer content and `CreateCopy` -/

/-- The pools together with the content of the accelerator buffers, by device and address.
The content of the host buffers is `pools.hostHeap`. -/
structure TensorWorld where
  pools : MemoryManager
  cudaHeap : List ((Int × Ptr) × List FloatBits)
deriving DecidableEq

/-- The cells of the buffer `ptr` of `device` (none for an address nothing was stored at). -/
def readBuffer (w : TensorWorld) (device : Device) (ptr : Ptr) : List FloatBits :=
  match device.domain with
  | DeviceDomain.Host => (mapFind ptr w.pools.hostHeap).getD []
  | DeviceDomain.Accelerator => (mapFind (device.index, ptr) w.cudaHeap).getD []

/-- The world in which the buffer `ptr` of `device` holds `content`. -/
def storeBuffer (w : TensorWorld) (device : Device) (ptr : Ptr) (content : List FloatBits) :
    TensorWorld :=
  match device.domain with
  | DeviceDomain.Host =>
    { w with pools := { w.pools with hostHeap := (ptr, content) :: mapErase ptr w.pools.hostHeap } }
  | DeviceDomain.Accelerator =>
    { w with cudaHeap := ((device.index, ptr), content) :: mapErase (device.index, ptr) w.cudaHeap }

/-- A write of `value` into cell `i` of the buffer `ptr` of `device`. -/
def writeElement (w : TensorWorld) (device : Device) (ptr : Ptr) (i : Nat) (value : FloatBits) :
    TensorWorld :=
  storeBuffer w device ptr ((readBuffer w device ptr).set i value)

/-- The buffer a tensor holds on its own device. -/
def TensorData.buffer (t : TensorData) : Ptr := t.handle t.m_device.domain

/-- The busy chunk the pool of `device` keeps for the buffer `ptr`, if any. -/
def busyChunkOn (pools : MemoryManager) (device : Device) (ptr : Ptr) : Option MemoryChunk :=
  match device.domain with
  | DeviceDomain.Host => mapFind ptr pools.m_hostBusyMemoryPool
  | DeviceDomain.Accelerator => mapFind (device.index, ptr) pools.m_cudaBusyMemoryPool

/-- What `CreateCopy` leaves behind: the new tensor or the failure, and the world. -/
structure CopyOutcome where
  result : Except String TensorData
  world : TensorWorld
deriving DecidableEq

/-- Modelled from the spec: `TensorData::CreateCopy` is declared in `TensorData.hpp`
(line 113), its body is not among the sources. By the contract of section 4.2 it allocates a
chunk of the same size, kind and device through Acquire (`GetMemoryHost` or `GetMemoryCuda`
with the length accessor of the domain) and duplicates the source buffer byte-wise into it;
the result has the fields of the source and the new buffer as its handle. A failure of the
Acquire is passed on. -/
def TensorData.CreateCopy (t : TensorData) (w : TensorWorld) (env : TransferAnswers) :
    CopyOutcome :=
  match (acquireOn w.pools t t.m_device env).result with
  | Except.error msg =>
    { result := Except.error msg
      world := { w with pools := (acquireOn w.pools t t.m_device env).state } }
  | Except.ok target =>
    { result := Except.ok (t.moveTo t.m_device target)
      world :=
        storeBuffer { w with pools := (acquireOn w.pools t t.m_device env).state } t.m_device
          target
          (readBuffer { w with pools := (acquireOn w.pools t t.m_device env).state } t.m_device
            t.buffer) }

/-- A dense host tensor of shape `(3)` whose buffer is the array at `4096`. -/
def hostTensor3 : TensorData :=
  { DenseTotalLengthHost := 3, DenseTotalLengthCuda := 3, SparseTotalLength := 0,
    PaddedHostColSize := 3, SparseMatHost := nullptr, SparseMatCuda := nullptr,
    TensorShape := Shape.mk [3], DenseMatHost := 4096, DenseMatCuda := nullptr,
    m_parentDescKey := -1, m_type := ElementKind.Dense,
    m_device := Device.mk DeviceDomain.Host 0 }

/-- The answers of a host allocator that returns the array at `8192`. -/
def hostAnswers8192 : TransferAnswers :=
  { newResult := some 8192, setDeviceOk := true, mallocResult := none, copyOk := true }

/-- The pools of `writtenHostBuffer` with no accelerator buffer written. -/
def writtenWorld : TensorWorld := TensorWorld.mk writtenHostBuffer []

/-- The collections of `pools` are those of a reachable state; the host buffers may hold
anything, as after writes of the kernels. -/
def ReachablePools (pools : MemoryManager) : Prop :=
  ∃ st, Reachable st ∧ pools = { st with hostHeap := pools.hostHeap }

/-! ### Facts about the container model -/

section MapLemmas

variable {κ : Type} [DecidableEq κ] {V : Type}

theorem mapFind_cons_self (k : κ) (v : V) (m : List (κ × V)) :
    mapFind k ((k, v) :: m) = some v := by
  simp [mapFind]

theorem mapFind_cons_ne {k k2 : κ} (v : V) (m : List (κ × V)) (h : k2 ≠ k) :
    mapFind k ((k2, v) :: m) = mapFind k m := by
  simp [mapFind, h]

theorem mapFind_mem {k : κ} {v : V} {m : List (κ × V)} (h : mapFind k m = some v) :
    (k, v) ∈ m := by
  induction m with
  | nil => simp [mapFind] at h
  | cons e rest ih =>
    obtain ⟨k2, v2⟩ := e
    by_cases hk : k2 = k
    · subst hk
      simp [mapFind] at h
      subst h
      exact List.mem_cons_self _ _
    · simp [mapFind, hk] at h
      exact List.mem_cons_of_mem _ (ih h)

theorem mapFind_none_of_keys {k : κ} {m : List (κ × V)} (h : ∀ e ∈ m, e.1 ≠ k) :
    mapFind k m = none := by
  induction m with
  | nil => rfl
  | cons e rest ih =>
    have h1 : e.1 ≠ k := h e (List.mem_cons_self _ _)
    have h2 : ∀ x ∈ rest, x.1 ≠ k := fun x hx => h x (List.mem_cons_of_mem _ hx)
    simp [mapFind, h1, ih h2]

theorem keys_of_mapFind_none {k : κ} {m : List (κ × V)} (h : mapFind k m = none) :
    ∀ e ∈ m, e.1 ≠ k := by
  induction m with
  | nil => intro e he; cases he
  | cons x rest ih =>
    by_cases hk : x.1 = k
    · simp [mapFind, hk] at h
    · simp only [mapFind, hk, if_false] at h
      intro e he
      rcases List.mem_cons.mp he with rfl | he2
      · exact hk
      · exact ih h e he2

theorem mapErase_of_none {k : κ} {m : List (κ × V)} (h : mapFind k m = none) :
    mapErase k m = m := by
  unfold mapErase
  apply List.filter_eq_self.mpr
  intro e he
  simpa using keys_of_mapFind_none h e he

theorem mapFind_mapErase_self (k : κ) (m : List (κ × V)) :
    mapFind k (mapErase k m) = none := by
  apply mapFind_none_of_keys
  intro e he
  unfold mapErase at he
  simpa using (List.mem_filter.mp he).2

theorem mapFind_mapErase_ne {k q : κ} (m : List (κ × V)) (h : q ≠ k) :
    mapFind q (mapErase k m) = mapFind q m := by
  induction m with
  | nil => rfl
  | cons e rest ih =>
    obtain ⟨k2, v2⟩ := e
    unfold mapErase at ih ⊢
    by_cases hk : k2 = k
    · subst hk
      have hq : k2 ≠ q := fun hq => h hq.symm
      simpa [List.filter_cons, mapFind, hq] using ih
    · by_cases hq : k2 = q
      · subst hq
        simp [List.filter_cons, hk, mapFind]
      · simpa [List.filter_cons, hk, mapFind, hq] using ih

theorem mem_mapErase {k : κ} {m : List (κ × V)} {e : κ × V} (h : e ∈ mapErase k m) :
    e ∈ m := by
  unfold mapErase at h
  exact (List.mem_filter.mp h).1

theorem mapEmplace_of_none {k : κ} (v : V) {m : List (κ × V)} (h : mapFind k m = none) :
    mapEmplace k v m = (k, v) :: m := by
  simp [mapEmplace, h]

theorem mapEmplace_of_some {k : κ} (v : V) {m : List (κ × V)} {w : V}
    (h : mapFind k m = some w) : mapEmplace k v m = m := by
  simp [mapEmplace, h]

theorem mem_mapEmplace {k : κ} {v : V} {m : List (κ × V)} {e : κ × V}
    (h : e ∈ mapEmplace k v m) : e = (k, v) ∨ e ∈ m := by
  unfold mapEmplace at h
  cases hf : mapFind k m with
  | none =>
    rw [hf] at h
    exact List.mem_cons.mp h
  | some w =>
    rw [hf] at h
    exact Or.inr h

theorem mapSet_split {k : κ} {v : V} (f : V → V) {m : List (κ × V)}
    (h : mapFind k m = some v) :
    ∃ l1 l2, m = l1 ++ (k, v) :: l2 ∧ (∀ e ∈ l1, e.1 ≠ k) ∧
      mapSet k f m = l1 ++ (k, f v) :: l2 := by
  induction m with
  | nil => simp [mapFind] at h
  | cons e rest ih =>
    obtain ⟨k2, v2⟩ := e
    by_cases hk : k2 = k
    · subst hk
      simp [mapFind] at h
      subst h
      exact ⟨[], rest, rfl, by simp, by simp [mapSet]⟩
    · simp only [mapFind, hk, if_false] at h
      obtain ⟨l1, l2, h1, h2, h3⟩ := ih h
      refine ⟨(k2, v2) :: l1, l2, by simp [h1], ?_, by simp [mapSet, hk, h3]⟩
      intro e he
      rcases List.mem_cons.mp he with rfl | he2
      · exact hk
      · exact h2 e he2

theorem multiErase_split {k : κ} {v : V} {m : List (κ × V)} (h : mapFind k m = some v) :
    ∃ l1 l2, m = l1 ++ (k, v) :: l2 ∧ (∀ e ∈ l1, e.1 ≠ k) ∧
      multiErase k m = l1 ++ l2 := by
  induction m with
  | nil => simp [mapFind] at h
  | cons e rest ih =>
    obtain ⟨k2, v2⟩ := e
    by_cases hk : k2 = k
    · subst hk
      simp [mapFind] at h
      subst h
      exact ⟨[], rest, rfl, by simp, by simp [multiErase]⟩
    · simp only [mapFind, hk, if_false] at h
      obtain ⟨l1, l2, h1, h2, h3⟩ := ih h
      refine ⟨(k2, v2) :: l1, l2, by simp [h1], ?_, by simp [multiErase, hk, h3]⟩
      intro e he
      rcases List.mem_cons.mp he with rfl | he2
      · exact hk
      · exact h2 e he2

theorem mapFind_mapSet_self {k : κ} {v : V} (f : V → V) {m : List (κ × V)}
    (h : mapFind k m = some v) : mapFind k (mapSet k f m) = some (f v) := by
  induction m with
  | nil => simp [mapFind] at h
  | cons e rest ih =>
    by_cases hk : e.1 = k
    · simp [mapFind, hk] at h
      simp [mapSet, mapFind, hk, h]
    · simp only [mapFind, hk, if_false] at h
      simp [mapSet, mapFind, hk, ih h]

theorem mapFind_mapSet_ne {k q : κ} (f : V → V) (m : List (κ × V)) (h : q ≠ k) :
    mapFind q (mapSet k f m) = mapFind q m := by
  induction m with
  | nil => rfl
  | cons e rest ih =>
    obtain ⟨k2, v2⟩ := e
    by_cases hk : k2 = k
    · subst hk
      have hq : k2 ≠ q := fun hq => h hq.symm
      simp [mapSet, mapFind, hq]
    · by_cases hq : k2 = q
      · subst hq
        simp [mapSet, mapFind, hk]
      · simp [mapSet, mapFind, hk, hq, ih]

theorem mem_mapSet {k : κ} {f : V → V} {m : List (κ × V)} {e : κ × V}
    (h : e ∈ mapSet k f m) : e ∈ m ∨ ∃ v, (e.1, v) ∈ m ∧ e.1 = k ∧ e.2 = f v := by
  induction m with
  | nil => simp [mapSet] at h
  | cons x rest ih =>
    by_cases hk : x.1 = k
    · simp only [mapSet, hk, if_true] at h
      rcases List.mem_cons.mp h with rfl | h2
      · exact Or.inr ⟨x.2, by simp [← hk], rfl, rfl⟩
      · exact Or.inl (List.mem_cons_of_mem _ h2)
    · simp only [mapSet, hk, if_false] at h
      rcases List.mem_cons.mp h with rfl | h2
      · exact Or.inl (List.mem_cons_self _ _)
      · rcases ih h2 with h3 | ⟨v, h3, h4, h5⟩
        · exact Or.inl (List.mem_cons_of_mem _ h3)
        · exact Or.inr ⟨v, List.mem_cons_of_mem _ h3, h4, h5⟩

theorem mem_multiErase {k : κ} {m : List (κ × V)} {e : κ × V} (h : e ∈ multiErase k m) :
    e ∈ m := by
  induction m with
  | nil => simp [multiErase] at h
  | cons x rest ih =>
    by_cases hk : x.1 = k
    · simp only [multiErase, hk, if_true] at h
      exact List.mem_cons_of_mem _ h
    · simp only [multiErase, hk, if_false] at h
      rcases List.mem_cons.mp h with rfl | h2
      · exact List.mem_cons_self _ _
      · exact List.mem_cons_of_mem _ (ih h2)

end MapLemmas

/-! ### Size-class rounding -/

theorem allocationSize_eq (s : Nat) (h : s + 255 < 2 ^ 64) :
    allocationSize s = (s / 256) * 256 + (if s % 256 ≠ 0 then 256 else 0) := by
  unfold allocationSize m_allocationUnitSize SIZE_MOD
  apply Nat.mod_eq_of_lt
  split <;> omega

theorem allocationSize_idem (s : Nat) : allocationSize (allocationSize s) = allocationSize s := by
  unfold allocationSize m_allocationUnitSize SIZE_MOD
  split <;> split <;> omega

/-- C6: for a request `s` with `s + 255 < 2^64` the `allocationSize` of `GetMemoryCuda` is
`(s / 256) * 256 + (s % 256 != 0 ? 256 : 0)`, the least multiple of 256 that is at least `s`;
it is below `s + 256`, it is `s` itself when `s` is a multiple of 256, rounding twice is
rounding once, and it is `0` for `s = 0`. -/
theorem allocationSize_least_multiple (s : Nat) (h : s + 255 < 2 ^ 64) :
    allocationSize s = (s / 256) * 256 + (if s % 256 ≠ 0 then 256 else 0) ∧
    256 ∣ allocationSize s ∧ s ≤ allocationSize s ∧
    (∀ m, 256 ∣ m → s ≤ m → allocationSize s ≤ m) ∧
    allocationSize s < s + 256 ∧
    (256 ∣ s → allocationSize s = s) ∧
    allocationSize (allocationSize s) = allocationSize s ∧
    (s = 0 → allocationSize s = 0) := by
  have hv := allocationSize_eq s h
  refine ⟨hv, ?_, ?_, ?_, ?_, ?_, allocationSize_idem s, ?_⟩
  · rw [hv]; split <;> omega
  · rw [hv]; split <;> omega
  · intro m hm hsm
    rw [hv]; split <;> omega
  · rw [hv]; split <;> omega
  · intro hd
    rw [hv]; split <;> omega
  · intro h0
    subst h0
    rfl

/-- C6, at the request 1000: the class is 1024. -/
theorem allocationSize_least_multiple_witness :
    1000 + 255 < 2 ^ 64 ∧ allocationSize 1000 = 1024 ∧ 256 ∣ allocationSize 1000 :=
  ⟨by decide, ((allocationSize_least_multiple 1000 (by decide)).1).trans (by decide),
    (allocationSize_least_multiple 1000 (by decide)).2.1⟩

/-! ### Acquire, release, acquire -/

/-- C5: in every state whose host free collection holds no chunk keyed `s`, and for every
fresh array `p` that `new float[s]` returns, `p = GetMemoryHost(s); DeReferenceHost(p);
q = GetMemoryHost(s)` succeeds with `q = p`, and the last call allocates nothing. -/
theorem host_same_size_reuse (st : MemoryManager) (s : Nat) (p : Ptr)
    (newResult : Option Ptr)
    (hfree : mapFind s st.m_hostFreeMemoryPool = none) (hfresh : HostFresh st p) :
    (GetMemoryHost st s (some p)).result = Except.ok p ∧
    (DeReferenceHost (GetMemoryHost st s (some p)).state p).result = Except.ok () ∧
    (GetMemoryHost (DeReferenceHost (GetMemoryHost st s (some p)).state p).state s
      newResult).result = Except.ok p ∧
    (GetMemoryHost (DeReferenceHost (GetMemoryHost st s (some p)).state p).state s
      newResult).calls = [] := by
  have hb : mapFind p st.m_hostBusyMemoryPool = none := hfresh.1
  simp [GetMemoryHost, DeReferenceHost, hfree, mapEmplace, hb, mapFind, multiEmplace]

/-- C5, at `s = 1000` from the empty pools, the array at address 4096. -/
theorem host_same_size_reuse_witness :
    (GetMemoryHost (DeReferenceHost (GetMemoryHost MemoryManager.empty 1000 (some 4096)).state
      4096).state 1000 none).result = Except.ok 4096 :=
  (host_same_size_reuse MemoryManager.empty 1000 4096 none (by decide) (by decide)).2.2.1

/-- C3: for a device `d` and sizes `s1`, `s2` of one rounded class, in every state whose CUDA
free collection holds nothing under `(d, class)`, and for every fresh address `p` that
`CudaMalloc` returns, `p = GetMemoryCuda(s1, d); DeReferenceCuda(p, d); q = GetMemoryCuda(s2,
d)` succeeds with `q = p`, and the third call makes no device call at all. -/
theorem cuda_same_class_reuse (st : MemoryManager) (d : Int) (s1 s2 : Nat) (p : Ptr)
    (setDeviceOk : Bool) (mallocResult : Option Ptr)
    (hclass : allocationSize s1 = allocationSize s2)
    (hfree : mapFind (d, allocationSize s1) st.m_cudaFreeMemoryPool = none)
    (hfresh : CudaFresh st d p) :
    (GetMemoryCuda st s1 d true (some p)).result = Except.ok p ∧
    (DeReferenceCuda (GetMemoryCuda st s1 d true (some p)).state p d).result = Except.ok () ∧
    (GetMemoryCuda (DeReferenceCuda (GetMemoryCuda st s1 d true (some p)).state p d).state s2 d
      setDeviceOk mallocResult).result = Except.ok p ∧
    (GetMemoryCuda (DeReferenceCuda (GetMemoryCuda st s1 d true (some p)).state p d).state s2 d
      setDeviceOk mallocResult).calls = [] := by
  have hb : mapFind (d, p) st.m_cudaBusyMemoryPool = none := hfresh.1
  simp [GetMemoryCuda, DeReferenceCuda, hfree, mapEmplace, hb, mapFind, multiEmplace, ← hclass]

/-- C3, at device 0 with the sizes 1000 and 1001 (class 1024) from the empty pools. -/
theorem cuda_same_class_reuse_witness :
    (GetMemoryCuda (DeReferenceCuda (GetMemoryCuda MemoryManager.empty 1000 0 true
      (some 4096)).state 4096 0).state 1001 0 false none).result = Except.ok 4096 ∧
    (GetMemoryCuda (DeReferenceCuda (GetMemoryCuda MemoryManager.empty 1000 0 true
      (some 4096)).state 4096 0).state 1001 0 false none).calls = [] :=
  (cuda_same_class_reuse MemoryManager.empty 0 1000 1001 4096 false none (by decide)
    (by decide) (by decide)).2.2

/-! ### The miss path of Acquire -/

/-- C8: when the free collection holds nothing under the looked-up key and the allocation
succeeds with a new buffer identity `p`, `GetMemoryHost(size)` and `GetMemoryCuda(size, d)`
return `p`, leave the free collection as it was and put exactly one more entry in the busy
collection, keyed by `p`, with `RefCount` 1. On the host the chunk records `Size = size` and
the new buffer has exactly `size` cells, every one `0`; nothing of the other domain changes. -/
theorem acquire_miss (st : MemoryManager) (size : Nat) (d : Int) (p : Ptr) :
    (mapFind size st.m_hostFreeMemoryPool = none → mapFind p st.m_hostBusyMemoryPool = none →
      (GetMemoryHost st size (some p)).result = Except.ok p ∧
      (GetMemoryHost st size (some p)).calls = [SysCall.newFloatArray size] ∧
      (GetMemoryHost st size (some p)).state.m_hostFreeMemoryPool = st.m_hostFreeMemoryPool ∧
      (GetMemoryHost st size (some p)).state.m_hostBusyMemoryPool =
        (p, MemoryChunk.mk size p 1) :: st.m_hostBusyMemoryPool ∧
      (∃ buf, mapFind p (GetMemoryHost st size (some p)).state.hostHeap = some buf ∧
        buf.length = size ∧ ∀ x ∈ buf, x = 0) ∧
      (GetMemoryHost st size (some p)).state.m_cudaFreeMemoryPool = st.m_cudaFreeMemoryPool ∧
      (GetMemoryHost st size (some p)).state.m_cudaBusyMemoryPool = st.m_cudaBusyMemoryPool) ∧
    (mapFind (d, allocationSize size) st.m_cudaFreeMemoryPool = none →
      mapFind (d, p) st.m_cudaBusyMemoryPool = none →
      (GetMemoryCuda st size d true (some p)).result = Except.ok p ∧
      (GetMemoryCuda st size d true (some p)).calls =
        [SysCall.CudaSetDevice d,
          SysCall.CudaMalloc (allocationSize size * sizeofFloat % SIZE_MOD)] ∧
      (GetMemoryCuda st size d true (some p)).state.m_cudaFreeMemoryPool =
        st.m_cudaFreeMemoryPool ∧
      (GetMemoryCuda st size d true (some p)).state.m_cudaBusyMemoryPool =
        ((d, p), MemoryChunk.mk (allocationSize size) p 1) :: st.m_cudaBusyMemoryPool ∧
      (GetMemoryCuda st size d true (some p)).state.m_hostFreeMemoryPool =
        st.m_hostFreeMemoryPool ∧
      (GetMemoryCuda st size d true (some p)).state.m_hostBusyMemoryPool =
        st.m_hostBusyMemoryPool ∧
      (GetMemoryCuda st size d true (some p)).state.hostHeap = st.hostHeap) := by
  constructor
  · intro hhost hnew
    refine ⟨?_, ?_, ?_, ?_, ?_, ?_, ?_⟩
    · simp [GetMemoryHost, hhost]
    · simp [GetMemoryHost, hhost]
    · simp [GetMemoryHost, hhost]
    · simp [GetMemoryHost, hhost, mapEmplace, hnew]
    · refine ⟨List.replicate size 0, ?_, List.length_replicate _ _, ?_⟩
      · simp [GetMemoryHost, hhost, mapFind]
      · intro x hx
        exact List.eq_of_mem_replicate hx
    · simp [GetMemoryHost, hhost]
    · simp [GetMemoryHost, hhost]
  · intro hcuda hdev
    refine ⟨?_, ?_, ?_, ?_, ?_, ?_, ?_⟩
    · simp [GetMemoryCuda, hcuda]
    · simp [GetMemoryCuda, hcuda]
    · simp [GetMemoryCuda, hcuda]
    · simp [GetMemoryCuda, hcuda, mapEmplace, hdev]
    · simp [GetMemoryCuda, hcuda]
    · simp [GetMemoryCuda, hcuda]
    · simp [GetMemoryCuda, hcuda]

/-- C8, from the empty pools with 3 host cells and 3 device cells on device 0. -/
theorem acquire_miss_witness :
    (GetMemoryHost MemoryManager.empty 3 (some 4096)).state.m_hostBusyMemoryPool =
      [(4096, MemoryChunk.mk 3 4096 1)] ∧
    (GetMemoryCuda MemoryManager.empty 3 0 true (some 4096)).state.m_cudaBusyMemoryPool =
      [((0, 4096), MemoryChunk.mk 256 4096 1)] :=
  ⟨((acquire_miss MemoryManager.empty 3 0 4096).1 (by decide) (by decide)).2.2.2.1,
    ((acquire_miss MemoryManager.empty 3 0 4096).2 (by decide) (by decide)).2.2.2.1⟩

/-! ### AddReference -/

/-- C9: for a buffer identity `p` found in the busy collection (under device `d` on the
accelerator) with chunk `c`, `AddReferenceHost(p)` and `AddReferenceCuda(p, d)` succeed and
replace that one entry by the same chunk with `RefCount` one higher; `Size` and `Data` of the
chunk, every other busy entry, the free collection, the other domain and the host buffers
stay as they were. -/
theorem addReference_effect_frame (st : MemoryManager) (p : Ptr) (d : Int)
    (ch cc : MemoryChunk) :
    (mapFind p st.m_hostBusyMemoryPool = some ch →
      (AddReferenceHost st p).result = Except.ok () ∧
      (∃ l1 l2, st.m_hostBusyMemoryPool = l1 ++ (p, ch) :: l2 ∧ (∀ e ∈ l1, e.1 ≠ p) ∧
        (AddReferenceHost st p).state.m_hostBusyMemoryPool =
          l1 ++ (p, MemoryChunk.mk ch.Size ch.Data (ch.RefCount + 1)) :: l2) ∧
      mapFind p (AddReferenceHost st p).state.m_hostBusyMemoryPool =
        some (MemoryChunk.mk ch.Size ch.Data (ch.RefCount + 1)) ∧
      (∀ q, q ≠ p → mapFind q (AddReferenceHost st p).state.m_hostBusyMemoryPool =
        mapFind q st.m_hostBusyMemoryPool) ∧
      (AddReferenceHost st p).state.m_hostFreeMemoryPool = st.m_hostFreeMemoryPool ∧
      (AddReferenceHost st p).state.m_cudaFreeMemoryPool = st.m_cudaFreeMemoryPool ∧
      (AddReferenceHost st p).state.m_cudaBusyMemoryPool = st.m_cudaBusyMemoryPool ∧
      (AddReferenceHost st p).state.hostHeap = st.hostHeap) ∧
    (mapFind (d, p) st.m_cudaBusyMemoryPool = some cc →
      (AddReferenceCuda st p d).result = Except.ok () ∧
      (∃ l1 l2, st.m_cudaBusyMemoryPool = l1 ++ ((d, p), cc) :: l2 ∧
        (∀ e ∈ l1, e.1 ≠ (d, p)) ∧
        (AddReferenceCuda st p d).state.m_cudaBusyMemoryPool =
          l1 ++ ((d, p), MemoryChunk.mk cc.Size cc.Data (cc.RefCount + 1)) :: l2) ∧
      mapFind (d, p) (AddReferenceCuda st p d).state.m_cudaBusyMemoryPool =
        some (MemoryChunk.mk cc.Size cc.Data (cc.RefCount + 1)) ∧
      (∀ q, q ≠ (d, p) → mapFind q (AddReferenceCuda st p d).state.m_cudaBusyMemoryPool =
        mapFind q st.m_cudaBusyMemoryPool) ∧
      (AddReferenceCuda st p d).state.m_cudaFreeMemoryPool = st.m_cudaFreeMemoryPool ∧
      (AddReferenceCuda st p d).state.m_hostFreeMemoryPool = st.m_hostFreeMemoryPool ∧
      (AddReferenceCuda st p d).state.m_hostBusyMemoryPool = st.m_hostBusyMemoryPool ∧
      (AddReferenceCuda st p d).state.hostHeap = st.hostHeap) := by
  constructor
  · intro h
    have hs : (AddReferenceHost st p).state.m_hostBusyMemoryPool =
        mapSet p (fun chunk => { chunk with RefCount := chunk.RefCount + 1 })
          st.m_hostBusyMemoryPool := by
      simp [AddReferenceHost, h]
    refine ⟨by simp [AddReferenceHost, h], ?_, ?_, ?_, by simp [AddReferenceHost, h],
      by simp [AddReferenceHost, h], by simp [AddReferenceHost, h],
      by simp [AddReferenceHost, h]⟩
    · obtain ⟨l1, l2, h1, h2, h3⟩ :=
        mapSet_split (fun chunk : MemoryChunk => { chunk with RefCount := chunk.RefCount + 1 }) h
      exact ⟨l1, l2, h1, h2, by rw [hs, h3]⟩
    · rw [hs, mapFind_mapSet_self _ h]
    · intro q hq
      rw [hs, mapFind_mapSet_ne _ _ hq]
  · intro h
    have hs : (AddReferenceCuda st p d).state.m_cudaBusyMemoryPool =
        mapSet (d, p) (fun chunk => { chunk with RefCount := chunk.RefCount + 1 })
          st.m_cudaBusyMemoryPool := by
      simp [AddReferenceCuda, h]
    refine ⟨by simp [AddReferenceCuda, h], ?_, ?_, ?_, by simp [AddReferenceCuda, h],
      by simp [AddReferenceCuda, h], by simp [AddReferenceCuda, h],
      by simp [AddReferenceCuda, h]⟩
    · obtain ⟨l1, l2, h1, h2, h3⟩ :=
        mapSet_split (fun chunk : MemoryChunk => { chunk with RefCount := chunk.RefCount + 1 }) h
      exact ⟨l1, l2, h1, h2, by rw [hs, h3]⟩
    · rw [hs, mapFind_mapSet_self _ h]
    · intro q hq
      rw [hs, mapFind_mapSet_ne _ _ hq]

/-- C9, on a pool with one busy host chunk and one busy device chunk. -/
theorem addReference_effect_frame_witness :
    mapFind 4096 (AddReferenceHost (GetMemoryHost MemoryManager.empty 3 (some 4096)).state
      4096).state.m_hostBusyMemoryPool = some (MemoryChunk.mk 3 4096 2) ∧
    mapFind (0, 8192) (AddReferenceCuda (GetMemoryCuda MemoryManager.empty 3 0 true
      (some 8192)).state 8192 0).state.m_cudaBusyMemoryPool =
      some (MemoryChunk.mk 256 8192 2) :=
  ⟨((addReference_effect_frame (GetMemoryHost MemoryManager.empty 3 (some 4096)).state 4096 0
      (MemoryChunk.mk 3 4096 1) (MemoryChunk.mk 3 4096 1)).1 (by decide)).2.2.1,
    ((addReference_effect_frame (GetMemoryCuda MemoryManager.empty 3 0 true (some 8192)).state
      8192 0 (MemoryChunk.mk 256 8192 1) (MemoryChunk.mk 256 8192 1)).2 (by decide)).2.2.1⟩

/-! ### The branches of each operation -/

theorem GetMemoryHost_hit {st : MemoryManager} {size : Nat} {c : MemoryChunk}
    (newResult : Option Ptr) (h : mapFind size st.m_hostFreeMemoryPool = some c) :
    GetMemoryHost st size newResult =
      { result := Except.ok c.Data
        state := { st with
          m_hostFreeMemoryPool := multiErase size st.m_hostFreeMemoryPool
          m_hostBusyMemoryPool :=
            mapEmplace c.Data (MemoryChunk.mk c.Size c.Data (c.RefCount + 1))
              st.m_hostBusyMemoryPool }
        calls := [] } := by
  simp [GetMemoryHost, h]

theorem GetMemoryHost_miss {st : MemoryManager} {size : Nat} (p : Ptr)
    (h : mapFind size st.m_hostFreeMemoryPool = none) :
    GetMemoryHost st size (some p) =
      { result := Except.ok p
        state := { st with
          hostHeap := (p, List.replicate size 0) :: mapErase p st.hostHeap
          m_hostBusyMemoryPool :=
            mapEmplace p (MemoryChunk.mk size p 1) st.m_hostBusyMemoryPool }
        calls := [SysCall.newFloatArray size] } := by
  simp [GetMemoryHost, h]

theorem GetMemoryHost_bad_alloc {st : MemoryManager} {size : Nat}
    (h : mapFind size st.m_hostFreeMemoryPool = none) :
    GetMemoryHost st size none =
      { result := Except.error "std::bad_alloc", state := st,
        calls := [SysCall.newFloatArray size] } := by
  simp [GetMemoryHost, h]

theorem GetMemoryCuda_hit {st : MemoryManager} {size : Nat} {d : Int} {c : MemoryChunk}
    (setDeviceOk : Bool) (mallocResult : Option Ptr)
    (h : mapFind (d, allocationSize size) st.m_cudaFreeMemoryPool = some c) :
    GetMemoryCuda st size d setDeviceOk mallocResult =
      { result := Except.ok c.Data
        state := { st with
          m_cudaFreeMemoryPool := multiErase (d, allocationSize size) st.m_cudaFreeMemoryPool
          m_cudaBusyMemoryPool :=
            mapEmplace (d, c.Data) (MemoryChunk.mk c.Size c.Data (c.RefCount + 1))
              st.m_cudaBusyMemoryPool }
        calls := [] } := by
  simp [GetMemoryCuda, h]

theorem GetMemoryCuda_miss {st : MemoryManager} {size : Nat} {d : Int}
    (setDeviceOk : Bool) (mallocResult : Option Ptr)
    (h : mapFind (d, allocationSize size) st.m_cudaFreeMemoryPool = none) :
    GetMemoryCuda st size d setDeviceOk mallocResult =
      { result :=
          if (setDeviceOk && mallocResult.isSome) = true then
            Except.ok (mallocResult.getD nullptr)
          else Except.error "GetMemoryCuda - Allocation failure"
        state := { st with
          m_cudaBusyMemoryPool :=
            mapEmplace (d, mallocResult.getD nullptr)
              (MemoryChunk.mk (allocationSize size) (mallocResult.getD nullptr) 1)
              st.m_cudaBusyMemoryPool }
        calls := [SysCall.CudaSetDevice d,
                  SysCall.CudaMalloc (allocationSize size * sizeofFloat % SIZE_MOD)] } := by
  simp [GetMemoryCuda, h]

theorem AddReferenceHost_found {st : MemoryManager} {p : Ptr} {c : MemoryChunk}
    (h : mapFind p st.m_hostBusyMemoryPool = some c) :
    AddReferenceHost st p =
      { result := Except.ok ()
        state := { st with
          m_hostBusyMemoryPool :=
            mapSet p (fun chunk => MemoryChunk.mk chunk.Size chunk.Data (chunk.RefCount + 1))
              st.m_hostBusyMemoryPool }
        calls := [] } := by
  simp [AddReferenceHost, h]

theorem AddReferenceHost_unknown {st : MemoryManager} {p : Ptr}
    (h : mapFind p st.m_hostBusyMemoryPool = none) :
    AddReferenceHost st p =
      { result := Except.error "AddReferenceHost - Reference was not found", state := st,
        calls := [] } := by
  simp [AddReferenceHost, h]

theorem AddReferenceCuda_found {st : MemoryManager} {p : Ptr} {d : Int} {c : MemoryChunk}
    (h : mapFind (d, p) st.m_cudaBusyMemoryPool = some c) :
    AddReferenceCuda st p d =
      { result := Except.ok ()
        state := { st with
          m_cudaBusyMemoryPool :=
            mapSet (d, p)
              (fun chunk => MemoryChunk.mk chunk.Size chunk.Data (chunk.RefCount + 1))
              st.m_cudaBusyMemoryPool }
        calls := [] } := by
  simp [AddReferenceCuda, h]

theorem AddReferenceCuda_unknown {st : MemoryManager} {p : Ptr} {d : Int}
    (h : mapFind (d, p) st.m_cudaBusyMemoryPool = none) :
    AddReferenceCuda st p d =
      { result := Except.error "AddReferenceCuda - Reference was not found", state := st,
        calls := [] } := by
  simp [AddReferenceCuda, h]

theorem DeReferenceHost_last {st : MemoryManager} {p : Ptr} {c : MemoryChunk}
    (h : mapFind p st.m_hostBusyMemoryPool = some c) (hr : c.RefCount = 1) :
    DeReferenceHost st p =
      { result := Except.ok ()
        state := { st with
          m_hostBusyMemoryPool := mapErase p st.m_hostBusyMemoryPool
          m_hostFreeMemoryPool :=
            (c.Size, MemoryChunk.mk c.Size c.Data 0) :: st.m_hostFreeMemoryPool }
        calls := [] } := by
  simp [DeReferenceHost, h, hr, multiEmplace]

theorem DeReferenceHost_more {st : MemoryManager} {p : Ptr} {c : MemoryChunk}
    (h : mapFind p st.m_hostBusyMemoryPool = some c) (hr : c.RefCount ≠ 1) :
    DeReferenceHost st p =
      { result := Except.ok ()
        state := { st with
          m_hostBusyMemoryPool :=
            mapSet p (fun _ => MemoryChunk.mk c.Size c.Data (c.RefCount - 1))
              st.m_hostBusyMemoryPool }
        calls := [] } := by
  have hz : ¬ (c.RefCount - 1 = 0) := by omega
  simp [DeReferenceHost, h, hz]

theorem DeReferenceHost_unknown {st : MemoryManager} {p : Ptr}
    (h : mapFind p st.m_hostBusyMemoryPool = none) :
    DeReferenceHost st p =
      { result := Except.error "DeReferenceHost - Reference was not found", state := st,
        calls := [] } := by
  simp [DeReferenceHost, h]

theorem DeReferenceCuda_last {st : MemoryManager} {p : Ptr} {d : Int} {c : MemoryChunk}
    (h : mapFind (d, p) st.m_cudaBusyMemoryPool = some c) (hr : c.RefCount = 1) :
    DeReferenceCuda st p d =
      { result := Except.ok ()
        state := { st with
          m_cudaBusyMemoryPool := mapErase (d, p) st.m_cudaBusyMemoryPool
          m_cudaFreeMemoryPool :=
            ((d, c.Size), MemoryChunk.mk c.Size c.Data 0) :: st.m_cudaFreeMemoryPool }
        calls := [] } := by
  simp [DeReferenceCuda, h, hr, multiEmplace]

theorem DeReferenceCuda_more {st : MemoryManager} {p : Ptr} {d : Int} {c : MemoryChunk}
    (h : mapFind (d, p) st.m_cudaBusyMemoryPool = some c) (hr : c.RefCount ≠ 1) :
    DeReferenceCuda st p d =
      { result := Except.ok ()
        state := { st with
          m_cudaBusyMemoryPool :=
            mapSet (d, p) (fun _ => MemoryChunk.mk c.Size c.Data (c.RefCount - 1))
              st.m_cudaBusyMemoryPool }
        calls := [] } := by
  have hz : ¬ (c.RefCount - 1 = 0) := by omega
  simp [DeReferenceCuda, h, hz]

theorem DeReferenceCuda_unknown {st : MemoryManager} {p : Ptr} {d : Int}
    (h : mapFind (d, p) st.m_cudaBusyMemoryPool = none) :
    DeReferenceCuda st p d =
      { result := Except.error "DeReferenceCuda - Reference was not found", state := st,
        calls := [] } := by
  simp [DeReferenceCuda, h]

/-! ### Bookkeeping holds in every reachable state -/

theorem Bookkeeping_empty : Bookkeeping MemoryManager.empty := by
  refine ⟨?_, ?_, ?_, ?_⟩ <;> intro e he <;> cases he

theorem Bookkeeping_GetMemoryHost {st : MemoryManager} (size : Nat) (newResult : Option Ptr)
    (h : Bookkeeping st) : Bookkeeping (GetMemoryHost st size newResult).state := by
  obtain ⟨hf, hb, cf, cb⟩ := h
  cases hfind : mapFind size st.m_hostFreeMemoryPool with
  | some c =>
    have hc : c.RefCount = 0 := (hf _ (mapFind_mem hfind)).1
    rw [GetMemoryHost_hit newResult hfind]
    refine ⟨?_, ?_, cf, cb⟩
    · intro e he
      exact hf e (mem_multiErase he)
    · intro e he
      rcases mem_mapEmplace he with rfl | he2
      · simp [hc]
      · exact hb e he2
  | none =>
    cases newResult with
    | none =>
      rw [GetMemoryHost_bad_alloc hfind]
      exact ⟨hf, hb, cf, cb⟩
    | some p =>
      rw [GetMemoryHost_miss p hfind]
      refine ⟨hf, ?_, cf, cb⟩
      intro e he
      rcases mem_mapEmplace he with rfl | he2
      · simp
      · exact hb e he2

theorem Bookkeeping_GetMemoryCuda {st : MemoryManager} (size : Nat) (d : Int)
    (setDeviceOk : Bool) (mallocResult : Option Ptr) (h : Bookkeeping st) :
    Bookkeeping (GetMemoryCuda st size d setDeviceOk mallocResult).state := by
  obtain ⟨hf, hb, cf, cb⟩ := h
  cases hfind : mapFind (d, allocationSize size) st.m_cudaFreeMemoryPool with
  | some c =>
    have hc : c.RefCount = 0 := (cf _ (mapFind_mem hfind)).1
    have hs : allocationSize c.Size = c.Size := (cf _ (mapFind_mem hfind)).2.2
    rw [GetMemoryCuda_hit setDeviceOk mallocResult hfind]
    refine ⟨hf, hb, ?_, ?_⟩
    · intro e he
      exact cf e (mem_multiErase he)
    · intro e he
      rcases mem_mapEmplace he with rfl | he2
      · simp [hc, hs]
      · exact cb e he2
  | none =>
    rw [GetMemoryCuda_miss setDeviceOk mallocResult hfind]
    refine ⟨hf, hb, cf, ?_⟩
    intro e he
    rcases mem_mapEmplace he with rfl | he2
    · simp [allocationSize_idem]
    · exact cb e he2

theorem Bookkeeping_AddReferenceHost {st : MemoryManager} (p : Ptr) (h : Bookkeeping st) :
    Bookkeeping (AddReferenceHost st p).state := by
  obtain ⟨hf, hb, cf, cb⟩ := h
  cases hfind : mapFind p st.m_hostBusyMemoryPool with
  | none =>
    rw [AddReferenceHost_unknown hfind]
    exact ⟨hf, hb, cf, cb⟩
  | some c =>
    rw [AddReferenceHost_found hfind]
    refine ⟨hf, ?_, cf, cb⟩
    intro e he
    rcases mem_mapSet he with he2 | ⟨v, hv, _, hev⟩
    · exact hb e he2
    · have hv2 := hb _ hv
      simp only at hv2
      rw [hev]
      exact ⟨by simp only; omega, hv2.2⟩

theorem Bookkeeping_AddReferenceCuda {st : MemoryManager} (p : Ptr) (d : Int)
    (h : Bookkeeping st) : Bookkeeping (AddReferenceCuda st p d).state := by
  obtain ⟨hf, hb, cf, cb⟩ := h
  cases hfind : mapFind (d, p) st.m_cudaBusyMemoryPool with
  | none =>
    rw [AddReferenceCuda_unknown hfind]
    exact ⟨hf, hb, cf, cb⟩
  | some c =>
    rw [AddReferenceCuda_found hfind]
    refine ⟨hf, hb, cf, ?_⟩
    intro e he
    rcases mem_mapSet he with he2 | ⟨v, hv, _, hev⟩
    · exact cb e he2
    · have hv2 := cb _ hv
      simp only at hv2
      rw [hev]
      exact ⟨by simp only; omega, hv2.2.1, hv2.2.2⟩

theorem Bookkeeping_DeReferenceHost {st : MemoryManager} (p : Ptr) (h : Bookkeeping st) :
    Bookkeeping (DeReferenceHost st p).state := by
  obtain ⟨hf, hb, cf, cb⟩ := h
  cases hfind : mapFind p st.m_hostBusyMemoryPool with
  | none =>
    rw [DeReferenceHost_unknown hfind]
    exact ⟨hf, hb, cf, cb⟩
  | some c =>
    have hc := hb _ (mapFind_mem hfind)
    simp only at hc
    by_cases hr : c.RefCount = 1
    · rw [DeReferenceHost_last hfind hr]
      refine ⟨?_, ?_, cf, cb⟩
      · intro e he
        rcases List.mem_cons.mp he with rfl | he2
        · simp
        · exact hf e he2
      · intro e he
        exact hb e (mem_mapErase he)
    · rw [DeReferenceHost_more hfind hr]
      refine ⟨hf, ?_, cf, cb⟩
      intro e he
      rcases mem_mapSet he with he2 | ⟨v, _, hk, hev⟩
      · exact hb e he2
      · rw [hev, hk]
        exact ⟨by simp only; omega, hc.2⟩

theorem Bookkeeping_DeReferenceCuda {st : MemoryManager} (p : Ptr) (d : Int)
    (h : Bookkeeping st) : Bookkeeping (DeReferenceCuda st p d).state := by
  obtain ⟨hf, hb, cf, cb⟩ := h
  cases hfind : mapFind (d, p) st.m_cudaBusyMemoryPool with
  | none =>
    rw [DeReferenceCuda_unknown hfind]
    exact ⟨hf, hb, cf, cb⟩
  | some c =>
    have hc := cb _ (mapFind_mem hfind)
    simp only at hc
    by_cases hr : c.RefCount = 1
    · rw [DeReferenceCuda_last hfind hr]
      refine ⟨hf, hb, ?_, ?_⟩
      · intro e he
        rcases List.mem_cons.mp he with rfl | he2
        · simp [hc.2.2]
        · exact cf e he2
      · intro e he
        exact cb e (mem_mapErase he)
    · rw [DeReferenceCuda_more hfind hr]
      refine ⟨hf, hb, cf, ?_⟩
      intro e he
      rcases mem_mapSet he with he2 | ⟨v, _, hk, hev⟩
      · exact cb e he2
      · rw [hev, hk]
        exact ⟨by simp only; omega, hc.2.1, hc.2.2⟩

theorem Bookkeeping_ClearUnusedHost {st : MemoryManager} (h : Bookkeeping st) :
    Bookkeeping (ClearUnusedHostMemoryPool st).state := by
  obtain ⟨_, hb, cf, cb⟩ := h
  refine ⟨?_, hb, cf, cb⟩
  intro e he
  cases he

theorem Bookkeeping_ClearHost {st : MemoryManager} (h : Bookkeeping st) :
    Bookkeeping (ClearHostMemoryPool st).state := by
  obtain ⟨_, _, cf, cb⟩ := h
  refine ⟨?_, ?_, cf, cb⟩ <;> intro e he <;> cases he

theorem ClearUnusedCudaMemoryPool_state (st : MemoryManager) (cudaFreeOk : Ptr → Bool) :
    (ClearUnusedCudaMemoryPool st cudaFreeOk).state =
      if (cudaFreeLoop cudaFreeOk st.m_cudaFreeMemoryPool).1 = true then
        { st with m_cudaFreeMemoryPool := [] }
      else st := by
  unfold ClearUnusedCudaMemoryPool
  by_cases hok : (cudaFreeLoop cudaFreeOk st.m_cudaFreeMemoryPool).1 = true <;> simp [hok]

theorem ClearCudaMemoryPool_state (st : MemoryManager) (cudaFreeOk : Ptr → Bool) :
    (ClearCudaMemoryPool st cudaFreeOk).state =
      if (cudaFreeLoop cudaFreeOk st.m_cudaFreeMemoryPool).1 = true then
        if (cudaFreeLoop cudaFreeOk st.m_cudaBusyMemoryPool).1 = true then
          { st with m_cudaFreeMemoryPool := [], m_cudaBusyMemoryPool := [] }
        else { st with m_cudaFreeMemoryPool := [] }
      else st := by
  unfold ClearCudaMemoryPool
  by_cases hok : (cudaFreeLoop cudaFreeOk st.m_cudaFreeMemoryPool).1 = true <;>
    by_cases hok2 : (cudaFreeLoop cudaFreeOk st.m_cudaBusyMemoryPool).1 = true <;>
    simp [hok, hok2]

theorem Bookkeeping_ClearUnusedCuda {st : MemoryManager} (cudaFreeOk : Ptr → Bool)
    (h : Bookkeeping st) : Bookkeeping (ClearUnusedCudaMemoryPool st cudaFreeOk).state := by
  obtain ⟨hf, hb, cf, cb⟩ := h
  rw [ClearUnusedCudaMemoryPool_state]
  split
  · refine ⟨hf, hb, ?_, cb⟩
    intro e he
    cases he
  · exact ⟨hf, hb, cf, cb⟩

theorem Bookkeeping_ClearCuda {st : MemoryManager} (cudaFreeOk : Ptr → Bool)
    (h : Bookkeeping st) : Bookkeeping (ClearCudaMemoryPool st cudaFreeOk).state := by
  obtain ⟨hf, hb, cf, cb⟩ := h
  rw [ClearCudaMemoryPool_state]
  split
  · split
    · refine ⟨hf, hb, ?_, ?_⟩ <;> intro e he <;> cases he
    · refine ⟨hf, hb, ?_, cb⟩
      intro e he
      cases he
  · exact ⟨hf, hb, cf, cb⟩

theorem Reachable.bookkeeping {st : MemoryManager} (h : Reachable st) : Bookkeeping st := by
  induction h with
  | init => exact Bookkeeping_empty
  | getMemoryHost size newResult _ _ ih => exact Bookkeeping_GetMemoryHost size newResult ih
  | getMemoryCuda size d ok mr _ _ ih => exact Bookkeeping_GetMemoryCuda size d ok mr ih
  | addReferenceHost p _ ih => exact Bookkeeping_AddReferenceHost p ih
  | addReferenceCuda p d _ ih => exact Bookkeeping_AddReferenceCuda p d ih
  | deReferenceHost p _ ih => exact Bookkeeping_DeReferenceHost p ih
  | deReferenceCuda p d _ ih => exact Bookkeeping_DeReferenceCuda p d ih
  | clearUnusedHost _ ih => exact Bookkeeping_ClearUnusedHost ih
  | clearUnusedCuda f _ ih => exact Bookkeeping_ClearUnusedCuda f ih
  | clearHost _ ih => exact Bookkeeping_ClearHost ih
  | clearCuda f _ ih => exact Bookkeeping_ClearCuda f ih

/-! ### Release -/

/-- C10: in every reachable state, for a busy buffer identity `p` whose chunk has
`RefCount = r ≥ 1`, `DeReferenceHost(p)` and `DeReferenceCuda(p, d)` succeed. When `r > 1` the
chunk stays busy with `RefCount = r - 1` and the free collection is unchanged. When `r = 1`
the identity `p` leaves the busy collection and the chunk enters the free collection with
`RefCount` 0 under its recorded `Size` (with device `d` on the accelerator), and the next
Acquire that looks up this key returns `p` without allocating. Other busy entries are not
touched. -/
theorem release_effect (st : MemoryManager) (hreach : Reachable st) (p : Ptr) (d : Int)
    (ch cc : MemoryChunk) :
    (mapFind p st.m_hostBusyMemoryPool = some ch → 1 ≤ ch.RefCount →
      (DeReferenceHost st p).result = Except.ok () ∧
      (∀ q, q ≠ p → mapFind q (DeReferenceHost st p).state.m_hostBusyMemoryPool =
        mapFind q st.m_hostBusyMemoryPool) ∧
      (1 < ch.RefCount →
        mapFind p (DeReferenceHost st p).state.m_hostBusyMemoryPool =
          some (MemoryChunk.mk ch.Size ch.Data (ch.RefCount - 1)) ∧
        (DeReferenceHost st p).state.m_hostFreeMemoryPool = st.m_hostFreeMemoryPool) ∧
      (ch.RefCount = 1 →
        mapFind p (DeReferenceHost st p).state.m_hostBusyMemoryPool = none ∧
        (DeReferenceHost st p).state.m_hostFreeMemoryPool =
          (ch.Size, MemoryChunk.mk ch.Size p 0) :: st.m_hostFreeMemoryPool ∧
        ∀ newResult,
          (GetMemoryHost (DeReferenceHost st p).state ch.Size newResult).result = Except.ok p ∧
          (GetMemoryHost (DeReferenceHost st p).state ch.Size newResult).calls = [])) ∧
    (mapFind (d, p) st.m_cudaBusyMemoryPool = some cc → 1 ≤ cc.RefCount →
      (DeReferenceCuda st p d).result = Except.ok () ∧
      (∀ q, q ≠ (d, p) → mapFind q (DeReferenceCuda st p d).state.m_cudaBusyMemoryPool =
        mapFind q st.m_cudaBusyMemoryPool) ∧
      (1 < cc.RefCount →
        mapFind (d, p) (DeReferenceCuda st p d).state.m_cudaBusyMemoryPool =
          some (MemoryChunk.mk cc.Size cc.Data (cc.RefCount - 1)) ∧
        (DeReferenceCuda st p d).state.m_cudaFreeMemoryPool = st.m_cudaFreeMemoryPool) ∧
      (cc.RefCount = 1 →
        mapFind (d, p) (DeReferenceCuda st p d).state.m_cudaBusyMemoryPool = none ∧
        (DeReferenceCuda st p d).state.m_cudaFreeMemoryPool =
          ((d, cc.Size), MemoryChunk.mk cc.Size p 0) :: st.m_cudaFreeMemoryPool ∧
        allocationSize cc.Size = cc.Size ∧
        ∀ size setDeviceOk mallocResult, allocationSize size = cc.Size →
          (GetMemoryCuda (DeReferenceCuda st p d).state size d setDeviceOk
            mallocResult).result = Except.ok p ∧
          (GetMemoryCuda (DeReferenceCuda st p d).state size d setDeviceOk
            mallocResult).calls = [])) := by
  obtain ⟨_, hb, _, cb⟩ := hreach.bookkeeping
  constructor
  · intro hfind hr
    have hdata : ch.Data = p := ((hb _ (mapFind_mem hfind)).2).symm
    by_cases h1 : ch.RefCount = 1
    · rw [DeReferenceHost_last hfind h1]
      refine ⟨rfl, ?_, ?_, ?_⟩
      · intro q hq
        exact mapFind_mapErase_ne _ hq
      · intro hlt
        omega
      · intro _
        refine ⟨mapFind_mapErase_self _ _, by simp [hdata], ?_⟩
        intro newResult
        have hhit : mapFind ch.Size
            ((ch.Size, MemoryChunk.mk ch.Size ch.Data 0) :: st.m_hostFreeMemoryPool) =
            some (MemoryChunk.mk ch.Size ch.Data 0) := mapFind_cons_self _ _ _
        rw [GetMemoryHost_hit newResult hhit]
        simp [hdata]
    · rw [DeReferenceHost_more hfind h1]
      refine ⟨rfl, ?_, ?_, ?_⟩
      · intro q hq
        exact mapFind_mapSet_ne _ _ hq
      · intro _
        exact ⟨mapFind_mapSet_self _ hfind, rfl⟩
      · intro h
        exact absurd h h1
  · intro hfind hr
    have hdata : cc.Data = p := ((cb _ (mapFind_mem hfind)).2.1).symm
    have hsize : allocationSize cc.Size = cc.Size := (cb _ (mapFind_mem hfind)).2.2
    by_cases h1 : cc.RefCount = 1
    · rw [DeReferenceCuda_last hfind h1]
      refine ⟨rfl, ?_, ?_, ?_⟩
      · intro q hq
        exact mapFind_mapErase_ne _ hq
      · intro hlt
        omega
      · intro _
        refine ⟨mapFind_mapErase_self _ _, by simp [hdata], hsize, ?_⟩
        intro size setDeviceOk mallocResult hclass
        have hhit : mapFind (d, allocationSize size)
            (((d, cc.Size), MemoryChunk.mk cc.Size cc.Data 0) :: st.m_cudaFreeMemoryPool) =
            some (MemoryChunk.mk cc.Size cc.Data 0) := by
          rw [hclass]
          exact mapFind_cons_self _ _ _
        rw [GetMemoryCuda_hit setDeviceOk mallocResult hhit]
        simp [hdata]
    · rw [DeReferenceCuda_more hfind h1]
      refine ⟨rfl, ?_, ?_, ?_⟩
      · intro q hq
        exact mapFind_mapSet_ne _ _ hq
      · intro _
        exact ⟨mapFind_mapSet_self _ hfind, rfl⟩
      · intro h
        exact absurd h h1

/-- C10, in the state reached by `GetMemoryHost(1000)` then `GetMemoryCuda(1000, 0)`: the last
release of each buffer moves it to the free collection and the next Acquire returns it. -/
theorem release_effect_witness :
    Reachable (GetMemoryCuda (GetMemoryHost MemoryManager.empty 1000 (some 4096)).state 1000 0
      true (some 8192)).state ∧
    (GetMemoryHost (DeReferenceHost (GetMemoryCuda (GetMemoryHost MemoryManager.empty 1000
      (some 4096)).state 1000 0 true (some 8192)).state 4096).state 1000 none).result =
      Except.ok 4096 ∧
    (GetMemoryCuda (DeReferenceCuda (GetMemoryCuda (GetMemoryHost MemoryManager.empty 1000
      (some 4096)).state 1000 0 true (some 8192)).state 8192 0).state 1024 0 false none).result =
      Except.ok 8192 :=
  have hr : Reachable (GetMemoryCuda (GetMemoryHost MemoryManager.empty 1000
      (some 4096)).state 1000 0 true (some 8192)).state :=
    Reachable.getMemoryCuda 1000 0 true (some 8192)
      (Reachable.getMemoryHost 1000 (some 4096) Reachable.init (by decide)) (by decide)
  ⟨hr,
    ((((release_effect _ hr 4096 0 (MemoryChunk.mk 1000 4096 1)
      (MemoryChunk.mk 1024 8192 1)).1 (by decide) (by decide)).2.2.2 (by decide)).2.2 none).1,
    ((((release_effect _ hr 8192 0 (MemoryChunk.mk 1000 4096 1)
      (MemoryChunk.mk 1024 8192 1)).2 (by decide) (by decide)).2.2.2 (by decide)).2.2.2
        1024 false none (by decide)).1⟩

/-! ### Reference symmetry -/

theorem addReferenceHost_repeat (p : Ptr) (n : Nat) : ∀ (st : MemoryManager) (c : MemoryChunk),
    mapFind p st.m_hostBusyMemoryPool = some c →
    (repeatCall (fun s => AddReferenceHost s p) n st).result = Except.ok () ∧
    mapFind p (repeatCall (fun s => AddReferenceHost s p) n st).state.m_hostBusyMemoryPool =
      some (MemoryChunk.mk c.Size c.Data (c.RefCount + n)) ∧
    (repeatCall (fun s => AddReferenceHost s p) n st).state.m_hostFreeMemoryPool =
      st.m_hostFreeMemoryPool := by
  induction n with
  | zero =>
    intro st c h
    exact ⟨rfl, by simpa [repeatCall] using h, rfl⟩
  | succ n ih =>
    intro st c h
    have hstep := AddReferenceHost_found h
    have hnext : mapFind p (AddReferenceHost st p).state.m_hostBusyMemoryPool =
        some (MemoryChunk.mk c.Size c.Data (c.RefCount + 1)) := by
      rw [hstep]
      exact mapFind_mapSet_self _ h
    have hfree : (AddReferenceHost st p).state.m_hostFreeMemoryPool =
        st.m_hostFreeMemoryPool := by
      rw [hstep]
    have hres : (AddReferenceHost st p).result = Except.ok () := by
      rw [hstep]
    obtain ⟨h1, h2, h3⟩ := ih _ _ hnext
    have hunf : repeatCall (fun s => AddReferenceHost s p) (n + 1) st =
        repeatCall (fun s => AddReferenceHost s p) n (AddReferenceHost st p).state := by
      simp [repeatCall, hres]
    rw [hunf]
    refine ⟨h1, ?_, h3.trans hfree⟩
    rw [h2]
    simp only [Nat.cast_add, Nat.cast_one, Option.some.injEq, MemoryChunk.mk.injEq, true_and]
    omega

theorem deReferenceHost_repeat_partial (p : Ptr) (m : Nat) :
    ∀ (st : MemoryManager) (c : MemoryChunk),
    mapFind p st.m_hostBusyMemoryPool = some c → (m : Int) < c.RefCount →
    (repeatCall (fun s => DeReferenceHost s p) m st).result = Except.ok () ∧
    mapFind p (repeatCall (fun s => DeReferenceHost s p) m st).state.m_hostBusyMemoryPool =
      some (MemoryChunk.mk c.Size c.Data (c.RefCount - m)) ∧
    (repeatCall (fun s => DeReferenceHost s p) m st).state.m_hostFreeMemoryPool =
      st.m_hostFreeMemoryPool := by
  induction m with
  | zero =>
    intro st c h _
    exact ⟨rfl, by simpa [repeatCall] using h, rfl⟩
  | succ m ih =>
    intro st c h hlt
    have hne : c.RefCount ≠ 1 := by
      simp only [Nat.cast_add, Nat.cast_one] at hlt
      omega
    have hstep := DeReferenceHost_more h hne
    have hnext : mapFind p (DeReferenceHost st p).state.m_hostBusyMemoryPool =
        some (MemoryChunk.mk c.Size c.Data (c.RefCount - 1)) := by
      rw [hstep]
      exact mapFind_mapSet_self _ h
    have hfree : (DeReferenceHost st p).state.m_hostFreeMemoryPool =
        st.m_hostFreeMemoryPool := by
      rw [hstep]
    have hres : (DeReferenceHost st p).result = Except.ok () := by
      rw [hstep]
    have hlt2 : (m : Int) < (MemoryChunk.mk c.Size c.Data (c.RefCount - 1)).RefCount := by
      simp only [Nat.cast_add, Nat.cast_one] at hlt
      simp only
      omega
    obtain ⟨h1, h2, h3⟩ := ih _ _ hnext hlt2
    have hunf : repeatCall (fun s => DeReferenceHost s p) (m + 1) st =
        repeatCall (fun s => DeReferenceHost s p) m (DeReferenceHost st p).state := by
      simp [repeatCall, hres]
    rw [hunf]
    refine ⟨h1, ?_, h3.trans hfree⟩
    rw [h2]
    simp only [Nat.cast_add, Nat.cast_one, Option.some.injEq, MemoryChunk.mk.injEq, true_and]
    omega

theorem deReferenceHost_repeat_all (p : Ptr) (k : Nat) :
    ∀ (st : MemoryManager) (c : MemoryChunk),
    mapFind p st.m_hostBusyMemoryPool = some c → c.RefCount = (k : Int) + 1 →
    (repeatCall (fun s => DeReferenceHost s p) (k + 1) st).result = Except.ok () ∧
    mapFind p (repeatCall (fun s => DeReferenceHost s p) (k + 1) st).state.m_hostBusyMemoryPool =
      none ∧
    (repeatCall (fun s => DeReferenceHost s p) (k + 1) st).state.m_hostFreeMemoryPool =
      (c.Size, MemoryChunk.mk c.Size c.Data 0) :: st.m_hostFreeMemoryPool := by
  induction k with
  | zero =>
    intro st c h hr
    have h1 : c.RefCount = 1 := by simpa using hr
    have hstep := DeReferenceHost_last h h1
    have hres : (DeReferenceHost st p).result = Except.ok () := by
      rw [hstep]
    have hunf : repeatCall (fun s => DeReferenceHost s p) (0 + 1) st =
        repeatCall (fun s => DeReferenceHost s p) 0 (DeReferenceHost st p).state := by
      simp [repeatCall, hres]
    rw [hunf, hstep]
    exact ⟨rfl, mapFind_mapErase_self _ _, rfl⟩
  | succ k ih =>
    intro st c h hr
    have hne : c.RefCount ≠ 1 := by
      simp only [Nat.cast_add, Nat.cast_one] at hr
      omega
    have hstep := DeReferenceHost_more h hne
    have hnext : mapFind p (DeReferenceHost st p).state.m_hostBusyMemoryPool =
        some (MemoryChunk.mk c.Size c.Data (c.RefCount - 1)) := by
      rw [hstep]
      exact mapFind_mapSet_self _ h
    have hfree : (DeReferenceHost st p).state.m_hostFreeMemoryPool =
        st.m_hostFreeMemoryPool := by
      rw [hstep]
    have hres : (DeReferenceHost st p).result = Except.ok () := by
      rw [hstep]
    have hr2 : (MemoryChunk.mk c.Size c.Data (c.RefCount - 1)).RefCount = (k : Int) + 1 := by
      simp only [Nat.cast_add, Nat.cast_one] at hr
      simp only
      omega
    obtain ⟨h1, h2, h3⟩ := ih _ _ hnext hr2
    have hunf : repeatCall (fun s => DeReferenceHost s p) (k + 1 + 1) st =
        repeatCall (fun s => DeReferenceHost s p) (k + 1) (DeReferenceHost st p).state := by
      simp [repeatCall, hres]
    rw [hunf]
    exact ⟨h1, h2, by rw [h3, hfree]⟩

theorem addReferenceCuda_repeat (p : Ptr) (d : Int) (n : Nat) :
    ∀ (st : MemoryManager) (c : MemoryChunk),
    mapFind (d, p) st.m_cudaBusyMemoryPool = some c →
    (repeatCall (fun s => AddReferenceCuda s p d) n st).result = Except.ok () ∧
    mapFind (d, p) (repeatCall (fun s => AddReferenceCuda s p d) n st).state.m_cudaBusyMemoryPool =
      some (MemoryChunk.mk c.Size c.Data (c.RefCount + n)) ∧
    (repeatCall (fun s => AddReferenceCuda s p d) n st).state.m_cudaFreeMemoryPool =
      st.m_cudaFreeMemoryPool := by
  induction n with
  | zero =>
    intro st c h
    exact ⟨rfl, by simpa [repeatCall] using h, rfl⟩
  | succ n ih =>
    intro st c h
    have hstep := AddReferenceCuda_found h
    have hnext : mapFind (d, p) (AddReferenceCuda st p d).state.m_cudaBusyMemoryPool =
        some (MemoryChunk.mk c.Size c.Data (c.RefCount + 1)) := by
      rw [hstep]
      exact mapFind_mapSet_self _ h
    have hfree : (AddReferenceCuda st p d).state.m_cudaFreeMemoryPool =
        st.m_cudaFreeMemoryPool := by
      rw [hstep]
    have hres : (AddReferenceCuda st p d).result = Except.ok () := by
      rw [hstep]
    obtain ⟨h1, h2, h3⟩ := ih _ _ hnext
    have hunf : repeatCall (fun s => AddReferenceCuda s p d) (n + 1) st =
        repeatCall (fun s => AddReferenceCuda s p d) n (AddReferenceCuda st p d).state := by
      simp [repeatCall, hres]
    rw [hunf]
    refine ⟨h1, ?_, h3.trans hfree⟩
    rw [h2]
    simp only [Nat.cast_add, Nat.cast_one, Option.some.injEq, MemoryChunk.mk.injEq, true_and]
    omega

theorem deReferenceCuda_repeat_partial (p : Ptr) (d : Int) (m : Nat) :
    ∀ (st : MemoryManager) (c : MemoryChunk),
    mapFind (d, p) st.m_cudaBusyMemoryPool = some c → (m : Int) < c.RefCount →
    (repeatCall (fun s => DeReferenceCuda s p d) m st).result = Except.ok () ∧
    mapFind (d, p) (repeatCall (fun s => DeReferenceCuda s p d) m st).state.m_cudaBusyMemoryPool =
      some (MemoryChunk.mk c.Size c.Data (c.RefCount - m)) ∧
    (repeatCall (fun s => DeReferenceCuda s p d) m st).state.m_cudaFreeMemoryPool =
      st.m_cudaFreeMemoryPool := by
  induction m with
  | zero =>
    intro st c h _
    exact ⟨rfl, by simpa [repeatCall] using h, rfl⟩
  | succ m ih =>
    intro st c h hlt
    have hne : c.RefCount ≠ 1 := by
      simp only [Nat.cast_add, Nat.cast_one] at hlt
      omega
    have hstep := DeReferenceCuda_more h hne
    have hnext : mapFind (d, p) (DeReferenceCuda st p d).state.m_cudaBusyMemoryPool =
        some (MemoryChunk.mk c.Size c.Data (c.RefCount - 1)) := by
      rw [hstep]
      exact mapFind_mapSet_self _ h
    have hfree : (DeReferenceCuda st p d).state.m_cudaFreeMemoryPool =
        st.m_cudaFreeMemoryPool := by
      rw [hstep]
    have hres : (DeReferenceCuda st p d).result = Except.ok () := by
      rw [hstep]
    have hlt2 : (m : Int) < (MemoryChunk.mk c.Size c.Data (c.RefCount - 1)).RefCount := by
      simp only [Nat.cast_add, Nat.cast_one] at hlt
      simp only
      omega
    obtain ⟨h1, h2, h3⟩ := ih _ _ hnext hlt2
    have hunf : repeatCall (fun s => DeReferenceCuda s p d) (m + 1) st =
        repeatCall (fun s => DeReferenceCuda s p d) m (DeReferenceCuda st p d).state := by
      simp [repeatCall, hres]
    rw [hunf]
    refine ⟨h1, ?_, h3.trans hfree⟩
    rw [h2]
    simp only [Nat.cast_add, Nat.cast_one, Option.some.injEq, MemoryChunk.mk.injEq, true_and]
    omega

theorem deReferenceCuda_repeat_all (p : Ptr) (d : Int) (k : Nat) :
    ∀ (st : MemoryManager) (c : MemoryChunk),
    mapFind (d, p) st.m_cudaBusyMemoryPool = some c → c.RefCount = (k : Int) + 1 →
    (repeatCall (fun s => DeReferenceCuda s p d) (k + 1) st).result = Except.ok () ∧
    mapFind (d, p)
        (repeatCall (fun s => DeReferenceCuda s p d) (k + 1) st).state.m_cudaBusyMemoryPool =
      none ∧
    (repeatCall (fun s => DeReferenceCuda s p d) (k + 1) st).state.m_cudaFreeMemoryPool =
      ((d, c.Size), MemoryChunk.mk c.Size c.Data 0) :: st.m_cudaFreeMemoryPool := by
  induction k with
  | zero =>
    intro st c h hr
    have h1 : c.RefCount = 1 := by simpa using hr
    have hstep := DeReferenceCuda_last h h1
    have hres : (DeReferenceCuda st p d).result = Except.ok () := by
      rw [hstep]
    have hunf : repeatCall (fun s => DeReferenceCuda s p d) (0 + 1) st =
        repeatCall (fun s => DeReferenceCuda s p d) 0 (DeReferenceCuda st p d).state := by
      simp [repeatCall, hres]
    rw [hunf, hstep]
    exact ⟨rfl, mapFind_mapErase_self _ _, rfl⟩
  | succ k ih =>
    intro st c h hr
    have hne : c.RefCount ≠ 1 := by
      simp only [Nat.cast_add, Nat.cast_one] at hr
      omega
    have hstep := DeReferenceCuda_more h hne
    have hnext : mapFind (d, p) (DeReferenceCuda st p d).state.m_cudaBusyMemoryPool =
        some (MemoryChunk.mk c.Size c.Data (c.RefCount - 1)) := by
      rw [hstep]
      exact mapFind_mapSet_self _ h
    have hfree : (DeReferenceCuda st p d).state.m_cudaFreeMemoryPool =
        st.m_cudaFreeMemoryPool := by
      rw [hstep]
    have hres : (DeReferenceCuda st p d).result = Except.ok () := by
      rw [hstep]
    have hr2 : (MemoryChunk.mk c.Size c.Data (c.RefCount - 1)).RefCount = (k : Int) + 1 := by
      simp only [Nat.cast_add, Nat.cast_one] at hr
      simp only
      omega
    obtain ⟨h1, h2, h3⟩ := ih _ _ hnext hr2
    have hunf : repeatCall (fun s => DeReferenceCuda s p d) (k + 1 + 1) st =
        repeatCall (fun s => DeReferenceCuda s p d) (k + 1) (DeReferenceCuda st p d).state := by
      simp [repeatCall, hres]
    rw [hunf]
    exact ⟨h1, h2, by rw [h3, hfree]⟩

/-- C2: in every reachable state, let a successful Acquire return a buffer `p` that was not
busy before the call, and let `n` calls of AddReference(p) follow. All of them succeed and the
busy chunk of `p` has `RefCount = n + 1`. After `m ≤ n` calls of DeReference(p) the chunk is
still busy with `RefCount = n + 1 - m`. After `n + 1` calls `p` is no longer busy and sits in
the free collection with `RefCount = 0`, and call number `n + 2` throws "Reference was not
found". This holds for `GetMemoryHost` and for `GetMemoryCuda` on any device. -/
theorem reference_symmetry (st : MemoryManager) (hreach : Reachable st) (size n : Nat)
    (d : Int) (p : Ptr) :
    (∀ newResult s1 s2 s3,
      (GetMemoryHost st size newResult).result = Except.ok p →
      mapFind p st.m_hostBusyMemoryPool = none →
      s1 = (GetMemoryHost st size newResult).state →
      s2 = (repeatCall (fun s => AddReferenceHost s p) n s1).state →
      s3 = (repeatCall (fun s => DeReferenceHost s p) (n + 1) s2).state →
      (repeatCall (fun s => AddReferenceHost s p) n s1).result = Except.ok () ∧
      (∃ c, mapFind p s2.m_hostBusyMemoryPool = some c ∧ c.RefCount = (n : Int) + 1) ∧
      (∀ m, m ≤ n →
        (repeatCall (fun s => DeReferenceHost s p) m s2).result = Except.ok () ∧
        ∃ c, mapFind p
            (repeatCall (fun s => DeReferenceHost s p) m s2).state.m_hostBusyMemoryPool =
            some c ∧ c.RefCount = (n : Int) + 1 - m) ∧
      (repeatCall (fun s => DeReferenceHost s p) (n + 1) s2).result = Except.ok () ∧
      mapFind p s3.m_hostBusyMemoryPool = none ∧
      (∃ e ∈ s3.m_hostFreeMemoryPool, e.2.Data = p ∧ e.2.RefCount = 0) ∧
      (DeReferenceHost s3 p).result =
        Except.error "DeReferenceHost - Reference was not found") ∧
    (∀ setDeviceOk mallocResult s1 s2 s3,
      (GetMemoryCuda st size d setDeviceOk mallocResult).result = Except.ok p →
      mapFind (d, p) st.m_cudaBusyMemoryPool = none →
      s1 = (GetMemoryCuda st size d setDeviceOk mallocResult).state →
      s2 = (repeatCall (fun s => AddReferenceCuda s p d) n s1).state →
      s3 = (repeatCall (fun s => DeReferenceCuda s p d) (n + 1) s2).state →
      (repeatCall (fun s => AddReferenceCuda s p d) n s1).result = Except.ok () ∧
      (∃ c, mapFind (d, p) s2.m_cudaBusyMemoryPool = some c ∧ c.RefCount = (n : Int) + 1) ∧
      (∀ m, m ≤ n →
        (repeatCall (fun s => DeReferenceCuda s p d) m s2).result = Except.ok () ∧
        ∃ c, mapFind (d, p)
            (repeatCall (fun s => DeReferenceCuda s p d) m s2).state.m_cudaBusyMemoryPool =
            some c ∧ c.RefCount = (n : Int) + 1 - m) ∧
      (repeatCall (fun s => DeReferenceCuda s p d) (n + 1) s2).result = Except.ok () ∧
      mapFind (d, p) s3.m_cudaBusyMemoryPool = none ∧
      (∃ e ∈ s3.m_cudaFreeMemoryPool, e.1.1 = d ∧ e.2.Data = p ∧ e.2.RefCount = 0) ∧
      (DeReferenceCuda s3 p d).result =
        Except.error "DeReferenceCuda - Reference was not found") := by
  obtain ⟨hf, _, cf, _⟩ := hreach.bookkeeping
  constructor
  · intro newResult s1 s2 s3 hres hnew e1 e2 e3
    -- the busy chunk of `p` right after the Acquire
    have hacq : ∃ c, mapFind p s1.m_hostBusyMemoryPool = some c ∧ c.RefCount = 1 ∧
        c.Data = p := by
      cases hfind : mapFind size st.m_hostFreeMemoryPool with
      | some c0 =>
        have hz : c0.RefCount = 0 := (hf _ (mapFind_mem hfind)).1
        rw [GetMemoryHost_hit newResult hfind] at hres e1
        have hp : c0.Data = p := by simpa using hres
        refine ⟨MemoryChunk.mk c0.Size c0.Data (c0.RefCount + 1), ?_, by simp [hz], hp⟩
        rw [e1]
        simp only
        rw [hp] at *
        rw [mapEmplace_of_none _ hnew]
        exact mapFind_cons_self _ _ _
      | none =>
        cases newResult with
        | none =>
          rw [GetMemoryHost_bad_alloc hfind] at hres
          simp at hres
        | some q =>
          rw [GetMemoryHost_miss q hfind] at hres e1
          have hp : q = p := by simpa using hres
          subst hp
          refine ⟨MemoryChunk.mk size q 1, ?_, rfl, rfl⟩
          rw [e1]
          simp only
          rw [mapEmplace_of_none _ hnew]
          exact mapFind_cons_self _ _ _
    obtain ⟨c, hc, hc1, hcd⟩ := hacq
    obtain ⟨a1, a2, _⟩ := addReferenceHost_repeat p n s1 c hc
    rw [← e2] at a2
    have hrc : (MemoryChunk.mk c.Size c.Data (c.RefCount + n)).RefCount = (n : Int) + 1 := by
      simp only
      omega
    obtain ⟨r1, r2, r3⟩ := deReferenceHost_repeat_all p n s2 _ a2 hrc
    rw [← e3] at r2 r3
    refine ⟨a1, ⟨_, a2, hrc⟩, ?_, r1, r2, ?_, ?_⟩
    · intro m hm
      have hlt : (m : Int) < (MemoryChunk.mk c.Size c.Data (c.RefCount + n)).RefCount := by
        simp only
        omega
      obtain ⟨d1, d2, _⟩ := deReferenceHost_repeat_partial p m s2 _ a2 hlt
      refine ⟨d1, _, d2, ?_⟩
      simp only
      omega
    · refine ⟨(c.Size, MemoryChunk.mk c.Size c.Data 0), ?_, hcd, rfl⟩
      rw [r3]
      exact List.mem_cons_self _ _
    · rw [DeReferenceHost_unknown r2]
  · intro setDeviceOk mallocResult s1 s2 s3 hres hnew e1 e2 e3
    have hacq : ∃ c, mapFind (d, p) s1.m_cudaBusyMemoryPool = some c ∧ c.RefCount = 1 ∧
        c.Data = p := by
      cases hfind : mapFind (d, allocationSize size) st.m_cudaFreeMemoryPool with
      | some c0 =>
        have hz : c0.RefCount = 0 := (cf _ (mapFind_mem hfind)).1
        rw [GetMemoryCuda_hit setDeviceOk mallocResult hfind] at hres e1
        have hp : c0.Data = p := by simpa using hres
        refine ⟨MemoryChunk.mk c0.Size c0.Data (c0.RefCount + 1), ?_, by simp [hz], hp⟩
        rw [e1]
        simp only
        rw [hp] at *
        rw [mapEmplace_of_none _ hnew]
        exact mapFind_cons_self _ _ _
      | none =>
        rw [GetMemoryCuda_miss setDeviceOk mallocResult hfind] at hres e1
        have hp : mallocResult.getD nullptr = p := by
          by_cases hs : (setDeviceOk && mallocResult.isSome) = true
          · simpa [hs] using hres
          · simp [hs] at hres
        refine ⟨MemoryChunk.mk (allocationSize size) p 1, ?_, rfl, rfl⟩
        rw [e1]
        simp only
        rw [hp, mapEmplace_of_none _ hnew]
        exact mapFind_cons_self _ _ _
    obtain ⟨c, hc, hc1, hcd⟩ := hacq
    obtain ⟨a1, a2, _⟩ := addReferenceCuda_repeat p d n s1 c hc
    rw [← e2] at a2
    have hrc : (MemoryChunk.mk c.Size c.Data (c.RefCount + n)).RefCount = (n : Int) + 1 := by
      simp only
      omega
    obtain ⟨r1, r2, r3⟩ := deReferenceCuda_repeat_all p d n s2 _ a2 hrc
    rw [← e3] at r2 r3
    refine ⟨a1, ⟨_, a2, hrc⟩, ?_, r1, r2, ?_, ?_⟩
    · intro m hm
      have hlt : (m : Int) < (MemoryChunk.mk c.Size c.Data (c.RefCount + n)).RefCount := by
        simp only
        omega
      obtain ⟨d1, d2, _⟩ := deReferenceCuda_repeat_partial p d m s2 _ a2 hlt
      refine ⟨d1, _, d2, ?_⟩
      simp only
      omega
    · refine ⟨((d, c.Size), MemoryChunk.mk c.Size c.Data 0), ?_, rfl, hcd, rfl⟩
      rw [r3]
      exact List.mem_cons_self _ _
    · rw [DeReferenceCuda_unknown r2]

/-- C2, from the empty pools with `n = 2`: after `GetMemoryHost(1000)`, two AddReference and
three DeReference calls, a fourth DeReference throws; the same on device 0. -/
theorem reference_symmetry_witness :
    (DeReferenceHost (repeatCall (fun s => DeReferenceHost s 4096) 3
      (repeatCall (fun s => AddReferenceHost s 4096) 2
        (GetMemoryHost MemoryManager.empty 1000 (some 4096)).state).state).state 4096).result =
      Except.error "DeReferenceHost - Reference was not found" ∧
    (DeReferenceCuda (repeatCall (fun s => DeReferenceCuda s 4096 0) 3
      (repeatCall (fun s => AddReferenceCuda s 4096 0) 2
        (GetMemoryCuda MemoryManager.empty 1000 0 true (some 4096)).state).state).state
      4096 0).result = Except.error "DeReferenceCuda - Reference was not found" :=
  ⟨((reference_symmetry MemoryManager.empty Reachable.init 1000 2 0 4096).1 (some 4096) _ _ _
      (by decide) (by decide) rfl rfl rfl).2.2.2.2.2.2,
    ((reference_symmetry MemoryManager.empty Reachable.init 1000 2 0 4096).2 true (some 4096)
      _ _ _ (by decide) (by decide) rfl rfl rfl).2.2.2.2.2.2⟩

/-! ### Where the code leaves the contract -/

/-- C1: the state after `GetMemoryCuda(1, 0)` with a failing `CudaMalloc`,
`DeReferenceCuda(nullptr, 0)` and `GetMemoryCuda(257, 0)` with a failing `CudaMalloc` is
reachable, and in it the identity `nullptr` of device 0 sits both in the free collection
(class 256) and in the busy collection (class 512): the pool invariant does not hold. -/
theorem failed_malloc_breaks_pool_invariant :
    Reachable failedMallocTrace ∧
    (GetMemoryCuda MemoryManager.empty 1 0 true none).result =
      Except.error "GetMemoryCuda - Allocation failure" ∧
    (GetMemoryCuda MemoryManager.empty 1 0 true none).state.m_cudaBusyMemoryPool =
      [((0, nullptr), MemoryChunk.mk 256 nullptr 1)] ∧
    failedMallocTrace.m_cudaFreeMemoryPool = [((0, 256), MemoryChunk.mk 256 nullptr 0)] ∧
    failedMallocTrace.m_cudaBusyMemoryPool = [((0, nullptr), MemoryChunk.mk 512 nullptr 1)] ∧
    ¬ PoolInvariant failedMallocTrace :=
  ⟨Reachable.getMemoryCuda 257 0 true none
      (Reachable.deReferenceCuda nullptr 0
        (Reachable.getMemoryCuda 1 0 true none Reachable.init (fun _ h => nomatch h)))
      (fun _ h => nomatch h),
    by decide, by decide, by decide, by decide, by decide⟩

/-- C4: the sizes 1000 and 1001 round to the same class 1024, yet after
`p = GetMemoryHost(1000)` (address 4096) and `DeReferenceHost(p)` the call
`GetMemoryHost(1001)` looks up the key 1001, misses, calls `new float[1001]` and returns the
new array (address 8192), while the released chunk stays in the free collection under the
key 1000. The allocator cannot answer with `p` itself, which is still tracked. -/
theorem host_acquire_does_not_round :
    allocationSize 1000 = allocationSize 1001 ∧
    Reachable hostReleased1000 ∧
    hostReleased1000.m_hostFreeMemoryPool = [(1000, MemoryChunk.mk 1000 4096 0)] ∧
    HostFresh hostReleased1000 8192 ∧ ¬ HostFresh hostReleased1000 4096 ∧
    (GetMemoryHost hostReleased1000 1001 (some 8192)).result = Except.ok 8192 ∧
    (GetMemoryHost hostReleased1000 1001 (some 8192)).calls = [SysCall.newFloatArray 1001] ∧
    (GetMemoryHost hostReleased1000 1001 (some 8192)).state.m_hostFreeMemoryPool =
      [(1000, MemoryChunk.mk 1000 4096 0)] ∧
    (GetMemoryHost hostReleased1000 1001 (some 8192)).state.m_hostBusyMemoryPool =
      [(8192, MemoryChunk.mk 1001 8192 1)] :=
  ⟨by decide,
    Reachable.deReferenceHost 4096
      (Reachable.getMemoryHost 1000 (some 4096) Reachable.init (by decide)),
    by decide, by decide, by decide, by decide, by decide, by decide, by decide⟩

/-- C7: in the reachable state `failedMallocTrace` the free collection holds the chunk
`(256, nullptr, 0)` under `(0, 256)`. `GetMemoryCuda(1, 0)` hits it, returns `nullptr` and
removes it from the free collection, but inserts nothing in the busy collection: the key
`(0, nullptr)` is taken, so the busy entry keeps `Size` 512 and the chunk of `Size` 256 is
tracked nowhere. -/
theorem cuda_hit_on_busy_identity_inserts_nothing :
    Reachable failedMallocTrace ∧
    mapFind (0, allocationSize 1) failedMallocTrace.m_cudaFreeMemoryPool =
      some (MemoryChunk.mk 256 nullptr 0) ∧
    (GetMemoryCuda failedMallocTrace 1 0 true none).result = Except.ok nullptr ∧
    (GetMemoryCuda failedMallocTrace 1 0 true none).calls = [] ∧
    (GetMemoryCuda failedMallocTrace 1 0 true none).state.m_cudaFreeMemoryPool = [] ∧
    (GetMemoryCuda failedMallocTrace 1 0 true none).state.m_cudaBusyMemoryPool =
      failedMallocTrace.m_cudaBusyMemoryPool ∧
    mapFind (0, nullptr)
        (GetMemoryCuda failedMallocTrace 1 0 true none).state.m_cudaBusyMemoryPool =
      some (MemoryChunk.mk 512 nullptr 1) :=
  ⟨Reachable.getMemoryCuda 257 0 true none
      (Reachable.deReferenceCuda nullptr 0
        (Reachable.getMemoryCuda 1 0 true none Reachable.init (fun _ h => nomatch h)))
      (fun _ h => nomatch h),
    by decide, by decide, by decide, by decide, by decide, by decide⟩

/-! ### Unknown references -/

/-- C11: `AddReferenceHost`, `AddReferenceCuda`, `DeReferenceHost` and `DeReferenceCuda` throw
"Reference was not found" exactly when the identity (with the device id on the accelerator)
is not a key of the busy collection, and succeed otherwise; a call that throws leaves the whole
state, free and busy collections included, as it was. In particular a buffer whose last
reference was just released, and any buffer while the pools are empty, is rejected. -/
theorem unknown_reference (st : MemoryManager) (p : Ptr) (d : Int) :
    (((AddReferenceHost st p).result =
        Except.error "AddReferenceHost - Reference was not found" ↔
        mapFind p st.m_hostBusyMemoryPool = none) ∧
      ((AddReferenceHost st p).result = Except.ok () ↔
        mapFind p st.m_hostBusyMemoryPool ≠ none) ∧
      ((AddReferenceHost st p).result ≠ Except.ok () → (AddReferenceHost st p).state = st)) ∧
    (((AddReferenceCuda st p d).result =
        Except.error "AddReferenceCuda - Reference was not found" ↔
        mapFind (d, p) st.m_cudaBusyMemoryPool = none) ∧
      ((AddReferenceCuda st p d).result = Except.ok () ↔
        mapFind (d, p) st.m_cudaBusyMemoryPool ≠ none) ∧
      ((AddReferenceCuda st p d).result ≠ Except.ok () →
        (AddReferenceCuda st p d).state = st)) ∧
    (((DeReferenceHost st p).result =
        Except.error "DeReferenceHost - Reference was not found" ↔
        mapFind p st.m_hostBusyMemoryPool = none) ∧
      ((DeReferenceHost st p).result = Except.ok () ↔
        mapFind p st.m_hostBusyMemoryPool ≠ none) ∧
      ((DeReferenceHost st p).result ≠ Except.ok () → (DeReferenceHost st p).state = st)) ∧
    (((DeReferenceCuda st p d).result =
        Except.error "DeReferenceCuda - Reference was not found" ↔
        mapFind (d, p) st.m_cudaBusyMemoryPool = none) ∧
      ((DeReferenceCuda st p d).result = Except.ok () ↔
        mapFind (d, p) st.m_cudaBusyMemoryPool ≠ none) ∧
      ((DeReferenceCuda st p d).result ≠ Except.ok () →
        (DeReferenceCuda st p d).state = st)) ∧
    (∀ c, mapFind p st.m_hostBusyMemoryPool = some c → c.RefCount = 1 →
      (AddReferenceHost (DeReferenceHost st p).state p).result =
        Except.error "AddReferenceHost - Reference was not found" ∧
      (DeReferenceHost (DeReferenceHost st p).state p).result =
        Except.error "DeReferenceHost - Reference was not found") ∧
    (∀ c, mapFind (d, p) st.m_cudaBusyMemoryPool = some c → c.RefCount = 1 →
      (AddReferenceCuda (DeReferenceCuda st p d).state p d).result =
        Except.error "AddReferenceCuda - Reference was not found" ∧
      (DeReferenceCuda (DeReferenceCuda st p d).state p d).result =
        Except.error "DeReferenceCuda - Reference was not found") := by
  refine ⟨?_, ?_, ?_, ?_, ?_, ?_⟩
  · cases h : mapFind p st.m_hostBusyMemoryPool with
    | none => simp [AddReferenceHost_unknown h]
    | some c => simp [AddReferenceHost_found h]
  · cases h : mapFind (d, p) st.m_cudaBusyMemoryPool with
    | none => simp [AddReferenceCuda_unknown h]
    | some c => simp [AddReferenceCuda_found h]
  · cases h : mapFind p st.m_hostBusyMemoryPool with
    | none => simp [DeReferenceHost_unknown h]
    | some c =>
      by_cases hr : c.RefCount = 1
      · simp [DeReferenceHost_last h hr]
      · simp [DeReferenceHost_more h hr]
  · cases h : mapFind (d, p) st.m_cudaBusyMemoryPool with
    | none => simp [DeReferenceCuda_unknown h]
    | some c =>
      by_cases hr : c.RefCount = 1
      · simp [DeReferenceCuda_last h hr]
      · simp [DeReferenceCuda_more h hr]
  · intro c h hr
    have hgone : mapFind p (DeReferenceHost st p).state.m_hostBusyMemoryPool = none := by
      rw [DeReferenceHost_last h hr]
      exact mapFind_mapErase_self _ _
    rw [AddReferenceHost_unknown hgone, DeReferenceHost_unknown hgone]
    exact ⟨rfl, rfl⟩
  · intro c h hr
    have hgone : mapFind (d, p) (DeReferenceCuda st p d).state.m_cudaBusyMemoryPool = none := by
      rw [DeReferenceCuda_last h hr]
      exact mapFind_mapErase_self _ _
    rw [AddReferenceCuda_unknown hgone, DeReferenceCuda_unknown hgone]
    exact ⟨rfl, rfl⟩

/-- C11, on the empty pools and on a buffer that was acquired and released once. -/
theorem unknown_reference_witness :
    (AddReferenceHost MemoryManager.empty 4096).result =
      Except.error "AddReferenceHost - Reference was not found" ∧
    (AddReferenceCuda (DeReferenceCuda (GetMemoryCuda MemoryManager.empty 1000 0 true
      (some 8192)).state 8192 0).state 8192 0).result =
      Except.error "AddReferenceCuda - Reference was not found" :=
  ⟨(unknown_reference MemoryManager.empty 4096 0).1.1.mpr (by decide),
    ((unknown_reference (GetMemoryCuda MemoryManager.empty 1000 0 true (some 8192)).state
      8192 0).2.2.2.2.2 (MemoryChunk.mk 1024 8192 1) (by decide) (by decide)).1⟩

/-! ### Allocation failure -/

/-- C12: `GetMemoryCuda(size, d)` throws "Allocation failure" exactly when the free collection
has no chunk under `(d, allocationSize size)` and `CudaSetDevice` or `CudaMalloc` reports
failure, and it returns a buffer otherwise. On a hit it succeeds and makes no device call; on
a miss it calls `CudaSetDevice` once and `CudaMalloc` once, whatever they answer. -/
theorem allocation_failure (st : MemoryManager) (size : Nat) (d : Int) (setDeviceOk : Bool)
    (mallocResult : Option Ptr) :
    ((GetMemoryCuda st size d setDeviceOk mallocResult).result =
        Except.error "GetMemoryCuda - Allocation failure" ↔
      mapFind (d, allocationSize size) st.m_cudaFreeMemoryPool = none ∧
        (setDeviceOk = false ∨ mallocResult = none)) ∧
    ((∃ q, (GetMemoryCuda st size d setDeviceOk mallocResult).result = Except.ok q) ↔
      ¬ (mapFind (d, allocationSize size) st.m_cudaFreeMemoryPool = none ∧
        (setDeviceOk = false ∨ mallocResult = none))) ∧
    (∀ c, mapFind (d, allocationSize size) st.m_cudaFreeMemoryPool = some c →
      (GetMemoryCuda st size d setDeviceOk mallocResult).result = Except.ok c.Data ∧
      (GetMemoryCuda st size d setDeviceOk mallocResult).calls = []) ∧
    (mapFind (d, allocationSize size) st.m_cudaFreeMemoryPool = none →
      (GetMemoryCuda st size d setDeviceOk mallocResult).calls =
        [SysCall.CudaSetDevice d,
          SysCall.CudaMalloc (allocationSize size * sizeofFloat % SIZE_MOD)]) := by
  cases h : mapFind (d, allocationSize size) st.m_cudaFreeMemoryPool with
  | some c =>
    rw [GetMemoryCuda_hit setDeviceOk mallocResult h]
    simp
  | none =>
    rw [GetMemoryCuda_miss setDeviceOk mallocResult h]
    cases setDeviceOk <;> cases mallocResult <;> simp

/-- C12, from the empty pools with a `CudaMalloc` that fails, and on a hit with a device that
would fail. -/
theorem allocation_failure_witness :
    (GetMemoryCuda MemoryManager.empty 1000 0 true none).result =
      Except.error "GetMemoryCuda - Allocation failure" ∧
    (GetMemoryCuda (DeReferenceCuda (GetMemoryCuda MemoryManager.empty 1000 0 true
      (some 8192)).state 8192 0).state 1000 0 false none).calls = [] :=
  ⟨(allocation_failure MemoryManager.empty 1000 0 true none).1.mpr ⟨by decide, Or.inr rfl⟩,
    ((allocation_failure (DeReferenceCuda (GetMemoryCuda MemoryManager.empty 1000 0 true
      (some 8192)).state 8192 0).state 1000 0 false none).2.2.1 (MemoryChunk.mk 1024 8192 0)
      (by decide)).2⟩

/-! ### Clearing the pools -/

theorem cudaFreeLoop_ok {κ : Type} (cudaFreeOk : Ptr → Bool) (m : List (κ × MemoryChunk)) :
    (cudaFreeLoop cudaFreeOk m).1 = true ↔ ∀ e ∈ m, cudaFreeOk e.2.Data = true := by
  induction m with
  | nil => simp [cudaFreeLoop]
  | cons e rest ih =>
    by_cases h : cudaFreeOk e.2.Data = true
    · simp [cudaFreeLoop, h, ih]
    · simp [cudaFreeLoop, h]

/-- C13: `ClearUnusedHostMemoryPool` always succeeds, and `ClearUnusedCudaMemoryPool` succeeds
exactly when every `CudaFree` of a free chunk does. After a successful call, from any state
and so from every reachable one, the free collection of the domain is empty and its busy
collection is the very same list of entries (keys, `Size`, `Data`, `RefCount`) as before. -/
theorem clearUnused_effect (st : MemoryManager) (cudaFreeOk : Ptr → Bool) :
    ((ClearUnusedHostMemoryPool st).result = Except.ok () ∧
      (ClearUnusedHostMemoryPool st).state.m_hostFreeMemoryPool = [] ∧
      (ClearUnusedHostMemoryPool st).state.m_hostBusyMemoryPool = st.m_hostBusyMemoryPool ∧
      (ClearUnusedHostMemoryPool st).calls =
        st.m_hostFreeMemoryPool.map (fun e => SysCall.deleteArray e.2.Data)) ∧
    (((ClearUnusedCudaMemoryPool st cudaFreeOk).result = Except.ok () ↔
        ∀ e ∈ st.m_cudaFreeMemoryPool, cudaFreeOk e.2.Data = true) ∧
      ((ClearUnusedCudaMemoryPool st cudaFreeOk).result = Except.ok () →
        (ClearUnusedCudaMemoryPool st cudaFreeOk).state.m_cudaFreeMemoryPool = [] ∧
        (ClearUnusedCudaMemoryPool st cudaFreeOk).state.m_cudaBusyMemoryPool =
          st.m_cudaBusyMemoryPool)) := by
  refine ⟨⟨rfl, rfl, rfl, rfl⟩, ?_, ?_⟩
  · rw [← cudaFreeLoop_ok]
    unfold ClearUnusedCudaMemoryPool
    by_cases hok : (cudaFreeLoop cudaFreeOk st.m_cudaFreeMemoryPool).1 = true <;> simp [hok]
  · unfold ClearUnusedCudaMemoryPool
    by_cases hok : (cudaFreeLoop cudaFreeOk st.m_cudaFreeMemoryPool).1 = true <;> simp [hok]

/-- C13, in the state with one released device chunk and one busy device chunk. -/
theorem clearUnused_effect_witness :
    (ClearUnusedCudaMemoryPool (GetMemoryCuda (DeReferenceCuda (GetMemoryCuda
      MemoryManager.empty 1000 0 true (some 8192)).state 8192 0).state 3 0 true
      (some 4096)).state (fun _ => true)).state.m_cudaFreeMemoryPool = [] ∧
    (ClearUnusedCudaMemoryPool (GetMemoryCuda (DeReferenceCuda (GetMemoryCuda
      MemoryManager.empty 1000 0 true (some 8192)).state 8192 0).state 3 0 true
      (some 4096)).state (fun _ => true)).state.m_cudaBusyMemoryPool =
      [((0, 4096), MemoryChunk.mk 256 4096 1)] :=
  ⟨((clearUnused_effect _ (fun _ => true)).2.2 (by decide)).1,
    (((clearUnused_effect _ (fun _ => true)).2.2 (by decide)).2).trans (by decide)⟩

/-- C14: `ClearHostMemoryPool` always succeeds and `ClearCudaMemoryPool` succeeds exactly when
every `CudaFree` of a free and of a busy chunk does. After a successful call, from any state
and so from every reachable one, the free and the busy collection of the domain are empty
whatever the `RefCount`s were, `GetTotalAllocationByteSize` of the domain is 0, and the next
Acquire of any size (on any device) misses: it calls the allocator instead of reusing. -/
theorem clearAll_teardown (st : MemoryManager) (cudaFreeOk : Ptr → Bool) :
    ((ClearHostMemoryPool st).result = Except.ok () ∧
      (ClearHostMemoryPool st).state.m_hostFreeMemoryPool = [] ∧
      (ClearHostMemoryPool st).state.m_hostBusyMemoryPool = [] ∧
      GetTotalAllocationByteSizeHost (ClearHostMemoryPool st).state = 0 ∧
      ∀ size newResult,
        (GetMemoryHost (ClearHostMemoryPool st).state size newResult).calls =
          [SysCall.newFloatArray size] ∧
        ∀ q, (GetMemoryHost (ClearHostMemoryPool st).state size newResult).result =
          Except.ok q → newResult = some q) ∧
    (((ClearCudaMemoryPool st cudaFreeOk).result = Except.ok () ↔
        (∀ e ∈ st.m_cudaFreeMemoryPool, cudaFreeOk e.2.Data = true) ∧
        (∀ e ∈ st.m_cudaBusyMemoryPool, cudaFreeOk e.2.Data = true)) ∧
      ((ClearCudaMemoryPool st cudaFreeOk).result = Except.ok () →
        (ClearCudaMemoryPool st cudaFreeOk).state.m_cudaFreeMemoryPool = [] ∧
        (ClearCudaMemoryPool st cudaFreeOk).state.m_cudaBusyMemoryPool = [] ∧
        GetTotalAllocationByteSizeCuda (ClearCudaMemoryPool st cudaFreeOk).state = 0 ∧
        ∀ size d setDeviceOk mallocResult,
          (GetMemoryCuda (ClearCudaMemoryPool st cudaFreeOk).state size d setDeviceOk
            mallocResult).calls =
            [SysCall.CudaSetDevice d,
              SysCall.CudaMalloc (allocationSize size * sizeofFloat % SIZE_MOD)] ∧
          ∀ q, (GetMemoryCuda (ClearCudaMemoryPool st cudaFreeOk).state size d setDeviceOk
            mallocResult).result = Except.ok q → mallocResult = some q)) := by
  refine ⟨⟨rfl, rfl, rfl, rfl, ?_⟩, ?_, ?_⟩
  · intro size newResult
    have hmiss : mapFind size (ClearHostMemoryPool st).state.m_hostFreeMemoryPool = none := rfl
    cases newResult with
    | none => simp [GetMemoryHost_bad_alloc hmiss]
    | some p => simp [GetMemoryHost_miss p hmiss]
  · rw [← cudaFreeLoop_ok, ← cudaFreeLoop_ok]
    unfold ClearCudaMemoryPool
    by_cases hok : (cudaFreeLoop cudaFreeOk st.m_cudaFreeMemoryPool).1 = true <;>
      by_cases hok2 : (cudaFreeLoop cudaFreeOk st.m_cudaBusyMemoryPool).1 = true <;>
      simp [hok, hok2]
  · intro hres
    have hstate : (ClearCudaMemoryPool st cudaFreeOk).state =
        { st with m_cudaFreeMemoryPool := [], m_cudaBusyMemoryPool := [] } := by
      unfold ClearCudaMemoryPool at hres ⊢
      by_cases hok : (cudaFreeLoop cudaFreeOk st.m_cudaFreeMemoryPool).1 = true <;>
        by_cases hok2 : (cudaFreeLoop cudaFreeOk st.m_cudaBusyMemoryPool).1 = true <;>
        simp [hok, hok2] at hres ⊢
    rw [hstate]
    refine ⟨rfl, rfl, rfl, ?_⟩
    intro size d setDeviceOk mallocResult
    have hmiss : mapFind (d, allocationSize size)
        ({ st with m_cudaFreeMemoryPool := [], m_cudaBusyMemoryPool := [] } :
          MemoryManager).m_cudaFreeMemoryPool = none := rfl
    rw [GetMemoryCuda_miss setDeviceOk mallocResult hmiss]
    refine ⟨rfl, ?_⟩
    intro q
    cases setDeviceOk <;> cases mallocResult <;> simp [nullptr]

/-- C14, in a state with a busy host chunk of `RefCount` 2 and a busy device chunk. -/
theorem clearAll_teardown_witness :
    (ClearHostMemoryPool (AddReferenceHost (GetMemoryHost MemoryManager.empty 1000
      (some 4096)).state 4096).state).state.m_hostBusyMemoryPool = [] ∧
    (ClearCudaMemoryPool (GetMemoryCuda MemoryManager.empty 1000 0 true (some 8192)).state
      (fun _ => true)).state.m_cudaBusyMemoryPool = [] :=
  ⟨(clearAll_teardown _ (fun _ => true)).1.2.2.1,
    ((clearAll_teardown (GetMemoryCuda MemoryManager.empty 1000 0 true (some 8192)).state
      (fun _ => true)).2.2 (by decide)).2.1⟩

/-! ### The two pools do not touch each other -/

theorem GetMemoryHost_cuda_frame (st : MemoryManager) (size : Nat) (newResult : Option Ptr) :
    (GetMemoryHost st size newResult).state.m_cudaFreeMemoryPool = st.m_cudaFreeMemoryPool ∧
    (GetMemoryHost st size newResult).state.m_cudaBusyMemoryPool = st.m_cudaBusyMemoryPool := by
  cases h : mapFind size st.m_hostFreeMemoryPool with
  | some c => rw [GetMemoryHost_hit newResult h]; exact ⟨rfl, rfl⟩
  | none =>
    cases newResult with
    | none => rw [GetMemoryHost_bad_alloc h]; exact ⟨rfl, rfl⟩
    | some p => rw [GetMemoryHost_miss p h]; exact ⟨rfl, rfl⟩

theorem AddReferenceHost_cuda_frame (st : MemoryManager) (p : Ptr) :
    (AddReferenceHost st p).state.m_cudaFreeMemoryPool = st.m_cudaFreeMemoryPool ∧
    (AddReferenceHost st p).state.m_cudaBusyMemoryPool = st.m_cudaBusyMemoryPool := by
  cases h : mapFind p st.m_hostBusyMemoryPool with
  | none => rw [AddReferenceHost_unknown h]; exact ⟨rfl, rfl⟩
  | some c => rw [AddReferenceHost_found h]; exact ⟨rfl, rfl⟩

theorem DeReferenceHost_cuda_frame (st : MemoryManager) (p : Ptr) :
    (DeReferenceHost st p).state.m_cudaFreeMemoryPool = st.m_cudaFreeMemoryPool ∧
    (DeReferenceHost st p).state.m_cudaBusyMemoryPool = st.m_cudaBusyMemoryPool := by
  cases h : mapFind p st.m_hostBusyMemoryPool with
  | none => rw [DeReferenceHost_unknown h]; exact ⟨rfl, rfl⟩
  | some c =>
    by_cases hr : c.RefCount = 1
    · rw [DeReferenceHost_last h hr]; exact ⟨rfl, rfl⟩
    · rw [DeReferenceHost_more h hr]; exact ⟨rfl, rfl⟩

theorem GetMemoryCuda_host_frame (st : MemoryManager) (size : Nat) (d : Int)
    (setDeviceOk : Bool) (mallocResult : Option Ptr) :
    (GetMemoryCuda st size d setDeviceOk mallocResult).state.m_hostFreeMemoryPool =
      st.m_hostFreeMemoryPool ∧
    (GetMemoryCuda st size d setDeviceOk mallocResult).state.m_hostBusyMemoryPool =
      st.m_hostBusyMemoryPool ∧
    (GetMemoryCuda st size d setDeviceOk mallocResult).state.hostHeap = st.hostHeap := by
  cases h : mapFind (d, allocationSize size) st.m_cudaFreeMemoryPool with
  | some c => rw [GetMemoryCuda_hit setDeviceOk mallocResult h]; exact ⟨rfl, rfl, rfl⟩
  | none => rw [GetMemoryCuda_miss setDeviceOk mallocResult h]; exact ⟨rfl, rfl, rfl⟩

theorem AddReferenceCuda_host_frame (st : MemoryManager) (p : Ptr) (d : Int) :
    (AddReferenceCuda st p d).state.m_hostFreeMemoryPool = st.m_hostFreeMemoryPool ∧
    (AddReferenceCuda st p d).state.m_hostBusyMemoryPool = st.m_hostBusyMemoryPool ∧
    (AddReferenceCuda st p d).state.hostHeap = st.hostHeap := by
  cases h : mapFind (d, p) st.m_cudaBusyMemoryPool with
  | none => rw [AddReferenceCuda_unknown h]; exact ⟨rfl, rfl, rfl⟩
  | some c => rw [AddReferenceCuda_found h]; exact ⟨rfl, rfl, rfl⟩

theorem DeReferenceCuda_host_frame (st : MemoryManager) (p : Ptr) (d : Int) :
    (DeReferenceCuda st p d).state.m_hostFreeMemoryPool = st.m_hostFreeMemoryPool ∧
    (DeReferenceCuda st p d).state.m_hostBusyMemoryPool = st.m_hostBusyMemoryPool ∧
    (DeReferenceCuda st p d).state.hostHeap = st.hostHeap := by
  cases h : mapFind (d, p) st.m_cudaBusyMemoryPool with
  | none => rw [DeReferenceCuda_unknown h]; exact ⟨rfl, rfl, rfl⟩
  | some c =>
    by_cases hr : c.RefCount = 1
    · rw [DeReferenceCuda_last h hr]; exact ⟨rfl, rfl, rfl⟩
    · rw [DeReferenceCuda_more h hr]; exact ⟨rfl, rfl, rfl⟩

theorem ClearUnusedCuda_host_frame (st : MemoryManager) (cudaFreeOk : Ptr → Bool) :
    (ClearUnusedCudaMemoryPool st cudaFreeOk).state.m_hostFreeMemoryPool =
      st.m_hostFreeMemoryPool ∧
    (ClearUnusedCudaMemoryPool st cudaFreeOk).state.m_hostBusyMemoryPool =
      st.m_hostBusyMemoryPool ∧
    (ClearUnusedCudaMemoryPool st cudaFreeOk).state.hostHeap = st.hostHeap := by
  rw [ClearUnusedCudaMemoryPool_state]
  split <;> exact ⟨rfl, rfl, rfl⟩

theorem ClearCuda_host_frame (st : MemoryManager) (cudaFreeOk : Ptr → Bool) :
    (ClearCudaMemoryPool st cudaFreeOk).state.m_hostFreeMemoryPool =
      st.m_hostFreeMemoryPool ∧
    (ClearCudaMemoryPool st cudaFreeOk).state.m_hostBusyMemoryPool =
      st.m_hostBusyMemoryPool ∧
    (ClearCudaMemoryPool st cudaFreeOk).state.hostHeap = st.hostHeap := by
  rw [ClearCudaMemoryPool_state]
  split
  · split <;> exact ⟨rfl, rfl, rfl⟩
  · exact ⟨rfl, rfl, rfl⟩

/-- C17: each host operation (`GetMemoryHost`, `AddReferenceHost`, `DeReferenceHost`,
`ClearUnusedHostMemoryPool`, `ClearHostMemoryPool`) leaves the CUDA free and busy collections
as they were, and each CUDA operation (`GetMemoryCuda`, `AddReferenceCuda`, `DeReferenceCuda`,
`ClearUnusedCudaMemoryPool`, `ClearCudaMemoryPool`) leaves the host free and busy collections
(and the host buffers) as they were, for every state, argument and external answer, so
whether the call returns or throws. -/
theorem pools_independent (st : MemoryManager) (size : Nat) (p : Ptr) (d : Int)
    (newResult mallocResult : Option Ptr) (setDeviceOk : Bool) (cudaFreeOk : Ptr → Bool) :
    ((GetMemoryHost st size newResult).state.m_cudaFreeMemoryPool = st.m_cudaFreeMemoryPool ∧
      (GetMemoryHost st size newResult).state.m_cudaBusyMemoryPool =
        st.m_cudaBusyMemoryPool) ∧
    ((AddReferenceHost st p).state.m_cudaFreeMemoryPool = st.m_cudaFreeMemoryPool ∧
      (AddReferenceHost st p).state.m_cudaBusyMemoryPool = st.m_cudaBusyMemoryPool) ∧
    ((DeReferenceHost st p).state.m_cudaFreeMemoryPool = st.m_cudaFreeMemoryPool ∧
      (DeReferenceHost st p).state.m_cudaBusyMemoryPool = st.m_cudaBusyMemoryPool) ∧
    ((ClearUnusedHostMemoryPool st).state.m_cudaFreeMemoryPool = st.m_cudaFreeMemoryPool ∧
      (ClearUnusedHostMemoryPool st).state.m_cudaBusyMemoryPool = st.m_cudaBusyMemoryPool) ∧
    ((ClearHostMemoryPool st).state.m_cudaFreeMemoryPool = st.m_cudaFreeMemoryPool ∧
      (ClearHostMemoryPool st).state.m_cudaBusyMemoryPool = st.m_cudaBusyMemoryPool) ∧
    ((GetMemoryCuda st size d setDeviceOk mallocResult).state.m_hostFreeMemoryPool =
        st.m_hostFreeMemoryPool ∧
      (GetMemoryCuda st size d setDeviceOk mallocResult).state.m_hostBusyMemoryPool =
        st.m_hostBusyMemoryPool ∧
      (GetMemoryCuda st size d setDeviceOk mallocResult).state.hostHeap = st.hostHeap) ∧
    ((AddReferenceCuda st p d).state.m_hostFreeMemoryPool = st.m_hostFreeMemoryPool ∧
      (AddReferenceCuda st p d).state.m_hostBusyMemoryPool = st.m_hostBusyMemoryPool ∧
      (AddReferenceCuda st p d).state.hostHeap = st.hostHeap) ∧
    ((DeReferenceCuda st p d).state.m_hostFreeMemoryPool = st.m_hostFreeMemoryPool ∧
      (DeReferenceCuda st p d).state.m_hostBusyMemoryPool = st.m_hostBusyMemoryPool ∧
      (DeReferenceCuda st p d).state.hostHeap = st.hostHeap) ∧
    ((ClearUnusedCudaMemoryPool st cudaFreeOk).state.m_hostFreeMemoryPool =
        st.m_hostFreeMemoryPool ∧
      (ClearUnusedCudaMemoryPool st cudaFreeOk).state.m_hostBusyMemoryPool =
        st.m_hostBusyMemoryPool ∧
      (ClearUnusedCudaMemoryPool st cudaFreeOk).state.hostHeap = st.hostHeap) ∧
    ((ClearCudaMemoryPool st cudaFreeOk).state.m_hostFreeMemoryPool =
        st.m_hostFreeMemoryPool ∧
      (ClearCudaMemoryPool st cudaFreeOk).state.m_hostBusyMemoryPool =
        st.m_hostBusyMemoryPool ∧
      (ClearCudaMemoryPool st cudaFreeOk).state.hostHeap = st.hostHeap) :=
  ⟨GetMemoryHost_cuda_frame st size newResult, AddReferenceHost_cuda_frame st p,
    DeReferenceHost_cuda_frame st p, ⟨rfl, rfl⟩, ⟨rfl, rfl⟩,
    GetMemoryCuda_host_frame st size d setDeviceOk mallocResult,
    AddReferenceCuda_host_frame st p d, DeReferenceCuda_host_frame st p d,
    ClearUnusedCuda_host_frame st cudaFreeOk, ClearCuda_host_frame st cudaFreeOk⟩

/-! ### Devices do not share chunks -/

/-- C18: for devices `d ≠ d2`, `GetMemoryCuda(s, d2)` takes nothing that belongs to `d`: every
free entry of device `d` is still free afterwards and no key of device `d` enters or leaves
the busy collection, for every size and external answer; on a hit the returned buffer is the
`Data` of a free entry of device `d2`. So the chunk that `DeReferenceCuda(p, d)` just released
stays free under `(d, Size)` and is handed out only by an Acquire on `d`; the Acquire on `d2`
does not even return the address `p`, unless a free chunk of `d2` carries the same address or
`CudaMalloc` answers it. A buffer that is
busy under `d` but not under `d2` makes `AddReferenceCuda(p, d2)` and `DeReferenceCuda(p, d2)`
throw "Reference was not found". -/
theorem device_isolation (st : MemoryManager) (d d2 : Int) (hne : d ≠ d2) (p : Ptr) :
    (∀ s setDeviceOk mallocResult,
      (∀ e ∈ st.m_cudaFreeMemoryPool, e.1.1 = d →
        e ∈ (GetMemoryCuda st s d2 setDeviceOk mallocResult).state.m_cudaFreeMemoryPool) ∧
      (∀ q, mapFind (d, q)
          (GetMemoryCuda st s d2 setDeviceOk mallocResult).state.m_cudaBusyMemoryPool =
        mapFind (d, q) st.m_cudaBusyMemoryPool) ∧
      (∀ c, mapFind (d2, allocationSize s) st.m_cudaFreeMemoryPool = some c →
        (GetMemoryCuda st s d2 setDeviceOk mallocResult).result = Except.ok c.Data ∧
        ((d2, allocationSize s), c) ∈ st.m_cudaFreeMemoryPool)) ∧
    (∀ c, mapFind (d, p) st.m_cudaBusyMemoryPool = some c → c.RefCount = 1 →
      ∀ s setDeviceOk mallocResult,
        ((d, c.Size), MemoryChunk.mk c.Size c.Data 0) ∈
          (GetMemoryCuda (DeReferenceCuda st p d).state s d2 setDeviceOk
            mallocResult).state.m_cudaFreeMemoryPool ∧
        mapFind (d, p) (GetMemoryCuda (DeReferenceCuda st p d).state s d2 setDeviceOk
            mallocResult).state.m_cudaBusyMemoryPool = none ∧
        ((∀ e ∈ st.m_cudaFreeMemoryPool, e.1.1 = d2 → e.2.Data ≠ p) →
          mallocResult ≠ some p →
          (GetMemoryCuda (DeReferenceCuda st p d).state s d2 setDeviceOk
            mallocResult).result ≠ Except.ok p) ∧
        (allocationSize s = c.Size →
          (GetMemoryCuda (DeReferenceCuda st p d).state s d setDeviceOk
            mallocResult).result = Except.ok c.Data)) ∧
    (mapFind (d2, p) st.m_cudaBusyMemoryPool = none →
      (AddReferenceCuda st p d2).result =
        Except.error "AddReferenceCuda - Reference was not found" ∧
      (DeReferenceCuda st p d2).result =
        Except.error "DeReferenceCuda - Reference was not found") := by
  have hframe : ∀ (st : MemoryManager) s setDeviceOk mallocResult,
      (∀ e ∈ st.m_cudaFreeMemoryPool, e.1.1 = d →
        e ∈ (GetMemoryCuda st s d2 setDeviceOk mallocResult).state.m_cudaFreeMemoryPool) ∧
      (∀ q, mapFind (d, q)
          (GetMemoryCuda st s d2 setDeviceOk mallocResult).state.m_cudaBusyMemoryPool =
        mapFind (d, q) st.m_cudaBusyMemoryPool) := by
    intro st s setDeviceOk mallocResult
    have hbusy : ∀ (q r : Ptr) (v : MemoryChunk) (m : List ((Int × Ptr) × MemoryChunk)),
        mapFind (d, q) (mapEmplace (d2, r) v m) = mapFind (d, q) m := by
      intro q r v m
      unfold mapEmplace
      cases hm : mapFind (d2, r) m with
      | some w => rfl
      | none =>
        have hk : (d2, r) ≠ (d, q) := fun hk => hne (Prod.mk.inj hk).1.symm
        exact mapFind_cons_ne _ _ hk
    cases h : mapFind (d2, allocationSize s) st.m_cudaFreeMemoryPool with
    | some c =>
      rw [GetMemoryCuda_hit setDeviceOk mallocResult h]
      refine ⟨?_, fun q => hbusy _ _ _ _⟩
      intro e he hd
      obtain ⟨l1, l2, h1, _, h3⟩ := multiErase_split h
      show e ∈ multiErase (d2, allocationSize s) st.m_cudaFreeMemoryPool
      rw [h3]
      rw [h1] at he
      rcases List.mem_append.mp he with h4 | h4
      · exact List.mem_append.mpr (Or.inl h4)
      · rcases List.mem_cons.mp h4 with h5 | h5
        · exact absurd (by rw [h5] at hd; exact hd.symm) hne
        · exact List.mem_append.mpr (Or.inr h5)
    | none =>
      rw [GetMemoryCuda_miss setDeviceOk mallocResult h]
      exact ⟨fun e he _ => he, fun q => hbusy _ _ _ _⟩
  refine ⟨?_, ?_, ?_⟩
  · intro s setDeviceOk mallocResult
    refine ⟨(hframe st s setDeviceOk mallocResult).1, (hframe st s setDeviceOk mallocResult).2,
      ?_⟩
    intro c hc
    rw [GetMemoryCuda_hit setDeviceOk mallocResult hc]
    exact ⟨rfl, mapFind_mem hc⟩
  · intro c hc hr s setDeviceOk mallocResult
    have hst := DeReferenceCuda_last hc hr
    refine ⟨?_, ?_, ?_, ?_⟩
    · apply (hframe (DeReferenceCuda st p d).state s setDeviceOk mallocResult).1 _ _ rfl
      rw [hst]
      exact List.mem_cons_self _ _
    · rw [(hframe (DeReferenceCuda st p d).state s setDeviceOk mallocResult).2 p, hst]
      exact mapFind_mapErase_self _ _
    · intro hother hmalloc
      cases hf : mapFind (d2, allocationSize s)
          (DeReferenceCuda st p d).state.m_cudaFreeMemoryPool with
      | some c2 =>
        rw [GetMemoryCuda_hit setDeviceOk mallocResult hf]
        have hmem := mapFind_mem hf
        rw [hst] at hmem
        rcases List.mem_cons.mp hmem with h5 | h5
        · exact absurd (Prod.mk.inj (Prod.mk.inj h5).1).1.symm hne
        · intro hres
          exact hother _ h5 rfl (by simpa using hres)
      | none =>
        rw [GetMemoryCuda_miss setDeviceOk mallocResult hf]
        cases setDeviceOk <;> cases mallocResult <;> simp at hmalloc ⊢
        exact hmalloc
    · intro hclass
      have hhit : mapFind (d, allocationSize s)
          (DeReferenceCuda st p d).state.m_cudaFreeMemoryPool =
          some (MemoryChunk.mk c.Size c.Data 0) := by
        rw [hst, hclass]
        exact mapFind_cons_self _ _ _
      rw [GetMemoryCuda_hit setDeviceOk mallocResult hhit]
  · intro h
    rw [AddReferenceCuda_unknown h, DeReferenceCuda_unknown h]
    exact ⟨rfl, rfl⟩

/-- C18, with a chunk acquired and released on device 0 and an Acquire on device 1. -/
theorem device_isolation_witness :
    (0 : Int) ≠ 1 ∧
    (GetMemoryCuda (DeReferenceCuda (GetMemoryCuda MemoryManager.empty 1000 0 true
      (some 8192)).state 8192 0).state 1000 1 true (some 4096)).state.m_cudaFreeMemoryPool =
      [((0, 1024), MemoryChunk.mk 1024 8192 0)] ∧
    (AddReferenceCuda (GetMemoryCuda MemoryManager.empty 1000 0 true (some 8192)).state
      8192 1).result = Except.error "AddReferenceCuda - Reference was not found" :=
  ⟨by decide, by decide,
    ((device_isolation (GetMemoryCuda MemoryManager.empty 1000 0 true (some 8192)).state 0 1
      (by decide) 8192).2.2 (by decide)).1⟩

/-! ### Element counts of a tensor -/

theorem Shape.cols_mem {s : Shape} (h : s.dims ≠ []) : s.Cols ∈ s.dims := by
  unfold Shape.Cols
  rw [List.getLastD_eq_getLast?, List.getLast?_eq_getLast _ h]
  exact List.getLast_mem h

/-- C19, as the code has it: for a tensor whose shape has a last dimension, all dimensions
positive, and whose product `(Size / Cols) × PaddedHostColSize` is below `2^64`,
`GetCudaElementSize()` is `Shape.Size()` whatever `PaddedHostColSize` is,
`GetHostElementSize()` is `(Size / Cols) × PaddedHostColSize` with `Cols > 0` dividing `Size`,
and when `PaddedHostColSize ≥ Cols` the host count is at least the accelerator count, with
equality exactly when `PaddedHostColSize = Cols`. -/
theorem element_sizes (t : TensorData) (hne : t.TensorShape.dims ≠ [])
    (hpos : ∀ x ∈ t.TensorShape.dims, 0 < x)
    (hfit : (t.TensorShape.Size / t.TensorShape.Cols) * t.PaddedHostColSize < 2 ^ 64) :
    t.GetCudaElementSize = t.TensorShape.Size ∧
    (∀ padded, ({ t with PaddedHostColSize := padded } : TensorData).GetCudaElementSize =
      t.GetCudaElementSize) ∧
    0 < t.TensorShape.Cols ∧ t.TensorShape.Cols ∣ t.TensorShape.Size ∧
    t.GetHostElementSize = (t.TensorShape.Size / t.TensorShape.Cols) * t.PaddedHostColSize ∧
    (t.TensorShape.Cols ≤ t.PaddedHostColSize →
      t.GetCudaElementSize ≤ t.GetHostElementSize ∧
      (t.GetHostElementSize = t.GetCudaElementSize ↔
        t.PaddedHostColSize = t.TensorShape.Cols)) := by
  have hmem := Shape.cols_mem hne
  have hc : 0 < t.TensorShape.Cols := hpos _ hmem
  have hdvd : t.TensorShape.Cols ∣ t.TensorShape.Size := List.dvd_prod hmem
  have hsize : 0 < t.TensorShape.Size := by
    unfold Shape.Size
    exact List.prod_pos hpos
  have hhost : t.GetHostElementSize =
      (t.TensorShape.Size / t.TensorShape.Cols) * t.PaddedHostColSize := by
    unfold TensorData.GetHostElementSize SIZE_MOD
    exact Nat.mod_eq_of_lt hfit
  have hq : 0 < t.TensorShape.Size / t.TensorShape.Cols :=
    Nat.div_pos (Nat.le_of_dvd hsize hdvd) hc
  have hmul : t.TensorShape.Size / t.TensorShape.Cols * t.TensorShape.Cols =
      t.TensorShape.Size := Nat.div_mul_cancel hdvd
  refine ⟨rfl, fun _ => rfl, hc, hdvd, hhost, ?_⟩
  intro hle
  rw [hhost]
  show t.TensorShape.Size ≤ _ ∧ (_ = t.TensorShape.Size ↔ _)
  constructor
  · calc t.TensorShape.Size
        = t.TensorShape.Size / t.TensorShape.Cols * t.TensorShape.Cols := hmul.symm
      _ ≤ t.TensorShape.Size / t.TensorShape.Cols * t.PaddedHostColSize :=
        Nat.mul_le_mul_left _ hle
  · constructor
    · intro heq
      have h2 : t.TensorShape.Size / t.TensorShape.Cols * t.PaddedHostColSize =
          t.TensorShape.Size / t.TensorShape.Cols * t.TensorShape.Cols := by
        rw [heq, hmul]
      exact Nat.eq_of_mul_eq_mul_left hq h2
    · intro heq
      rw [heq, hmul]

/-- C19, at the shape `(4, 4)` with host rows padded to 8: 16 accelerator cells, 32 host
cells. -/
theorem element_sizes_witness :
    tensor4x4.GetCudaElementSize = 16 ∧ tensor4x4.GetHostElementSize = 32 ∧
    tensor4x4.GetCudaElementSize ≤ tensor4x4.GetHostElementSize :=
  ⟨((element_sizes tensor4x4 (by decide) (by decide) (by decide)).1).trans (by decide),
    ((element_sizes tensor4x4 (by decide) (by decide) (by decide)).2.2.2.2.1).trans
      (by decide),
    ((element_sizes tensor4x4 (by decide) (by decide) (by decide)).2.2.2.2.2
      (by decide)).1⟩

/-- C19 as stated fails: the shape `(2, 1)` has all dimensions positive and
`PaddedHostColSize = 2^63 ≥ Cols = 1`, yet `GetHostElementSize()` is `2 × 2^63` in `size_t`,
which is 0, below `GetCudaElementSize() = 2` and different from `(Size / Cols) ×
PaddedHostColSize`. -/
theorem element_sizes_overflow :
    (∀ x ∈ paddedOverflowTensor.TensorShape.dims, 0 < x) ∧
    paddedOverflowTensor.TensorShape.Cols ≤ paddedOverflowTensor.PaddedHostColSize ∧
    paddedOverflowTensor.PaddedHostColSize < 2 ^ 64 ∧
    paddedOverflowTensor.GetCudaElementSize = 2 ∧
    paddedOverflowTensor.GetHostElementSize = 0 ∧
    ¬ (paddedOverflowTensor.GetCudaElementSize ≤ paddedOverflowTensor.GetHostElementSize) ∧
    paddedOverflowTensor.GetHostElementSize ≠
      (paddedOverflowTensor.TensorShape.Size / paddedOverflowTensor.TensorShape.Cols) *
        paddedOverflowTensor.PaddedHostColSize := by
  decide

/-! ### SendTo to the current device -/

/-- C20: for every tensor `t`, every state of the pools and every external answer,
`t.SendTo(t.GetDevice())` returns `false` and leaves the tensor (device, shape, buffer
handles, length fields) and both allocator pools exactly as they were. -/
theorem sendTo_same_device (t : TensorData) (pools : MemoryManager) (env : TransferAnswers) :
    (t.SendTo pools t.GetDevice env).result = Except.ok false ∧
    (t.SendTo pools t.GetDevice env).tensor = t ∧
    (t.SendTo pools t.GetDevice env).pools = pools := by
  simp [TensorData.SendTo, TensorData.GetDevice]

/-! ### Unique keys and identities -/

section KeyLemmas

variable {κ : Type} [DecidableEq κ] {V : Type}

theorem keys_mapSet (k : κ) (f : V → V) (m : List (κ × V)) :
    (mapSet k f m).map Prod.fst = m.map Prod.fst := by
  induction m with
  | nil => rfl
  | cons e rest ih =>
    by_cases hk : e.1 = k
    · simp [mapSet, hk]
    · simp [mapSet, hk, ih]

theorem nodup_keys_mapEmplace (k : κ) (v : V) {m : List (κ × V)}
    (h : (m.map Prod.fst).Nodup) : ((mapEmplace k v m).map Prod.fst).Nodup := by
  cases hf : mapFind k m with
  | some w => rw [mapEmplace_of_some v hf]; exact h
  | none =>
    rw [mapEmplace_of_none v hf, List.map_cons, List.nodup_cons]
    refine ⟨?_, h⟩
    intro hmem
    obtain ⟨e, he, hek⟩ := List.mem_map.mp hmem
    exact keys_of_mapFind_none hf e he hek

theorem nodup_keys_mapErase (k : κ) {m : List (κ × V)} (h : (m.map Prod.fst).Nodup) :
    ((mapErase k m).map Prod.fst).Nodup := by
  unfold mapErase
  exact (List.Sublist.map Prod.fst (List.filter_sublist m)).nodup h

theorem mapErase_split {k : κ} {v : V} {m : List (κ × V)} (hn : (m.map Prod.fst).Nodup)
    (h : mapFind k m = some v) :
    ∃ l1 l2, m = l1 ++ (k, v) :: l2 ∧ mapErase k m = l1 ++ l2 := by
  obtain ⟨l1, l2, h1, h2, _⟩ := mapSet_split (fun x => x) h
  refine ⟨l1, l2, h1, ?_⟩
  have h3 : ∀ e ∈ l2, e.1 ≠ k := by
    intro e he hek
    rw [h1, List.map_append, List.map_cons] at hn
    have hmid := (List.nodup_middle.mp hn)
    have hnot := (List.nodup_cons.mp hmid).1
    apply hnot
    apply List.mem_append.mpr
    right
    exact List.mem_map.mpr ⟨e, he, hek⟩
  unfold mapErase
  rw [h1, List.filter_append, List.filter_cons]
  have f1 : l1.filter (fun e => decide (e.1 ≠ k)) = l1 :=
    List.filter_eq_self.mpr (fun e he => by simpa using h2 e he)
  have f2 : l2.filter (fun e => decide (e.1 ≠ k)) = l2 :=
    List.filter_eq_self.mpr (fun e he => by simpa using h3 e he)
  rw [f1, f2]
  simp

theorem mapFind_mapErase_of_none {k q : κ} {m : List (κ × V)} (h : mapFind q m = none) :
    mapFind q (mapErase k m) = none := by
  apply mapFind_none_of_keys
  intro e he
  exact keys_of_mapFind_none h e (mem_mapErase he)

theorem mapFind_mapSet_of_none {k q : κ} (f : V → V) {m : List (κ × V)}
    (h : mapFind q m = none) : mapFind q (mapSet k f m) = none := by
  apply mapFind_none_of_keys
  intro e he
  have hkeys : e.1 ∈ (mapSet k f m).map Prod.fst := List.mem_map.mpr ⟨e, he, rfl⟩
  rw [keys_mapSet] at hkeys
  obtain ⟨x, hx, hxe⟩ := List.mem_map.mp hkeys
  rw [← hxe]
  exact keys_of_mapFind_none h x hx

end KeyLemmas

theorem UniqueKeys_empty : UniqueKeys MemoryManager.empty :=
  ⟨List.nodup_nil, List.nodup_nil⟩

theorem UniqueKeys_GetMemoryHost {st : MemoryManager} (size : Nat) (newResult : Option Ptr)
    (h : UniqueKeys st) : UniqueKeys (GetMemoryHost st size newResult).state := by
  cases hfind : mapFind size st.m_hostFreeMemoryPool with
  | some c =>
    rw [GetMemoryHost_hit newResult hfind]
    exact ⟨nodup_keys_mapEmplace _ _ h.1, h.2⟩
  | none =>
    cases newResult with
    | none => rw [GetMemoryHost_bad_alloc hfind]; exact h
    | some p =>
      rw [GetMemoryHost_miss p hfind]
      exact ⟨nodup_keys_mapEmplace _ _ h.1, h.2⟩

theorem UniqueKeys_GetMemoryCuda {st : MemoryManager} (size : Nat) (d : Int)
    (setDeviceOk : Bool) (mallocResult : Option Ptr) (h : UniqueKeys st) :
    UniqueKeys (GetMemoryCuda st size d setDeviceOk mallocResult).state := by
  cases hfind : mapFind (d, allocationSize size) st.m_cudaFreeMemoryPool with
  | some c =>
    rw [GetMemoryCuda_hit setDeviceOk mallocResult hfind]
    exact ⟨h.1, nodup_keys_mapEmplace _ _ h.2⟩
  | none =>
    rw [GetMemoryCuda_miss setDeviceOk mallocResult hfind]
    exact ⟨h.1, nodup_keys_mapEmplace _ _ h.2⟩

theorem UniqueKeys_AddReferenceHost {st : MemoryManager} (p : Ptr) (h : UniqueKeys st) :
    UniqueKeys (AddReferenceHost st p).state := by
  cases hfind : mapFind p st.m_hostBusyMemoryPool with
  | none => rw [AddReferenceHost_unknown hfind]; exact h
  | some c =>
    rw [AddReferenceHost_found hfind]
    exact ⟨by simpa [keys_mapSet] using h.1, h.2⟩

theorem UniqueKeys_AddReferenceCuda {st : MemoryManager} (p : Ptr) (d : Int)
    (h : UniqueKeys st) : UniqueKeys (AddReferenceCuda st p d).state := by
  cases hfind : mapFind (d, p) st.m_cudaBusyMemoryPool with
  | none => rw [AddReferenceCuda_unknown hfind]; exact h
  | some c =>
    rw [AddReferenceCuda_found hfind]
    exact ⟨h.1, by simpa [keys_mapSet] using h.2⟩

theorem UniqueKeys_DeReferenceHost {st : MemoryManager} (p : Ptr) (h : UniqueKeys st) :
    UniqueKeys (DeReferenceHost st p).state := by
  cases hfind : mapFind p st.m_hostBusyMemoryPool with
  | none => rw [DeReferenceHost_unknown hfind]; exact h
  | some c =>
    by_cases hr : c.RefCount = 1
    · rw [DeReferenceHost_last hfind hr]
      exact ⟨nodup_keys_mapErase _ h.1, h.2⟩
    · rw [DeReferenceHost_more hfind hr]
      exact ⟨by simpa [keys_mapSet] using h.1, h.2⟩

theorem UniqueKeys_DeReferenceCuda {st : MemoryManager} (p : Ptr) (d : Int)
    (h : UniqueKeys st) : UniqueKeys (DeReferenceCuda st p d).state := by
  cases hfind : mapFind (d, p) st.m_cudaBusyMemoryPool with
  | none => rw [DeReferenceCuda_unknown hfind]; exact h
  | some c =>
    by_cases hr : c.RefCount = 1
    · rw [DeReferenceCuda_last hfind hr]
      exact ⟨h.1, nodup_keys_mapErase _ h.2⟩
    · rw [DeReferenceCuda_more hfind hr]
      exact ⟨h.1, by simpa [keys_mapSet] using h.2⟩

theorem Reachable.uniqueKeys {st : MemoryManager} (h : Reachable st) : UniqueKeys st := by
  induction h with
  | init => exact UniqueKeys_empty
  | getMemoryHost size newResult _ _ ih => exact UniqueKeys_GetMemoryHost size newResult ih
  | getMemoryCuda size d ok mr _ _ ih => exact UniqueKeys_GetMemoryCuda size d ok mr ih
  | addReferenceHost p _ ih => exact UniqueKeys_AddReferenceHost p ih
  | addReferenceCuda p d _ ih => exact UniqueKeys_AddReferenceCuda p d ih
  | deReferenceHost p _ ih => exact UniqueKeys_DeReferenceHost p ih
  | deReferenceCuda p d _ ih => exact UniqueKeys_DeReferenceCuda p d ih
  | clearUnusedHost _ ih => exact ih
  | clearUnusedCuda f _ ih =>
    rw [ClearUnusedCudaMemoryPool_state]
    split
    · exact ih
    · exact ih
  | clearHost _ ih => exact ⟨List.nodup_nil, ih.2⟩
  | clearCuda f _ ih =>
    rw [ClearCudaMemoryPool_state]
    split
    · split
      · exact ⟨ih.1, List.nodup_nil⟩
      · exact ih
    · exact ih

/-! ### Host identities stay apart -/

theorem HostSound_of_frame {st st2 : MemoryManager}
    (hf : st2.m_hostFreeMemoryPool = st.m_hostFreeMemoryPool)
    (hb : st2.m_hostBusyMemoryPool = st.m_hostBusyMemoryPool) (h : HostSound st) :
    HostSound st2 := by
  unfold HostSound
  rw [hf, hb]
  exact h

theorem HostSound_GetMemoryHost {st : MemoryManager} (size : Nat) (newResult : Option Ptr)
    (hfresh : ∀ p, newResult = some p → HostFresh st p) (h : HostSound st) :
    HostSound (GetMemoryHost st size newResult).state := by
  obtain ⟨hd, hn⟩ := h
  cases hfind : mapFind size st.m_hostFreeMemoryPool with
  | some c =>
    rw [GetMemoryHost_hit newResult hfind]
    obtain ⟨l1, l2, h1, _, h3⟩ := multiErase_split hfind
    have hcb : mapFind c.Data st.m_hostBusyMemoryPool = none := hd _ (mapFind_mem hfind)
    rw [h1, List.map_append, List.map_cons] at hn
    have hmid := List.nodup_middle.mp hn
    have hnot := (List.nodup_cons.mp hmid).1
    have hrest := (List.nodup_cons.mp hmid).2
    refine ⟨?_, ?_⟩
    · intro e he
      have he2 : e ∈ l1 ++ l2 := by
        have : e ∈ multiErase size st.m_hostFreeMemoryPool := he
        rwa [h3] at this
      have hne : c.Data ≠ e.2.Data := by
        intro heq
        apply hnot
        rw [← List.map_append]
        exact List.mem_map.mpr ⟨e, he2, heq.symm⟩
      have hold : mapFind e.2.Data st.m_hostBusyMemoryPool = none := by
        apply hd
        rw [h1]
        rcases List.mem_append.mp he2 with h4 | h4
        · exact List.mem_append.mpr (Or.inl h4)
        · exact List.mem_append.mpr (Or.inr (List.mem_cons_of_mem _ h4))
      show mapFind e.2.Data (mapEmplace c.Data _ st.m_hostBusyMemoryPool) = none
      rw [mapEmplace_of_none _ hcb, mapFind_cons_ne _ _ hne]
      exact hold
    · show ((multiErase size st.m_hostFreeMemoryPool).map (fun e => e.2.Data)).Nodup
      rw [h3, List.map_append]
      exact hrest
  | none =>
    cases newResult with
    | none => rw [GetMemoryHost_bad_alloc hfind]; exact ⟨hd, hn⟩
    | some p =>
      rw [GetMemoryHost_miss p hfind]
      obtain ⟨hpb, hpf⟩ := hfresh p rfl
      refine ⟨?_, hn⟩
      intro e he
      have hne : p ≠ e.2.Data := fun heq => hpf e he heq.symm
      show mapFind e.2.Data (mapEmplace p _ st.m_hostBusyMemoryPool) = none
      rw [mapEmplace_of_none _ hpb, mapFind_cons_ne _ _ hne]
      exact hd e he

theorem HostSound_AddReferenceHost {st : MemoryManager} (p : Ptr) (h : HostSound st) :
    HostSound (AddReferenceHost st p).state := by
  obtain ⟨hd, hn⟩ := h
  cases hfind : mapFind p st.m_hostBusyMemoryPool with
  | none => rw [AddReferenceHost_unknown hfind]; exact ⟨hd, hn⟩
  | some c =>
    rw [AddReferenceHost_found hfind]
    exact ⟨fun e he => mapFind_mapSet_of_none _ (hd e he), hn⟩

theorem HostSound_DeReferenceHost {st : MemoryManager} (p : Ptr) (hbook : Bookkeeping st)
    (h : HostSound st) : HostSound (DeReferenceHost st p).state := by
  obtain ⟨hd, hn⟩ := h
  cases hfind : mapFind p st.m_hostBusyMemoryPool with
  | none => rw [DeReferenceHost_unknown hfind]; exact ⟨hd, hn⟩
  | some c =>
    have hdata : c.Data = p := ((hbook.2.1 _ (mapFind_mem hfind)).2).symm
    by_cases hr : c.RefCount = 1
    · rw [DeReferenceHost_last hfind hr]
      refine ⟨?_, ?_⟩
      · intro e he
        rcases List.mem_cons.mp he with h1 | h1
        · rw [h1]
          show mapFind c.Data (mapErase p st.m_hostBusyMemoryPool) = none
          rw [hdata]
          exact mapFind_mapErase_self _ _
        · exact mapFind_mapErase_of_none (hd e h1)
      · show (((c.Size, MemoryChunk.mk c.Size c.Data 0) :: st.m_hostFreeMemoryPool).map
          (fun e => e.2.Data)).Nodup
        rw [List.map_cons, List.nodup_cons]
        refine ⟨?_, hn⟩
        intro hmem
        obtain ⟨e, he, hek⟩ := List.mem_map.mp hmem
        have hnone := hd e he
        have hek2 : e.2.Data = p := by simpa [hdata] using hek
        rw [hek2, hfind] at hnone
        cases hnone
    · rw [DeReferenceHost_more hfind hr]
      exact ⟨fun e he => mapFind_mapSet_of_none _ (hd e he), hn⟩

theorem Reachable.hostSound {st : MemoryManager} (h : Reachable st) : HostSound st := by
  induction h with
  | init => exact ⟨fun e he => absurd he (List.not_mem_nil e), List.nodup_nil⟩
  | getMemoryHost size newResult _ hfresh ih =>
    exact HostSound_GetMemoryHost size newResult hfresh ih
  | getMemoryCuda size d ok mr _ _ ih =>
    exact HostSound_of_frame (GetMemoryCuda_host_frame _ size d ok mr).1
      (GetMemoryCuda_host_frame _ size d ok mr).2.1 ih
  | addReferenceHost p _ ih => exact HostSound_AddReferenceHost p ih
  | addReferenceCuda p d _ ih =>
    exact HostSound_of_frame (AddReferenceCuda_host_frame _ p d).1
      (AddReferenceCuda_host_frame _ p d).2.1 ih
  | deReferenceHost p hr ih => exact HostSound_DeReferenceHost p hr.bookkeeping ih
  | deReferenceCuda p d _ ih =>
    exact HostSound_of_frame (DeReferenceCuda_host_frame _ p d).1
      (DeReferenceCuda_host_frame _ p d).2.1 ih
  | clearUnusedHost _ ih => exact ⟨fun e he => absurd he (List.not_mem_nil e), List.nodup_nil⟩
  | clearUnusedCuda f _ ih =>
    exact HostSound_of_frame (ClearUnusedCuda_host_frame _ f).1
      (ClearUnusedCuda_host_frame _ f).2.1 ih
  | clearHost _ ih => exact ⟨fun e he => absurd he (List.not_mem_nil e), List.nodup_nil⟩
  | clearCuda f _ ih =>
    exact HostSound_of_frame (ClearCuda_host_frame _ f).1 (ClearCuda_host_frame _ f).2.1 ih

/-! ### The byte total and the tracked chunks -/

theorem byteSizeLoop_eq {κ : Type} (l : List (κ × MemoryChunk)) : ∀ acc : Nat,
    byteSizeLoop (acc % SIZE_MOD) l =
      (acc + (l.map (fun e => e.2.Size * sizeofFloat)).sum) % SIZE_MOD := by
  induction l with
  | nil => intro acc; simp [byteSizeLoop]
  | cons e rest ih =>
    intro acc
    simp only [byteSizeLoop, List.map_cons, List.sum_cons]
    rw [Nat.mod_add_mod, ih, Nat.add_assoc]

theorem GetTotalAllocationByteSizeHost_eq (st : MemoryManager) :
    GetTotalAllocationByteSizeHost st =
      ((hostTracked st).map (fun t => t.2 * sizeofFloat)).sum % SIZE_MOD := by
  unfold GetTotalAllocationByteSizeHost hostTracked
  have h0 : byteSizeLoop 0 st.m_hostBusyMemoryPool =
      byteSizeLoop (0 % SIZE_MOD) st.m_hostBusyMemoryPool := rfl
  rw [h0, byteSizeLoop_eq, byteSizeLoop_eq]
  simp only [List.map_append, List.map_map, List.sum_append, Nat.zero_add]
  rw [Nat.add_comm]
  rfl

theorem GetTotalAllocationByteSizeCuda_eq (st : MemoryManager) :
    GetTotalAllocationByteSizeCuda st =
      ((cudaTracked st).map (fun t => t.2 * sizeofFloat)).sum % SIZE_MOD := by
  unfold GetTotalAllocationByteSizeCuda cudaTracked
  have h0 : byteSizeLoop 0 st.m_cudaBusyMemoryPool =
      byteSizeLoop (0 % SIZE_MOD) st.m_cudaBusyMemoryPool := rfl
  rw [h0, byteSizeLoop_eq, byteSizeLoop_eq]
  simp only [List.map_append, List.map_map, List.sum_append, Nat.zero_add]
  rw [Nat.add_comm]
  rfl

theorem hostTotal_of_perm {st st2 : MemoryManager}
    (h : (hostTracked st2).Perm (hostTracked st)) :
    GetTotalAllocationByteSizeHost st2 = GetTotalAllocationByteSizeHost st := by
  rw [GetTotalAllocationByteSizeHost_eq, GetTotalAllocationByteSizeHost_eq,
    (h.map (fun t => t.2 * sizeofFloat)).sum_eq]

theorem cudaTotal_of_perm {st st2 : MemoryManager}
    (h : (cudaTracked st2).Perm (cudaTracked st)) :
    GetTotalAllocationByteSizeCuda st2 = GetTotalAllocationByteSizeCuda st := by
  rw [GetTotalAllocationByteSizeCuda_eq, GetTotalAllocationByteSizeCuda_eq,
    (h.map (fun t => t.2 * sizeofFloat)).sum_eq]

theorem hostTotal_of_perm_cons {st st2 : MemoryManager} (a : Ptr × Nat)
    (h : (hostTracked st2).Perm (a :: hostTracked st)) :
    GetTotalAllocationByteSizeHost st2 =
      (GetTotalAllocationByteSizeHost st + sizeofFloat * a.2) % SIZE_MOD := by
  rw [GetTotalAllocationByteSizeHost_eq, GetTotalAllocationByteSizeHost_eq,
    (h.map (fun t => t.2 * sizeofFloat)).sum_eq, List.map_cons, List.sum_cons,
    Nat.mod_add_mod, Nat.add_comm, Nat.mul_comm]

theorem cudaTotal_of_perm_cons {st st2 : MemoryManager} (a : (Int × Ptr) × Nat)
    (h : (cudaTracked st2).Perm (a :: cudaTracked st)) :
    GetTotalAllocationByteSizeCuda st2 =
      (GetTotalAllocationByteSizeCuda st + sizeofFloat * a.2) % SIZE_MOD := by
  rw [GetTotalAllocationByteSizeCuda_eq, GetTotalAllocationByteSizeCuda_eq,
    (h.map (fun t => t.2 * sizeofFloat)).sum_eq, List.map_cons, List.sum_cons,
    Nat.mod_add_mod, Nat.add_comm, Nat.mul_comm]

theorem perm_move_front {α : Type} (a : α) (f l1 l2 : List α) :
    (a :: f ++ (l1 ++ l2)).Perm (f ++ (l1 ++ a :: l2)) := by
  have h1 : (l1 ++ a :: l2).Perm (a :: (l1 ++ l2)) := List.perm_middle
  have h2 : (f ++ (l1 ++ a :: l2)).Perm (f ++ a :: (l1 ++ l2)) := h1.append_left f
  have h3 : (f ++ a :: (l1 ++ l2)).Perm (a :: (f ++ (l1 ++ l2))) := List.perm_middle
  exact (h2.trans h3).symm

theorem perm_move_back {α : Type} (a : α) (l1 l2 b : List α) :
    (l1 ++ l2 ++ a :: b).Perm (l1 ++ a :: l2 ++ b) := by
  have h1 : (l1 ++ l2 ++ a :: b).Perm (a :: (l1 ++ l2 ++ b)) := List.perm_middle
  have h2 : (l1 ++ a :: l2).Perm (a :: (l1 ++ l2)) := List.perm_middle
  have h3 : (l1 ++ a :: l2 ++ b).Perm (a :: (l1 ++ l2) ++ b) := h2.append_right b
  exact h1.trans h3.symm

theorem hostTracked_AddReferenceHost (st : MemoryManager) (p : Ptr) :
    hostTracked (AddReferenceHost st p).state = hostTracked st := by
  cases hfind : mapFind p st.m_hostBusyMemoryPool with
  | none => rw [AddReferenceHost_unknown hfind]
  | some c =>
    rw [AddReferenceHost_found hfind]
    obtain ⟨l1, l2, h1, _, h3⟩ := mapSet_split
      (fun chunk : MemoryChunk => MemoryChunk.mk chunk.Size chunk.Data (chunk.RefCount + 1))
      hfind
    unfold hostTracked
    simp only [h3]
    rw [h1]
    simp

theorem cudaTracked_AddReferenceCuda (st : MemoryManager) (p : Ptr) (d : Int) :
    cudaTracked (AddReferenceCuda st p d).state = cudaTracked st := by
  cases hfind : mapFind (d, p) st.m_cudaBusyMemoryPool with
  | none => rw [AddReferenceCuda_unknown hfind]
  | some c =>
    rw [AddReferenceCuda_found hfind]
    obtain ⟨l1, l2, h1, _, h3⟩ := mapSet_split
      (fun chunk : MemoryChunk => MemoryChunk.mk chunk.Size chunk.Data (chunk.RefCount + 1))
      hfind
    unfold cudaTracked
    simp only [h3]
    rw [h1]
    simp

theorem hostTracked_DeReferenceHost (st : MemoryManager) (p : Ptr) (hu : UniqueKeys st) :
    (hostTracked (DeReferenceHost st p).state).Perm (hostTracked st) := by
  cases hfind : mapFind p st.m_hostBusyMemoryPool with
  | none => rw [DeReferenceHost_unknown hfind]
  | some c =>
    by_cases hr : c.RefCount = 1
    · rw [DeReferenceHost_last hfind hr]
      obtain ⟨l1, l2, h1, h3⟩ := mapErase_split hu.1 hfind
      unfold hostTracked
      simp only [h3]
      rw [h1]
      simp only [List.map_cons, List.map_append]
      exact perm_move_front _ _ _ _
    · rw [DeReferenceHost_more hfind hr]
      obtain ⟨l1, l2, h1, _, h3⟩ := mapSet_split
        (fun _ : MemoryChunk => MemoryChunk.mk c.Size c.Data (c.RefCount - 1)) hfind
      unfold hostTracked
      simp only [h3]
      rw [h1]
      simp

theorem cudaTracked_DeReferenceCuda (st : MemoryManager) (p : Ptr) (d : Int)
    (hu : UniqueKeys st) :
    (cudaTracked (DeReferenceCuda st p d).state).Perm (cudaTracked st) := by
  cases hfind : mapFind (d, p) st.m_cudaBusyMemoryPool with
  | none => rw [DeReferenceCuda_unknown hfind]
  | some c =>
    by_cases hr : c.RefCount = 1
    · rw [DeReferenceCuda_last hfind hr]
      obtain ⟨l1, l2, h1, h3⟩ := mapErase_split hu.2 hfind
      unfold cudaTracked
      simp only [h3]
      rw [h1]
      simp only [List.map_cons, List.map_append]
      exact perm_move_front _ _ _ _
    · rw [DeReferenceCuda_more hfind hr]
      obtain ⟨l1, l2, h1, _, h3⟩ := mapSet_split
        (fun _ : MemoryChunk => MemoryChunk.mk c.Size c.Data (c.RefCount - 1)) hfind
      unfold cudaTracked
      simp only [h3]
      rw [h1]
      simp

theorem hostTracked_hit {st : MemoryManager} {size : Nat} {c : MemoryChunk}
    (newResult : Option Ptr) (hfind : mapFind size st.m_hostFreeMemoryPool = some c)
    (hnew : mapFind c.Data st.m_hostBusyMemoryPool = none) :
    (hostTracked (GetMemoryHost st size newResult).state).Perm (hostTracked st) := by
  rw [GetMemoryHost_hit newResult hfind]
  obtain ⟨l1, l2, h1, _, h3⟩ := multiErase_split hfind
  unfold hostTracked
  simp only [h3, mapEmplace_of_none _ hnew]
  rw [h1]
  simp only [List.map_cons, List.map_append]
  exact perm_move_back _ _ _ _

theorem cudaTracked_hit {st : MemoryManager} {size : Nat} {d : Int} {c : MemoryChunk}
    (setDeviceOk : Bool) (mallocResult : Option Ptr)
    (hfind : mapFind (d, allocationSize size) st.m_cudaFreeMemoryPool = some c)
    (hnew : mapFind (d, c.Data) st.m_cudaBusyMemoryPool = none) :
    (cudaTracked (GetMemoryCuda st size d setDeviceOk mallocResult).state).Perm
      (cudaTracked st) := by
  rw [GetMemoryCuda_hit setDeviceOk mallocResult hfind]
  obtain ⟨l1, l2, h1, _, h3⟩ := multiErase_split hfind
  unfold cudaTracked
  simp only [h3, mapEmplace_of_none _ hnew]
  rw [h1]
  simp only [List.map_cons, List.map_append]
  exact perm_move_back _ _ _ _

theorem hostTracked_miss {st : MemoryManager} {size : Nat} (p : Ptr)
    (hfind : mapFind size st.m_hostFreeMemoryPool = none)
    (hnew : mapFind p st.m_hostBusyMemoryPool = none) :
    (hostTracked (GetMemoryHost st size (some p)).state).Perm ((p, size) :: hostTracked st) := by
  rw [GetMemoryHost_miss p hfind]
  unfold hostTracked
  simp only [mapEmplace_of_none _ hnew, List.map_cons]
  exact List.perm_middle

theorem cudaTracked_miss {st : MemoryManager} {size : Nat} {d : Int} (setDeviceOk : Bool)
    (p : Ptr) (hfind : mapFind (d, allocationSize size) st.m_cudaFreeMemoryPool = none)
    (hnew : mapFind (d, p) st.m_cudaBusyMemoryPool = none) :
    (cudaTracked (GetMemoryCuda st size d setDeviceOk (some p)).state).Perm
      (((d, p), allocationSize size) :: cudaTracked st) := by
  rw [GetMemoryCuda_miss setDeviceOk (some p) hfind]
  unfold cudaTracked
  simp only [Option.getD_some, mapEmplace_of_none _ hnew, List.map_cons]
  exact List.perm_middle

/-! ### Chunks are not dropped -/

theorem mapEmplace_sublist {κ : Type} [DecidableEq κ] {V : Type} (k : κ) (v : V)
    (m : List (κ × V)) : m.Sublist (mapEmplace k v m) := by
  cases hf : mapFind k m with
  | some w => rw [mapEmplace_of_some v hf]
  | none =>
    rw [mapEmplace_of_none v hf]
    exact List.sublist_cons_self _ _

theorem hostTracked_GetMemoryHost_subperm (st : MemoryManager) (hreach : Reachable st)
    (size : Nat) (newResult : Option Ptr) :
    (hostTracked st).Subperm (hostTracked (GetMemoryHost st size newResult).state) := by
  cases hfind : mapFind size st.m_hostFreeMemoryPool with
  | some c =>
    exact (hostTracked_hit newResult hfind
      (hreach.hostSound.1 _ (mapFind_mem hfind))).symm.subperm
  | none =>
    cases newResult with
    | none => rw [GetMemoryHost_bad_alloc hfind]
    | some p =>
      rw [GetMemoryHost_miss p hfind]
      unfold hostTracked
      exact (List.Sublist.append_left
        (List.Sublist.map _ (mapEmplace_sublist _ _ _)) _).subperm

theorem cudaTracked_GetMemoryCuda_subperm (st : MemoryManager) (size : Nat) (d : Int)
    (setDeviceOk : Bool) (mallocResult : Option Ptr)
    (hhit : ∀ c, mapFind (d, allocationSize size) st.m_cudaFreeMemoryPool = some c →
      mapFind (d, c.Data) st.m_cudaBusyMemoryPool = none) :
    (cudaTracked st).Subperm
      (cudaTracked (GetMemoryCuda st size d setDeviceOk mallocResult).state) := by
  cases hfind : mapFind (d, allocationSize size) st.m_cudaFreeMemoryPool with
  | some c =>
    exact (cudaTracked_hit setDeviceOk mallocResult hfind (hhit c hfind)).symm.subperm
  | none =>
    rw [GetMemoryCuda_miss setDeviceOk mallocResult hfind]
    unfold cudaTracked
    exact (List.Sublist.append_left
      (List.Sublist.map _ (mapEmplace_sublist _ _ _)) _).subperm

/-- C15, as the code has it: in every reachable state,
* `AddReference*` and `DeReference*` (throwing or not) and an Acquire that hits a free chunk
  whose identity is not already busy (on the host: every hit) leave the multiset of tracked
  chunks (identity, `Size`) over free and busy unchanged, so `GetTotalAllocationByteSize*`
  returns the same value;
* a successful Acquire that misses and is given a new identity adds exactly one chunk, and the
  total becomes `(total + sizeof(float) × Size) mod 2^64`, which is `total + sizeof(float) ×
  Size` when that sum is below `2^64`;
* under the same condition on hits, every Acquire, throwing or not, keeps all tracked chunks.
  `ClearUnused*` and `Clear*` are the calls left that remove one. -/
theorem tracked_chunks_kept (st : MemoryManager) (hreach : Reachable st) (p : Ptr) (d : Int)
    (size : Nat) :
    (hostTracked (AddReferenceHost st p).state = hostTracked st ∧
      GetTotalAllocationByteSizeHost (AddReferenceHost st p).state =
        GetTotalAllocationByteSizeHost st) ∧
    ((hostTracked (DeReferenceHost st p).state).Perm (hostTracked st) ∧
      GetTotalAllocationByteSizeHost (DeReferenceHost st p).state =
        GetTotalAllocationByteSizeHost st) ∧
    (∀ newResult c, mapFind size st.m_hostFreeMemoryPool = some c →
      (hostTracked (GetMemoryHost st size newResult).state).Perm (hostTracked st) ∧
      GetTotalAllocationByteSizeHost (GetMemoryHost st size newResult).state =
        GetTotalAllocationByteSizeHost st) ∧
    (mapFind size st.m_hostFreeMemoryPool = none → mapFind p st.m_hostBusyMemoryPool = none →
      (hostTracked (GetMemoryHost st size (some p)).state).Perm ((p, size) :: hostTracked st) ∧
      GetTotalAllocationByteSizeHost (GetMemoryHost st size (some p)).state =
        (GetTotalAllocationByteSizeHost st + sizeofFloat * size) % SIZE_MOD ∧
      (GetTotalAllocationByteSizeHost st + sizeofFloat * size < SIZE_MOD →
        GetTotalAllocationByteSizeHost (GetMemoryHost st size (some p)).state =
          GetTotalAllocationByteSizeHost st + sizeofFloat * size)) ∧
    (∀ newResult,
      (hostTracked st).Subperm (hostTracked (GetMemoryHost st size newResult).state)) ∧
    (cudaTracked (AddReferenceCuda st p d).state = cudaTracked st ∧
      GetTotalAllocationByteSizeCuda (AddReferenceCuda st p d).state =
        GetTotalAllocationByteSizeCuda st) ∧
    ((cudaTracked (DeReferenceCuda st p d).state).Perm (cudaTracked st) ∧
      GetTotalAllocationByteSizeCuda (DeReferenceCuda st p d).state =
        GetTotalAllocationByteSizeCuda st) ∧
    (∀ setDeviceOk mallocResult c,
      mapFind (d, allocationSize size) st.m_cudaFreeMemoryPool = some c →
      mapFind (d, c.Data) st.m_cudaBusyMemoryPool = none →
      (cudaTracked (GetMemoryCuda st size d setDeviceOk mallocResult).state).Perm
        (cudaTracked st) ∧
      GetTotalAllocationByteSizeCuda (GetMemoryCuda st size d setDeviceOk mallocResult).state =
        GetTotalAllocationByteSizeCuda st) ∧
    (mapFind (d, allocationSize size) st.m_cudaFreeMemoryPool = none →
      mapFind (d, p) st.m_cudaBusyMemoryPool = none →
      (cudaTracked (GetMemoryCuda st size d true (some p)).state).Perm
        (((d, p), allocationSize size) :: cudaTracked st) ∧
      GetTotalAllocationByteSizeCuda (GetMemoryCuda st size d true (some p)).state =
        (GetTotalAllocationByteSizeCuda st + sizeofFloat * allocationSize size) % SIZE_MOD ∧
      (GetTotalAllocationByteSizeCuda st + sizeofFloat * allocationSize size < SIZE_MOD →
        GetTotalAllocationByteSizeCuda (GetMemoryCuda st size d true (some p)).state =
          GetTotalAllocationByteSizeCuda st + sizeofFloat * allocationSize size)) ∧
    (∀ setDeviceOk mallocResult,
      (∀ c, mapFind (d, allocationSize size) st.m_cudaFreeMemoryPool = some c →
        mapFind (d, c.Data) st.m_cudaBusyMemoryPool = none) →
      (cudaTracked st).Subperm
        (cudaTracked (GetMemoryCuda st size d setDeviceOk mallocResult).state)) := by
  have hu := hreach.uniqueKeys
  refine ⟨?_, ?_, ?_, ?_, ?_, ?_, ?_, ?_, ?_, ?_⟩
  · have h := hostTracked_AddReferenceHost st p
    exact ⟨h, hostTotal_of_perm (by rw [h])⟩
  · have h := hostTracked_DeReferenceHost st p hu
    exact ⟨h, hostTotal_of_perm h⟩
  · intro newResult c hfind
    have h := hostTracked_hit newResult hfind (hreach.hostSound.1 _ (mapFind_mem hfind))
    exact ⟨h, hostTotal_of_perm h⟩
  · intro hfind hnew
    have h := hostTracked_miss p hfind hnew
    have ht := hostTotal_of_perm_cons _ h
    refine ⟨h, ht, ?_⟩
    intro hlt
    rw [ht]
    exact Nat.mod_eq_of_lt hlt
  · intro newResult
    exact hostTracked_GetMemoryHost_subperm st hreach size newResult
  · have h := cudaTracked_AddReferenceCuda st p d
    exact ⟨h, cudaTotal_of_perm (by rw [h])⟩
  · have h := cudaTracked_DeReferenceCuda st p d hu
    exact ⟨h, cudaTotal_of_perm h⟩
  · intro setDeviceOk mallocResult c hfind hnew
    have h := cudaTracked_hit setDeviceOk mallocResult hfind hnew
    exact ⟨h, cudaTotal_of_perm h⟩
  · intro hfind hnew
    have h := cudaTracked_miss true p hfind hnew
    have ht := cudaTotal_of_perm_cons _ h
    refine ⟨h, ht, ?_⟩
    intro hlt
    rw [ht]
    exact Nat.mod_eq_of_lt hlt
  · intro setDeviceOk mallocResult hhit
    exact cudaTracked_GetMemoryCuda_subperm st size d setDeviceOk mallocResult hhit

/-- C15, after `GetMemoryHost(1000)` answered with address 4096: the release of the buffer
keeps the total at 4000 bytes and a miss of 3 more cells raises it to 4012. -/
theorem tracked_chunks_kept_witness :
    Reachable (GetMemoryHost MemoryManager.empty 1000 (some 4096)).state ∧
    GetTotalAllocationByteSizeHost
      (DeReferenceHost (GetMemoryHost MemoryManager.empty 1000 (some 4096)).state 4096).state =
      4000 ∧
    GetTotalAllocationByteSizeHost
      (GetMemoryHost (GetMemoryHost MemoryManager.empty 1000 (some 4096)).state 3
        (some 8192)).state = 4012 :=
  have hr : Reachable (GetMemoryHost MemoryManager.empty 1000 (some 4096)).state :=
    Reachable.getMemoryHost 1000 (some 4096) Reachable.init (by decide)
  ⟨hr, ((tracked_chunks_kept _ hr 4096 0 3).2.1.2).trans (by decide),
    ((((tracked_chunks_kept _ hr 8192 0 3).2.2.2.1 (by decide) (by decide)).2.2
      (by decide))).trans (by decide)⟩

/-- C15 as stated fails. From the empty pools `GetMemoryCuda(2^62, 0)` misses and succeeds
(`CudaMalloc` is asked for `2^62 × 4 mod 2^64 = 0` bytes); it adds one chunk of `Size` `2^62`,
and the total is 0 before and 0 after, not `sizeof(float) × Size` more. And in the reachable
state `failedMallocTrace` the hit of `GetMemoryCuda(1, 0)` lowers the total from 3072 to
2048. -/
theorem byte_total_not_increased :
    (GetMemoryCuda MemoryManager.empty (2 ^ 62) 0 true (some 4096)).result = Except.ok 4096 ∧
    (GetMemoryCuda MemoryManager.empty (2 ^ 62) 0 true (some 4096)).calls =
      [SysCall.CudaSetDevice 0, SysCall.CudaMalloc 0] ∧
    cudaTracked (GetMemoryCuda MemoryManager.empty (2 ^ 62) 0 true (some 4096)).state =
      [((0, 4096), 2 ^ 62)] ∧
    GetTotalAllocationByteSizeCuda MemoryManager.empty = 0 ∧
    GetTotalAllocationByteSizeCuda
      (GetMemoryCuda MemoryManager.empty (2 ^ 62) 0 true (some 4096)).state = 0 ∧
    GetTotalAllocationByteSizeCuda
      (GetMemoryCuda MemoryManager.empty (2 ^ 62) 0 true (some 4096)).state ≠
      GetTotalAllocationByteSizeCuda MemoryManager.empty + sizeofFloat * 2 ^ 62 ∧
    Reachable failedMallocTrace ∧
    mapFind (0, allocationSize 1) failedMallocTrace.m_cudaFreeMemoryPool =
      some (MemoryChunk.mk 256 nullptr 0) ∧
    GetTotalAllocationByteSizeCuda failedMallocTrace = 3072 ∧
    GetTotalAllocationByteSizeCuda (GetMemoryCuda failedMallocTrace 1 0 true none).state =
      2048 :=
  ⟨by decide, by decide, by decide, by decide, by decide, by decide,
    Reachable.getMemoryCuda 257 0 true none
      (Reachable.deReferenceCuda nullptr 0
        (Reachable.getMemoryCuda 1 0 true none Reachable.init (fun _ h => nomatch h)))
      (fun _ h => nomatch h),
    by decide, by decide, by decide⟩

/-! ### The recorded size of a returned buffer -/

theorem allocationSize_ge (s : Nat) (h : s + 255 < 2 ^ 64) : s ≤ allocationSize s := by
  rw [allocationSize_eq s h]
  split <;> omega

/-- C16, as the code has it: in every reachable state, a successful `GetMemoryHost(s)` leaves
for the returned buffer a busy chunk with `Size = s`, for every `s`, reused or new; a
successful `GetMemoryCuda(s, d)` with `s + 255 < 2^64` whose returned buffer was not busy
under `d` before the call leaves for it a busy chunk with `Size = allocationSize s ≥ s`,
reused or new. -/
theorem returned_buffer_size (st : MemoryManager) (hreach : Reachable st) (s : Nat) (d : Int)
    (p : Ptr) :
    (∀ newResult, (∀ q, newResult = some q → HostFresh st q) →
      (GetMemoryHost st s newResult).result = Except.ok p →
      ∃ c, mapFind p (GetMemoryHost st s newResult).state.m_hostBusyMemoryPool = some c ∧
        c.Size = s ∧ c.Data = p) ∧
    (∀ setDeviceOk mallocResult, s + 255 < 2 ^ 64 →
      (GetMemoryCuda st s d setDeviceOk mallocResult).result = Except.ok p →
      mapFind (d, p) st.m_cudaBusyMemoryPool = none →
      ∃ c, mapFind (d, p)
          (GetMemoryCuda st s d setDeviceOk mallocResult).state.m_cudaBusyMemoryPool = some c ∧
        s ≤ c.Size ∧ c.Size = allocationSize s ∧ c.Data = p) := by
  obtain ⟨hf, _, cf, _⟩ := hreach.bookkeeping
  constructor
  · intro newResult hfresh hres
    cases hfind : mapFind s st.m_hostFreeMemoryPool with
    | some c0 =>
      have hsize : s = c0.Size := (hf _ (mapFind_mem hfind)).2
      have hnew : mapFind c0.Data st.m_hostBusyMemoryPool = none :=
        hreach.hostSound.1 _ (mapFind_mem hfind)
      rw [GetMemoryHost_hit newResult hfind] at hres ⊢
      have hp : c0.Data = p := by simpa using hres
      refine ⟨MemoryChunk.mk c0.Size c0.Data (c0.RefCount + 1), ?_, hsize.symm, hp⟩
      show mapFind p (mapEmplace c0.Data _ st.m_hostBusyMemoryPool) = some _
      rw [mapEmplace_of_none _ hnew, ← hp]
      exact mapFind_cons_self _ _ _
    | none =>
      cases newResult with
      | none =>
        rw [GetMemoryHost_bad_alloc hfind] at hres
        simp at hres
      | some q =>
        have hnew : mapFind q st.m_hostBusyMemoryPool = none := (hfresh q rfl).1
        rw [GetMemoryHost_miss q hfind] at hres ⊢
        have hp : q = p := by simpa using hres
        subst hp
        refine ⟨MemoryChunk.mk s q 1, ?_, rfl, rfl⟩
        show mapFind q (mapEmplace q _ st.m_hostBusyMemoryPool) = some _
        rw [mapEmplace_of_none _ hnew]
        exact mapFind_cons_self _ _ _
  · intro setDeviceOk mallocResult hbound hres hnew
    have hge := allocationSize_ge s hbound
    cases hfind : mapFind (d, allocationSize s) st.m_cudaFreeMemoryPool with
    | some c0 =>
      have hsize : allocationSize s = c0.Size := (cf _ (mapFind_mem hfind)).2.1
      rw [GetMemoryCuda_hit setDeviceOk mallocResult hfind] at hres ⊢
      have hp : c0.Data = p := by simpa using hres
      refine ⟨MemoryChunk.mk c0.Size c0.Data (c0.RefCount + 1), ?_, ?_, hsize.symm, hp⟩
      · show mapFind (d, p) (mapEmplace (d, c0.Data) _ st.m_cudaBusyMemoryPool) = some _
        rw [hp, mapEmplace_of_none _ hnew]
        exact mapFind_cons_self _ _ _
      · show s ≤ c0.Size
        rw [← hsize]
        exact hge
    | none =>
      rw [GetMemoryCuda_miss setDeviceOk mallocResult hfind] at hres ⊢
      have hp : mallocResult.getD nullptr = p := by
        by_cases hs : (setDeviceOk && mallocResult.isSome) = true
        · simpa [hs] using hres
        · simp [hs] at hres
      refine ⟨MemoryChunk.mk (allocationSize s) p 1, ?_, hge, rfl, rfl⟩
      show mapFind (d, p) (mapEmplace (d, mallocResult.getD nullptr) _
        st.m_cudaBusyMemoryPool) = some _
      rw [hp, mapEmplace_of_none _ hnew]
      exact mapFind_cons_self _ _ _

/-- C16, from the empty pools with 1000 requested cells: the host chunk records 1000, the
device chunk 1024. -/
theorem returned_buffer_size_witness :
    (∃ c, mapFind 4096 (GetMemoryHost MemoryManager.empty 1000
        (some 4096)).state.m_hostBusyMemoryPool = some c ∧ c.Size = 1000 ∧ c.Data = 4096) ∧
    (∃ c, mapFind (0, 8192) (GetMemoryCuda MemoryManager.empty 1000 0 true
        (some 8192)).state.m_cudaBusyMemoryPool = some c ∧ 1000 ≤ c.Size ∧
        c.Size = allocationSize 1000 ∧ c.Data = 8192) :=
  ⟨(returned_buffer_size MemoryManager.empty Reachable.init 1000 0 4096).1 (some 4096)
      (by decide) (by decide),
    (returned_buffer_size MemoryManager.empty Reachable.init 1000 0 8192).2 true (some 8192)
      (by decide) (by decide) (by decide)⟩

/-- C16 as stated fails. From the empty pools `GetMemoryCuda(2^64 - 1, 0)` rounds the size to
0, succeeds, and records `Size = 0` for the returned buffer. And in the reachable state
`shrunkenNullTrace` the call `GetMemoryCuda(257, 0)` hits the free `nullptr` chunk of `Size`
512 and returns `nullptr`, whose busy chunk stays the one of `Size` 256. -/
theorem returned_buffer_too_small :
    allocationSize (2 ^ 64 - 1) = 0 ∧
    (GetMemoryCuda MemoryManager.empty (2 ^ 64 - 1) 0 true (some 4096)).result =
      Except.ok 4096 ∧
    mapFind (0, 4096) (GetMemoryCuda MemoryManager.empty (2 ^ 64 - 1) 0 true
      (some 4096)).state.m_cudaBusyMemoryPool = some (MemoryChunk.mk 0 4096 1) ∧
    ¬ (2 ^ 64 - 1 ≤ (MemoryChunk.mk 0 4096 1).Size) ∧
    Reachable shrunkenNullTrace ∧
    (GetMemoryCuda shrunkenNullTrace 257 0 true none).result = Except.ok nullptr ∧
    (GetMemoryCuda shrunkenNullTrace 257 0 true none).calls = [] ∧
    mapFind (0, nullptr)
        (GetMemoryCuda shrunkenNullTrace 257 0 true none).state.m_cudaBusyMemoryPool =
      some (MemoryChunk.mk 256 nullptr 1) ∧
    ¬ (257 ≤ (MemoryChunk.mk 256 nullptr 1).Size) :=
  ⟨by decide, by decide, by decide, by decide,
    Reachable.getMemoryCuda 1 0 true none
      (Reachable.deReferenceCuda nullptr 0
        (Reachable.getMemoryCuda 257 0 true none Reachable.init (fun _ h => nomatch h)))
      (fun _ h => nomatch h),
    by decide, by decide, by decide, by decide⟩

/-! ### A failed accelerator Acquire -/

/-- C23: from the empty pools, `GetMemoryCuda(1, 0)` with a failing `CudaMalloc` throws
"Allocation failure" and leaves the chunk `(256, nullptr, 1)` in the busy collection under
`(0, nullptr)`; with a failing `CudaSetDevice` and a `CudaMalloc` that returns address 4096 it
throws as well and leaves `(256, 4096, 1)` busy. The busy collection is not as it was before
the call. -/
theorem failed_acquire_registers_chunk :
    (GetMemoryCuda MemoryManager.empty 1 0 true none).result =
      Except.error "GetMemoryCuda - Allocation failure" ∧
    (GetMemoryCuda MemoryManager.empty 1 0 true none).state.m_cudaBusyMemoryPool =
      [((0, nullptr), MemoryChunk.mk 256 nullptr 1)] ∧
    (GetMemoryCuda MemoryManager.empty 1 0 true none).state.m_cudaBusyMemoryPool ≠
      MemoryManager.empty.m_cudaBusyMemoryPool ∧
    (GetMemoryCuda MemoryManager.empty 1 0 false (some 4096)).result =
      Except.error "GetMemoryCuda - Allocation failure" ∧
    (GetMemoryCuda MemoryManager.empty 1 0 false (some 4096)).state.m_cudaBusyMemoryPool =
      [((0, 4096), MemoryChunk.mk 256 4096 1)] := by
  decide

/-! ### Aliasing between acquisitions -/

/-- The host pool hands out no busy buffer: in every reachable state a successful
`GetMemoryHost`, given
a fresh array by `new`, returns a buffer that was not a busy key before the call, so it differs
from every buffer that is busy. -/
theorem host_acquire_not_busy_before (st : MemoryManager) (hreach : Reachable st) (size : Nat)
    (newResult : Option Ptr) (p : Ptr) (hfresh : ∀ q, newResult = some q → HostFresh st q)
    (hres : (GetMemoryHost st size newResult).result = Except.ok p) :
    mapFind p st.m_hostBusyMemoryPool = none := by
  cases hfind : mapFind size st.m_hostFreeMemoryPool with
  | some c0 =>
    rw [GetMemoryHost_hit newResult hfind] at hres
    have hp : c0.Data = p := by simpa using hres
    rw [← hp]
    exact hreach.hostSound.1 _ (mapFind_mem hfind)
  | none =>
    cases newResult with
    | none =>
      rw [GetMemoryHost_bad_alloc hfind] at hres
      simp at hres
    | some q =>
      rw [GetMemoryHost_miss q hfind] at hres
      have hp : q = p := by simpa using hres
      rw [← hp]
      exact (hfresh q rfl).1

/-- C24: in the reachable state `twoNullChunksFree` the call `GetMemoryCuda(1, 0)` succeeds
with `nullptr`, and the next call `GetMemoryCuda(257, 0)`, with no release in between,
succeeds with `nullptr` again: the second result was a busy key right before the call.
Neither call asks the device allocator for anything. -/
theorem cuda_acquires_alias :
    Reachable twoNullChunksFree ∧
    (GetMemoryCuda twoNullChunksFree 1 0 true none).result = Except.ok nullptr ∧
    (GetMemoryCuda twoNullChunksFree 1 0 true none).calls = [] ∧
    mapFind (0, nullptr)
        (GetMemoryCuda twoNullChunksFree 1 0 true none).state.m_cudaBusyMemoryPool =
      some (MemoryChunk.mk 256 nullptr 1) ∧
    (GetMemoryCuda (GetMemoryCuda twoNullChunksFree 1 0 true none).state 257 0 true
      none).result = Except.ok nullptr ∧
    (GetMemoryCuda (GetMemoryCuda twoNullChunksFree 1 0 true none).state 257 0 true
      none).calls = [] :=
  ⟨Reachable.deReferenceCuda nullptr 0
      (Reachable.getMemoryCuda 257 0 true none
        (Reachable.deReferenceCuda nullptr 0
          (Reachable.getMemoryCuda 1 0 true none Reachable.init (fun _ h => nomatch h)))
        (fun _ h => nomatch h)),
    by decide, by decide, by decide, by decide, by decide⟩

/-! ### Keys of the free collections -/

theorem allocationSize_dvd (s : Nat) : 256 ∣ allocationSize s := by
  unfold allocationSize m_allocationUnitSize SIZE_MOD
  split <;> omega

/-- C25: in every reachable state each entry of the host free collection is keyed by the
`Size` of its chunk, and each entry of the CUDA free collection is keyed by its device and the
`Size` of its chunk, a multiple of 256 that the rounding leaves fixed. -/
theorem free_keys (st : MemoryManager) (hreach : Reachable st) :
    (∀ e ∈ st.m_hostFreeMemoryPool, e.1 = e.2.Size) ∧
    (∀ e ∈ st.m_cudaFreeMemoryPool, e.1 = (e.1.1, e.2.Size) ∧ 256 ∣ e.2.Size ∧
      allocationSize e.2.Size = e.2.Size) := by
  obtain ⟨hf, _, cf, _⟩ := hreach.bookkeeping
  refine ⟨fun e he => (hf e he).2, ?_⟩
  intro e he
  obtain ⟨_, h2, h3⟩ := cf e he
  refine ⟨Prod.ext rfl h2, ?_, h3⟩
  rw [← h3]
  exact allocationSize_dvd _

/-- C25, in the state with one released device chunk of 1000 requested cells. -/
theorem free_keys_witness :
    Reachable (DeReferenceCuda (GetMemoryCuda MemoryManager.empty 1000 0 true
      (some 8192)).state 8192 0).state ∧
    ∀ e ∈ (DeReferenceCuda (GetMemoryCuda MemoryManager.empty 1000 0 true
      (some 8192)).state 8192 0).state.m_cudaFreeMemoryPool,
      e.1 = (e.1.1, e.2.Size) ∧ 256 ∣ e.2.Size ∧ allocationSize e.2.Size = e.2.Size :=
  have hr : Reachable (DeReferenceCuda (GetMemoryCuda MemoryManager.empty 1000 0 true
      (some 8192)).state 8192 0).state :=
    Reachable.deReferenceCuda 8192 0
      (Reachable.getMemoryCuda 1000 0 true (some 8192) Reachable.init (by decide))
  ⟨hr, (free_keys _ hr).2⟩

/-! ### AddReference then Release -/

theorem mapSet_mapSet_restore {κ : Type} [DecidableEq κ] {V : Type} {k : κ} {v : V}
    (f : V → V) {m : List (κ × V)} (h : mapFind k m = some v) :
    mapSet k (fun _ => v) (mapSet k f m) = m := by
  induction m with
  | nil => simp [mapFind] at h
  | cons e rest ih =>
    obtain ⟨k2, v2⟩ := e
    by_cases hk : k2 = k
    · subst hk
      simp [mapFind] at h
      subst h
      simp [mapSet]
    · simp only [mapFind, hk, if_false] at h
      simp [mapSet, hk, ih h]

/-- C26: in every reachable state, for every busy buffer identity `p` (under device `d` on the
accelerator), `AddReference` followed by `DeReference` of `p` both succeed and give back the
very same state: free and busy collections of both domains, the `RefCount` of `p` included,
and the host buffers. -/
theorem addReference_release_identity (st : MemoryManager) (hreach : Reachable st) (p : Ptr)
    (d : Int) :
    (mapFind p st.m_hostBusyMemoryPool ≠ none →
      (AddReferenceHost st p).result = Except.ok () ∧
      (DeReferenceHost (AddReferenceHost st p).state p).result = Except.ok () ∧
      (DeReferenceHost (AddReferenceHost st p).state p).state = st) ∧
    (mapFind (d, p) st.m_cudaBusyMemoryPool ≠ none →
      (AddReferenceCuda st p d).result = Except.ok () ∧
      (DeReferenceCuda (AddReferenceCuda st p d).state p d).result = Except.ok () ∧
      (DeReferenceCuda (AddReferenceCuda st p d).state p d).state = st) := by
  obtain ⟨_, hb, _, cb⟩ := hreach.bookkeeping
  constructor
  · intro hbusy
    cases hfind : mapFind p st.m_hostBusyMemoryPool with
    | none => exact absurd hfind hbusy
    | some c =>
      have hr : 1 ≤ c.RefCount := (hb _ (mapFind_mem hfind)).1
      have hadd := AddReferenceHost_found hfind
      have hnext : mapFind p (AddReferenceHost st p).state.m_hostBusyMemoryPool =
          some (MemoryChunk.mk c.Size c.Data (c.RefCount + 1)) := by
        rw [hadd]
        exact mapFind_mapSet_self _ hfind
      have hne : (MemoryChunk.mk c.Size c.Data (c.RefCount + 1)).RefCount ≠ 1 := by
        simp only
        omega
      rw [DeReferenceHost_more hnext hne]
      refine ⟨by rw [hadd], rfl, ?_⟩
      rw [hadd]
      have hback : (MemoryChunk.mk c.Size c.Data (c.RefCount + 1 - 1)) = c := by
        cases c
        simp
      simp only [hback, mapSet_mapSet_restore _ hfind]
  · intro hbusy
    cases hfind : mapFind (d, p) st.m_cudaBusyMemoryPool with
    | none => exact absurd hfind hbusy
    | some c =>
      have hr : 1 ≤ c.RefCount := (cb _ (mapFind_mem hfind)).1
      have hadd := AddReferenceCuda_found hfind
      have hnext : mapFind (d, p) (AddReferenceCuda st p d).state.m_cudaBusyMemoryPool =
          some (MemoryChunk.mk c.Size c.Data (c.RefCount + 1)) := by
        rw [hadd]
        exact mapFind_mapSet_self _ hfind
      have hne : (MemoryChunk.mk c.Size c.Data (c.RefCount + 1)).RefCount ≠ 1 := by
        simp only
        omega
      rw [DeReferenceCuda_more hnext hne]
      refine ⟨by rw [hadd], rfl, ?_⟩
      rw [hadd]
      have hback : (MemoryChunk.mk c.Size c.Data (c.RefCount + 1 - 1)) = c := by
        cases c
        simp
      simp only [hback, mapSet_mapSet_restore _ hfind]

/-- C26, on the host buffer at 4096 right after its acquisition. -/
theorem addReference_release_identity_witness :
    Reachable (GetMemoryHost MemoryManager.empty 1000 (some 4096)).state ∧
    (DeReferenceHost (AddReferenceHost (GetMemoryHost MemoryManager.empty 1000
      (some 4096)).state 4096).state 4096).state =
      (GetMemoryHost MemoryManager.empty 1000 (some 4096)).state :=
  have hr : Reachable (GetMemoryHost MemoryManager.empty 1000 (some 4096)).state :=
    Reachable.getMemoryHost 1000 (some 4096) Reachable.init (by decide)
  ⟨hr, ((addReference_release_identity _ hr 4096 0).1 (by decide)).2.2⟩

/-! ### Content of a reused host buffer -/

/-- C27: `DeReferenceHost` returns the host buffers unchanged, in every state. A
`GetMemoryHost(size)` that is served from the free collection returns the `Data` of the free
chunk without calling the allocator and returns the host buffers unchanged, so the buffer
holds what it held before; in particular after the release of the last reference of `p` the
next `GetMemoryHost` of its `Size` returns it with the content it had at the release. Only a
miss fills the returned buffer with zeros. -/
theorem reused_buffer_content (st : MemoryManager) (p : Ptr) (size : Nat)
    (newResult : Option Ptr) :
    (DeReferenceHost st p).state.hostHeap = st.hostHeap ∧
    (∀ c, mapFind size st.m_hostFreeMemoryPool = some c →
      (GetMemoryHost st size newResult).result = Except.ok c.Data ∧
      (GetMemoryHost st size newResult).calls = [] ∧
      (GetMemoryHost st size newResult).state.hostHeap = st.hostHeap) ∧
    (∀ c, mapFind p st.m_hostBusyMemoryPool = some c → c.RefCount = 1 →
      (GetMemoryHost (DeReferenceHost st p).state c.Size newResult).result =
        Except.ok c.Data ∧
      mapFind c.Data
          (GetMemoryHost (DeReferenceHost st p).state c.Size newResult).state.hostHeap =
        mapFind c.Data st.hostHeap) ∧
    (∀ q, mapFind size st.m_hostFreeMemoryPool = none →
      mapFind q (GetMemoryHost st size (some q)).state.hostHeap =
        some (List.replicate size 0)) := by
  have hderef : (DeReferenceHost st p).state.hostHeap = st.hostHeap := by
    cases h : mapFind p st.m_hostBusyMemoryPool with
    | none => rw [DeReferenceHost_unknown h]
    | some c =>
      by_cases hr : c.RefCount = 1
      · rw [DeReferenceHost_last h hr]
      · rw [DeReferenceHost_more h hr]
  refine ⟨hderef, ?_, ?_, ?_⟩
  · intro c hfind
    rw [GetMemoryHost_hit newResult hfind]
    exact ⟨rfl, rfl, rfl⟩
  · intro c hfind hr
    have hhit : mapFind c.Size (DeReferenceHost st p).state.m_hostFreeMemoryPool =
        some (MemoryChunk.mk c.Size c.Data 0) := by
      rw [DeReferenceHost_last hfind hr]
      exact mapFind_cons_self _ _ _
    rw [GetMemoryHost_hit newResult hhit]
    refine ⟨rfl, ?_⟩
    show mapFind c.Data (DeReferenceHost st p).state.hostHeap = _
    rw [hderef]
  · intro q hfind
    rw [GetMemoryHost_miss q hfind]
    exact mapFind_cons_self _ _ _

/-- C27, with the buffer at 4096 holding 7, 8, 9: after its release the Acquire of 3 cells
returns it with 7, 8, 9 still in it. -/
theorem reused_buffer_content_witness :
    (GetMemoryHost (DeReferenceHost writtenHostBuffer 4096).state 3 none).result =
      Except.ok 4096 ∧
    mapFind 4096
        (GetMemoryHost (DeReferenceHost writtenHostBuffer 4096).state 3 none).state.hostHeap =
      some [7, 8, 9] :=
  ⟨((reused_buffer_content writtenHostBuffer 4096 3 none).2.2.1 (MemoryChunk.mk 3 4096 1)
      (by decide) (by decide)).1,
    (((reused_buffer_content writtenHostBuffer 4096 3 none).2.2.1 (MemoryChunk.mk 3 4096 1)
      (by decide) (by decide)).2).trans (by decide)⟩

/-! ### The filter shape of the convolution kernels -/

/-- C28: with an input of shape `(3, 4, 4)` and a filter of shape `(5, 3, 3, 3)` on the
accelerator, `Conv2DForward` passes the `filterShape` `(5, 3, 3, 3)` to its kernel, channel
`filter.GetShape().At(filter.GetShape().Dim() - 3) = 3`, while `Conv2DBackward` passes
`(5, 5, 3, 3)`, channel `filter.GetShape().At(x.GetShape().Dim() - 3) = 5`: the two differ. -/
theorem backward_filter_channel_differs :
    (cudaTensor [3, 4, 4] 4096).GetShape.Dim = 3 ∧
    (cudaTensor [5, 3, 3, 3] 8192).GetShape.Dim = 4 ∧
    shape4DOf cudaAccessors (cudaTensor [5, 3, 3, 3] 8192) = Shape4D.mk 5 3 3 3 ∧
    backwardFilterShape cudaAccessors (cudaTensor [3, 4, 4] 4096)
      (cudaTensor [5, 3, 3, 3] 8192) = Shape4D.mk 5 5 3 3 ∧
    backwardFilterShape cudaAccessors (cudaTensor [3, 4, 4] 4096)
      (cudaTensor [5, 3, 3, 3] 8192) ≠ shape4DOf cudaAccessors (cudaTensor [5, 3, 3, 3] 8192) ∧
    (Conv2DForward cudaAccessors true (cudaTensor [5, 4, 4] 12288) (cudaTensor [3, 4, 4] 4096)
      (cudaTensor [5, 3, 3, 3] 8192) 1 1 1 1 1 1).calls =
      [ComputeCall.cudaSetDevice 0,
        ComputeCall.CudaConv2DForward 12288 4096 8192 (Shape4D.mk 1 3 4 4)
          (Shape4D.mk 5 3 3 3) 1 1 1 1 1 1 0] ∧
    (Conv2DBackward cudaAccessors true (cudaTensor [3, 4, 4] 16384)
      (cudaTensor [5, 3, 3, 3] 20480) (cudaTensor [5, 4, 4] 12288) (cudaTensor [3, 4, 4] 4096)
      (cudaTensor [5, 3, 3, 3] 8192) 1 1 1 1 1 1).calls =
      [ComputeCall.cudaSetDevice 0,
        ComputeCall.CudaConv2DBackward 16384 8192 20480 4096 12288 (Shape4D.mk 1 3 4 4)
          (Shape4D.mk 5 5 3 3) 1 1 1 1 1 1 0] := by
  decide

/-! ### Pooling runs on the accelerator only -/

/-- C29: when the assertions of the function hold or are compiled out, each of
`MaxPool2DForward`, `AvgPool2DForward` (mode of `y`) and `MaxPool2DBackward`,
`AvgPool2DBackward` (mode of `dx`) throws `std::invalid_argument` exactly when that mode is
not `DeviceType::Cuda`, and then it has made no call at all: no kernel runs, so no tensor
argument is touched. `Conv2DForward` and `Conv2DBackward` never throw `std::invalid_argument`;
off the accelerator they return after the single call of the naive host implementation. -/
theorem pooling_accelerator_only (api : TensorAccessors) (ndebug : Bool)
    (y x dx dy filter dFilter : TensorData) (a b c d e f : Int) :
    (assertPasses ndebug (poolForwardAsserts api y x) = true →
      ((∃ what, (MaxPool2DForward api ndebug y x a b c d e f).result =
          Except.error (Thrown.invalid_argument what)) ↔ api.Mode y ≠ DeviceType.Cuda) ∧
      (api.Mode y ≠ DeviceType.Cuda →
        (MaxPool2DForward api ndebug y x a b c d e f).calls = []) ∧
      ((∃ what, (AvgPool2DForward api ndebug y x a b c d e f).result =
          Except.error (Thrown.invalid_argument what)) ↔ api.Mode y ≠ DeviceType.Cuda) ∧
      (api.Mode y ≠ DeviceType.Cuda →
        (AvgPool2DForward api ndebug y x a b c d e f).calls = [])) ∧
    (assertPasses ndebug (poolBackwardAsserts api dx dy x y) = true →
      ((∃ what, (MaxPool2DBackward api ndebug dx dy x y a b c d e f).result =
          Except.error (Thrown.invalid_argument what)) ↔ api.Mode dx ≠ DeviceType.Cuda) ∧
      (api.Mode dx ≠ DeviceType.Cuda →
        (MaxPool2DBackward api ndebug dx dy x y a b c d e f).calls = []) ∧
      ((∃ what, (AvgPool2DBackward api ndebug dx dy x y a b c d e f).result =
          Except.error (Thrown.invalid_argument what)) ↔ api.Mode dx ≠ DeviceType.Cuda) ∧
      (api.Mode dx ≠ DeviceType.Cuda →
        (AvgPool2DBackward api ndebug dx dy x y a b c d e f).calls = [])) ∧
    ((∀ what, (Conv2DForward api ndebug y x filter a b c d e f).result ≠
        Except.error (Thrown.invalid_argument what)) ∧
      (assertPasses ndebug (convForwardAsserts api y x filter) = true →
        api.Mode y ≠ DeviceType.Cuda →
        (Conv2DForward api ndebug y x filter a b c d e f).result = Except.ok () ∧
        (Conv2DForward api ndebug y x filter a b c d e f).calls =
          [ComputeCall.NaiveConv2D y x filter a b e f c d (api.GetCudaDevice y)])) ∧
    ((∀ what, (Conv2DBackward api ndebug dx dFilter dy x filter a b c d e f).result ≠
        Except.error (Thrown.invalid_argument what)) ∧
      (assertPasses ndebug (convBackwardAsserts api dx dFilter dy x filter) = true →
        api.Mode dx ≠ DeviceType.Cuda →
        (Conv2DBackward api ndebug dx dFilter dy x filter a b c d e f).result =
          Except.ok () ∧
        (Conv2DBackward api ndebug dx dFilter dy x filter a b c d e f).calls =
          [ComputeCall.NaiveConv2DBackward dx dFilter dy x filter a b c d e f
            (api.GetCudaDevice dx)])) := by
  refine ⟨?_, ?_, ⟨?_, ?_⟩, ⟨?_, ?_⟩⟩
  · intro hassert
    by_cases hmode : api.Mode y = DeviceType.Cuda <;>
      simp [MaxPool2DForward, AvgPool2DForward, hassert, hmode]
  · intro hassert
    by_cases hmode : api.Mode dx = DeviceType.Cuda <;>
      simp [MaxPool2DBackward, AvgPool2DBackward, hassert, hmode]
  · intro what
    unfold Conv2DForward
    split
    · split <;> simp
    · simp
  · intro hassert hmode
    simp [Conv2DForward, hassert, hmode]
  · intro what
    unfold Conv2DBackward
    split
    · split <;> simp
    · simp
  · intro hassert hmode
    simp [Conv2DBackward, hassert, hmode]

/-- C29, with every tensor on the host and the assertions compiled in: `MaxPool2DForward`
throws `std::invalid_argument` without a call, `Conv2DForward` calls the naive kernel. -/
theorem pooling_accelerator_only_witness :
    (∃ what, (MaxPool2DForward hostAccessors false (cudaTensor [3, 2, 2] 4096)
      (cudaTensor [3, 4, 4] 8192) 2 2 2 2 0 0).result =
        Except.error (Thrown.invalid_argument what)) ∧
    (MaxPool2DForward hostAccessors false (cudaTensor [3, 2, 2] 4096)
      (cudaTensor [3, 4, 4] 8192) 2 2 2 2 0 0).calls = [] ∧
    (Conv2DForward hostAccessors false (cudaTensor [5, 4, 4] 12288) (cudaTensor [3, 4, 4] 4096)
      (cudaTensor [5, 3, 3, 3] 8192) 1 1 1 1 1 1).result = Except.ok () :=
  ⟨((pooling_accelerator_only hostAccessors false (cudaTensor [3, 2, 2] 4096)
      (cudaTensor [3, 4, 4] 8192) (cudaTensor [3, 4, 4] 8192) (cudaTensor [3, 2, 2] 4096)
      (cudaTensor [5, 3, 3, 3] 8192) (cudaTensor [5, 3, 3, 3] 8192) 2 2 2 2 0 0).1
      (by decide)).1.mpr (by decide),
    ((pooling_accelerator_only hostAccessors false (cudaTensor [3, 2, 2] 4096)
      (cudaTensor [3, 4, 4] 8192) (cudaTensor [3, 4, 4] 8192) (cudaTensor [3, 2, 2] 4096)
      (cudaTensor [5, 3, 3, 3] 8192) (cudaTensor [5, 3, 3, 3] 8192) 2 2 2 2 0 0).1
      (by decide)).2.1 (by decide),
    ((pooling_accelerator_only hostAccessors false (cudaTensor [5, 4, 4] 12288)
      (cudaTensor [3, 4, 4] 4096) (cudaTensor [3, 4, 4] 4096) (cudaTensor [5, 4, 4] 12288)
      (cudaTensor [5, 3, 3, 3] 8192) (cudaTensor [5, 3, 3, 3] 8192) 1 1 1 1 1 1).2.2.1.2
      (by decide) (by decide)).1⟩

/-! ### Identities of the accelerator pool other than `nullptr` -/

theorem mapFind_mapEmplace_of_ne {κ : Type} [DecidableEq κ] {V : Type} {k q : κ} (v : V)
    (m : List (κ × V)) (h : k ≠ q) : mapFind q (mapEmplace k v m) = mapFind q m := by
  cases hk : mapFind k m with
  | some w => rw [mapEmplace_of_some v hk]
  | none => rw [mapEmplace_of_none v hk, mapFind_cons_ne v m h]

theorem CudaSound_of_frame {st st2 : MemoryManager}
    (hf : st2.m_cudaFreeMemoryPool = st.m_cudaFreeMemoryPool)
    (hb : st2.m_cudaBusyMemoryPool = st.m_cudaBusyMemoryPool) (h : CudaSound st) :
    CudaSound st2 := by
  unfold CudaSound
  rw [hf, hb]
  exact h

theorem CudaSound_GetMemoryCuda {st : MemoryManager} (size : Nat) (d : Int)
    (setDeviceOk : Bool) (mallocResult : Option Ptr)
    (hfresh : ∀ p, mallocResult = some p → CudaFresh st d p) (h : CudaSound st) :
    CudaSound (GetMemoryCuda st size d setDeviceOk mallocResult).state := by
  obtain ⟨hd, hn⟩ := h
  cases hfind : mapFind (d, allocationSize size) st.m_cudaFreeMemoryPool with
  | some c =>
    rw [GetMemoryCuda_hit setDeviceOk mallocResult hfind]
    obtain ⟨l1, l2, h1, _, h3⟩ := multiErase_split hfind
    rw [h1] at hn
    have hsub : (l1 ++ l2).Sublist (l1 ++ ((d, allocationSize size), c) :: l2) :=
      (List.sublist_cons_self _ l2).append_left l1
    have hpair := List.pairwise_append.mp hn
    refine ⟨?_, ?_⟩
    · intro e he hnull
      have he2 : e ∈ l1 ++ l2 := by
        have : e ∈ multiErase (d, allocationSize size) st.m_cudaFreeMemoryPool := he
        rwa [h3] at this
      have hold : mapFind (e.1.1, e.2.Data) st.m_cudaBusyMemoryPool = none := by
        apply hd _ _ hnull
        rw [h1]
        exact hsub.subset he2
      have hne : (d, c.Data) ≠ (e.1.1, e.2.Data) := by
        intro heq
        rcases List.mem_append.mp he2 with h4 | h4
        · exact hnull (hpair.2.2 e h4 _ (List.mem_cons_self _ _) heq.symm)
        · have h5 := (List.pairwise_cons.mp hpair.2.1).1 e h4 heq
          have h6 : c.Data = e.2.Data := congrArg Prod.snd heq
          exact hnull (h6 ▸ h5)
      show mapFind (e.1.1, e.2.Data) (mapEmplace (d, c.Data) _ st.m_cudaBusyMemoryPool) = none
      rw [mapFind_mapEmplace_of_ne _ _ hne]
      exact hold
    · show (multiErase (d, allocationSize size) st.m_cudaFreeMemoryPool).Pairwise
        SameBufferOnlyNull
      rw [h3]
      exact hn.sublist hsub
  | none =>
    rw [GetMemoryCuda_miss setDeviceOk mallocResult hfind]
    refine ⟨?_, hn⟩
    intro e he hnull
    have hne : (d, mallocResult.getD nullptr) ≠ (e.1.1, e.2.Data) := by
      intro heq
      have h6 : mallocResult.getD nullptr = e.2.Data := congrArg Prod.snd heq
      have h7 : d = e.1.1 := congrArg Prod.fst heq
      cases mallocResult with
      | none => exact hnull h6.symm
      | some p => exact (hfresh p rfl).2 e he h7.symm h6.symm
    show mapFind (e.1.1, e.2.Data) (mapEmplace (d, mallocResult.getD nullptr) _
      st.m_cudaBusyMemoryPool) = none
    rw [mapFind_mapEmplace_of_ne _ _ hne]
    exact hd e he hnull

theorem CudaSound_AddReferenceCuda {st : MemoryManager} (p : Ptr) (d : Int)
    (h : CudaSound st) : CudaSound (AddReferenceCuda st p d).state := by
  obtain ⟨hd, hn⟩ := h
  cases hfind : mapFind (d, p) st.m_cudaBusyMemoryPool with
  | none => rw [AddReferenceCuda_unknown hfind]; exact ⟨hd, hn⟩
  | some c =>
    rw [AddReferenceCuda_found hfind]
    exact ⟨fun e he hnull => mapFind_mapSet_of_none _ (hd e he hnull), hn⟩

theorem CudaSound_DeReferenceCuda {st : MemoryManager} (p : Ptr) (d : Int)
    (hbook : Bookkeeping st) (h : CudaSound st) : CudaSound (DeReferenceCuda st p d).state := by
  obtain ⟨hd, hn⟩ := h
  cases hfind : mapFind (d, p) st.m_cudaBusyMemoryPool with
  | none => rw [DeReferenceCuda_unknown hfind]; exact ⟨hd, hn⟩
  | some c =>
    have hdata : c.Data = p := ((hbook.2.2.2 _ (mapFind_mem hfind)).2.1).symm
    by_cases hr : c.RefCount = 1
    · rw [DeReferenceCuda_last hfind hr]
      refine ⟨?_, ?_⟩
      · intro e he hnull
        rcases List.mem_cons.mp he with h1 | h1
        · rw [h1]
          show mapFind (d, c.Data) (mapErase (d, p) st.m_cudaBusyMemoryPool) = none
          rw [hdata]
          exact mapFind_mapErase_self _ _
        · exact mapFind_mapErase_of_none (hd e h1 hnull)
      · show (((d, c.Size), MemoryChunk.mk c.Size c.Data 0) ::
          st.m_cudaFreeMemoryPool).Pairwise SameBufferOnlyNull
        refine List.pairwise_cons.mpr ⟨?_, hn⟩
        intro b hb heq
        show c.Data = nullptr
        by_contra hnull
        have h6 : c.Data = b.2.Data := congrArg Prod.snd heq
        have h7 : d = b.1.1 := congrArg Prod.fst heq
        have hnone := hd b hb (h6 ▸ hnull)
        rw [← h6, ← h7, hdata, hfind] at hnone
        cases hnone
    · rw [DeReferenceCuda_more hfind hr]
      exact ⟨fun e he hnull => mapFind_mapSet_of_none _ (hd e he hnull), hn⟩

theorem CudaSound_nil {st : MemoryManager} (h : st.m_cudaFreeMemoryPool = []) :
    CudaSound st := by
  unfold CudaSound
  rw [h]
  exact ⟨fun e he => absurd he (List.not_mem_nil e), List.Pairwise.nil⟩

theorem Reachable.cudaSound {st : MemoryManager} (h : Reachable st) : CudaSound st := by
  induction h with
  | init => exact CudaSound_nil rfl
  | getMemoryHost size newResult _ _ ih =>
    exact CudaSound_of_frame (GetMemoryHost_cuda_frame _ size newResult).1
      (GetMemoryHost_cuda_frame _ size newResult).2 ih
  | getMemoryCuda size d ok mr _ hfresh ih => exact CudaSound_GetMemoryCuda size d ok mr hfresh ih
  | addReferenceHost p _ ih =>
    exact CudaSound_of_frame (AddReferenceHost_cuda_frame _ p).1
      (AddReferenceHost_cuda_frame _ p).2 ih
  | addReferenceCuda p d _ ih => exact CudaSound_AddReferenceCuda p d ih
  | deReferenceHost p _ ih =>
    exact CudaSound_of_frame (DeReferenceHost_cuda_frame _ p).1
      (DeReferenceHost_cuda_frame _ p).2 ih
  | deReferenceCuda p d hr ih => exact CudaSound_DeReferenceCuda p d hr.bookkeeping ih
  | clearUnusedHost _ ih => exact CudaSound_of_frame rfl rfl ih
  | clearUnusedCuda f _ ih =>
    rw [ClearUnusedCudaMemoryPool_state]
    split
    · exact CudaSound_nil rfl
    · exact ih
  | clearHost _ ih => exact CudaSound_of_frame rfl rfl ih
  | clearCuda f _ ih =>
    rw [ClearCudaMemoryPool_state]
    split
    · split
      · exact CudaSound_nil rfl
      · exact CudaSound_nil rfl
    · exact ih

/-! ### Independence of a copy -/

theorem host_acquire_keeps_busy {st : MemoryManager} (hsound : HostSound st) (size : Nat)
    (newResult : Option Ptr) (target q : Ptr) (c : MemoryChunk)
    (hfresh : ∀ p, newResult = some p → HostFresh st p)
    (hres : (GetMemoryHost st size newResult).result = Except.ok target)
    (hq : mapFind q st.m_hostBusyMemoryPool = some c) :
    target ≠ q ∧
    mapFind q (GetMemoryHost st size newResult).state.m_hostBusyMemoryPool = some c ∧
    mapFind q (GetMemoryHost st size newResult).state.hostHeap = mapFind q st.hostHeap := by
  cases hfind : mapFind size st.m_hostFreeMemoryPool with
  | some c0 =>
    rw [GetMemoryHost_hit newResult hfind] at hres ⊢
    have hp : c0.Data = target := by simpa using hres
    have hne : c0.Data ≠ q := by
      intro heq
      have hnone := hsound.1 _ (mapFind_mem hfind)
      rw [show ((size, c0) : Nat × MemoryChunk).2.Data = q from heq, hq] at hnone
      cases hnone
    refine ⟨hp ▸ hne, ?_, rfl⟩
    show mapFind q (mapEmplace c0.Data _ st.m_hostBusyMemoryPool) = some c
    rw [mapFind_mapEmplace_of_ne _ _ hne]
    exact hq
  | none =>
    cases newResult with
    | none =>
      rw [GetMemoryHost_bad_alloc hfind] at hres
      simp at hres
    | some p =>
      rw [GetMemoryHost_miss p hfind] at hres ⊢
      have hp : p = target := by simpa using hres
      have hne : p ≠ q := by
        intro heq
        have hnone := (hfresh p rfl).1
        rw [heq, hq] at hnone
        cases hnone
      refine ⟨hp ▸ hne, ?_, ?_⟩
      · show mapFind q (mapEmplace p _ st.m_hostBusyMemoryPool) = some c
        rw [mapFind_mapEmplace_of_ne _ _ hne]
        exact hq
      · show mapFind q ((p, List.replicate size 0) :: mapErase p st.hostHeap) = _
        rw [mapFind_cons_ne _ _ hne, mapFind_mapErase_ne _ (Ne.symm hne)]

theorem cuda_acquire_keeps_busy {st : MemoryManager} (hsound : CudaSound st) (size : Nat)
    (d : Int) (setDeviceOk : Bool) (mallocResult : Option Ptr) (target q : Ptr)
    (c : MemoryChunk) (hfresh : ∀ p, mallocResult = some p → CudaFresh st d p)
    (hres : (GetMemoryCuda st size d setDeviceOk mallocResult).result = Except.ok target)
    (hq : mapFind (d, q) st.m_cudaBusyMemoryPool = some c) (hnull : q ≠ nullptr) :
    target ≠ q ∧
    mapFind (d, q) (GetMemoryCuda st size d setDeviceOk mallocResult).state.m_cudaBusyMemoryPool
      = some c := by
  cases hfind : mapFind (d, allocationSize size) st.m_cudaFreeMemoryPool with
  | some c0 =>
    rw [GetMemoryCuda_hit setDeviceOk mallocResult hfind] at hres ⊢
    have hp : c0.Data = target := by simpa using hres
    have hne : c0.Data ≠ q := by
      intro heq
      have hnone := hsound.1 _ (mapFind_mem hfind) (by rw [heq]; exact hnull)
      rw [show (((d, allocationSize size), c0) : (Int × Nat) × MemoryChunk).2.Data = q from heq]
        at hnone
      rw [show (((d, allocationSize size), c0) : (Int × Nat) × MemoryChunk).1.1 = d from rfl, hq]
        at hnone
      cases hnone
    have hne2 : (d, c0.Data) ≠ (d, q) := fun heq => hne (congrArg Prod.snd heq)
    refine ⟨hp ▸ hne, ?_⟩
    show mapFind (d, q) (mapEmplace (d, c0.Data) _ st.m_cudaBusyMemoryPool) = some c
    rw [mapFind_mapEmplace_of_ne _ _ hne2]
    exact hq
  | none =>
    rw [GetMemoryCuda_miss setDeviceOk mallocResult hfind] at hres ⊢
    cases mallocResult with
    | none => simp at hres
    | some p =>
      cases setDeviceOk with
      | false => simp at hres
      | true =>
        have hp : p = target := by simpa using hres
        have hne : p ≠ q := by
          intro heq
          have hnone := (hfresh p rfl).1
          rw [heq, hq] at hnone
          cases hnone
        have hne2 : (d, p) ≠ (d, q) := fun heq => hne (congrArg Prod.snd heq)
        refine ⟨hp ▸ hne, ?_⟩
        show mapFind (d, q) (mapEmplace (d, p) _ st.m_cudaBusyMemoryPool) = some c
        rw [mapFind_mapEmplace_of_ne _ _ hne2]
        exact hq

theorem reachablePools_hostSound {pools : MemoryManager} (h : ReachablePools pools) :
    HostSound pools := by
  obtain ⟨st, hr, heq⟩ := h
  exact HostSound_of_frame (congrArg MemoryManager.m_hostFreeMemoryPool heq)
    (congrArg MemoryManager.m_hostBusyMemoryPool heq) hr.hostSound

theorem reachablePools_cudaSound {pools : MemoryManager} (h : ReachablePools pools) :
    CudaSound pools := by
  obtain ⟨st, hr, heq⟩ := h
  exact CudaSound_of_frame (congrArg MemoryManager.m_cudaFreeMemoryPool heq)
    (congrArg MemoryManager.m_cudaBusyMemoryPool heq) hr.cudaSound

theorem moveTo_own_device (t : TensorData) (target : Ptr) :
    (t.moveTo t.m_device target).GetShape = t.GetShape ∧
    (t.moveTo t.m_device target).m_type = t.m_type ∧
    (t.moveTo t.m_device target).m_device = t.m_device ∧
    (t.moveTo t.m_device target).buffer = target := by
  obtain ⟨a1, a2, a3, a4, a5, a6, a7, a8, a9, a10, kind, ⟨dom, idx⟩⟩ := t
  cases kind <;> cases dom <;>
    simp [TensorData.moveTo, TensorData.buffer, TensorData.handle, TensorData.GetShape]

theorem readBuffer_storeBuffer_self (w : TensorWorld) (device : Device) (p : Ptr)
    (content : List FloatBits) :
    readBuffer (storeBuffer w device p content) device p = content := by
  unfold readBuffer storeBuffer
  cases device.domain <;> simp [mapFind_cons_self]

theorem readBuffer_storeBuffer_of_ne (w : TensorWorld) (device : Device) {p q : Ptr}
    (content : List FloatBits) (h : p ≠ q) :
    readBuffer (storeBuffer w device p content) device q = readBuffer w device q := by
  unfold readBuffer storeBuffer
  cases device.domain with
  | Host =>
    show (mapFind q ((p, content) :: mapErase p w.pools.hostHeap)).getD [] = _
    rw [mapFind_cons_ne _ _ h, mapFind_mapErase_ne _ (Ne.symm h)]
  | Accelerator =>
    have h2 : (device.index, p) ≠ (device.index, q) := fun heq => h (congrArg Prod.snd heq)
    show (mapFind (device.index, q)
      (((device.index, p), content) :: mapErase (device.index, p) w.cudaHeap)).getD [] = _
    rw [mapFind_cons_ne _ _ h2, mapFind_mapErase_ne _ (Ne.symm h2)]

theorem busyChunkOn_storeBuffer (w : TensorWorld) (device device2 : Device) (p q : Ptr)
    (content : List FloatBits) :
    busyChunkOn (storeBuffer w device p content).pools device2 q =
      busyChunkOn w.pools device2 q := by
  unfold storeBuffer
  cases device.domain <;> rfl

theorem CreateCopy_ok {t : TensorData} {w : TensorWorld} {env : TransferAnswers} {target : Ptr}
    (h : (acquireOn w.pools t t.m_device env).result = Except.ok target) :
    t.CreateCopy w env =
      { result := Except.ok (t.moveTo t.m_device target)
        world :=
          storeBuffer { w with pools := (acquireOn w.pools t t.m_device env).state } t.m_device
            target
            (readBuffer { w with pools := (acquireOn w.pools t t.m_device env).state }
              t.m_device t.buffer) } := by
  simp [TensorData.CreateCopy, h]

theorem CreateCopy_error {t : TensorData} {w : TensorWorld} {env : TransferAnswers}
    {msg : String} (h : (acquireOn w.pools t t.m_device env).result = Except.error msg) :
    (t.CreateCopy w env).result = Except.error msg := by
  simp [TensorData.CreateCopy, h]

theorem acquire_keeps_held {t : TensorData} {w : TensorWorld} {env : TransferAnswers}
    {target : Ptr} {c : MemoryChunk} (hreach : ReachablePools w.pools)
    (hhost : ∀ q, env.newResult = some q → HostFresh w.pools q)
    (hcuda : ∀ q, env.mallocResult = some q → CudaFresh w.pools t.m_device.index q)
    (hheld : busyChunkOn w.pools t.m_device t.buffer = some c)
    (hnull : t.m_device.domain = DeviceDomain.Accelerator → t.buffer ≠ nullptr)
    (hacq : (acquireOn w.pools t t.m_device env).result = Except.ok target) :
    target ≠ t.buffer ∧
    busyChunkOn (acquireOn w.pools t t.m_device env).state t.m_device t.buffer = some c ∧
    readBuffer { w with pools := (acquireOn w.pools t t.m_device env).state } t.m_device
      t.buffer = readBuffer w t.m_device t.buffer := by
  unfold busyChunkOn readBuffer acquireOn at *
  cases hdom : t.m_device.domain with
  | Host =>
    simp only [hdom] at hacq hheld ⊢
    obtain ⟨h1, h2, h3⟩ :=
      host_acquire_keeps_busy (reachablePools_hostSound hreach) _ _ _ _ _ hhost hacq hheld
    exact ⟨h1, h2, by rw [h3]⟩
  | Accelerator =>
    simp only [hdom] at hacq hheld ⊢
    obtain ⟨h1, h2⟩ :=
      cuda_acquire_keeps_busy (reachablePools_cudaSound hreach) _ _ _ _ _ _ _ hcuda hacq hheld
        (hnull hdom)
    exact ⟨h1, h2, trivial⟩

/-- C22: let the collections of the pools be those of a reachable state (the buffers may hold
anything), let the allocators return fresh buffers, and let `t` hold a busy buffer of the pool
of its device, other than `nullptr` on an accelerator. If `t.CreateCopy()` returns `u`, then
`u` has the shape, kind and device of `t`, its buffer has another identity than the buffer of
`t`, the chunk of `t` is as it was (no reference was added), the buffer of `u` holds what the
buffer of `t` holds, which the copy left unchanged, and a write into any cell of either buffer
leaves the other buffer unchanged. -/
theorem createCopy_independent (t u : TensorData) (w : TensorWorld) (env : TransferAnswers)
    (c : MemoryChunk) (hreach : ReachablePools w.pools)
    (hhost : ∀ q, env.newResult = some q → HostFresh w.pools q)
    (hcuda : ∀ q, env.mallocResult = some q → CudaFresh w.pools t.m_device.index q)
    (hheld : busyChunkOn w.pools t.m_device t.buffer = some c)
    (hnull : t.m_device.domain = DeviceDomain.Accelerator → t.buffer ≠ nullptr)
    (hres : (t.CreateCopy w env).result = Except.ok u) :
    u.GetShape = t.GetShape ∧ u.m_type = t.m_type ∧ u.GetDevice = t.GetDevice ∧
    u.buffer ≠ t.buffer ∧
    busyChunkOn (t.CreateCopy w env).world.pools t.m_device t.buffer = some c ∧
    readBuffer (t.CreateCopy w env).world u.GetDevice u.buffer =
      readBuffer w t.GetDevice t.buffer ∧
    readBuffer (t.CreateCopy w env).world t.GetDevice t.buffer =
      readBuffer w t.GetDevice t.buffer ∧
    (∀ i value,
      readBuffer (writeElement (t.CreateCopy w env).world u.GetDevice u.buffer i value)
        t.GetDevice t.buffer = readBuffer (t.CreateCopy w env).world t.GetDevice t.buffer) ∧
    (∀ i value,
      readBuffer (writeElement (t.CreateCopy w env).world t.GetDevice t.buffer i value)
        u.GetDevice u.buffer = readBuffer (t.CreateCopy w env).world u.GetDevice u.buffer) := by
  cases hacq : (acquireOn w.pools t t.m_device env).result with
  | error msg =>
    rw [CreateCopy_error hacq] at hres
    cases hres
  | ok target =>
    obtain ⟨hne, hchunk, hread⟩ := acquire_keeps_held hreach hhost hcuda hheld hnull hacq
    obtain ⟨hshape, hkind, hdev, hbuf⟩ := moveTo_own_device t target
    rw [CreateCopy_ok hacq] at hres ⊢
    have hu : t.moveTo t.m_device target = u := by simpa using hres
    rw [← hu]
    simp only [TensorData.GetDevice, hdev, hbuf]
    refine ⟨hshape, hkind, trivial, hne, ?_, ?_, ?_, ?_, ?_⟩
    · rw [busyChunkOn_storeBuffer]
      exact hchunk
    · rw [readBuffer_storeBuffer_self]
      exact hread
    · rw [readBuffer_storeBuffer_of_ne _ _ _ hne]
      exact hread
    · intro i value
      unfold writeElement
      rw [readBuffer_storeBuffer_of_ne _ _ _ hne]
    · intro i value
      unfold writeElement
      rw [readBuffer_storeBuffer_of_ne _ _ _ (Ne.symm hne)]

/-- C22, with the host tensor of shape `(3)` whose busy buffer at `4096` holds 7, 8, 9 and an
allocator that returns `8192`: the copy holds the buffer `8192` with 7, 8, 9 in it, and a write
into the copy leaves the buffer at `4096` as it is. -/
theorem createCopy_independent_witness :
    (hostTensor3.CreateCopy writtenWorld hostAnswers8192).result =
      Except.ok (hostTensor3.moveTo hostTensor3.m_device 8192) ∧
    (hostTensor3.moveTo hostTensor3.m_device 8192).buffer ≠ hostTensor3.buffer ∧
    readBuffer (hostTensor3.CreateCopy writtenWorld hostAnswers8192).world
      (hostTensor3.moveTo hostTensor3.m_device 8192).GetDevice
      (hostTensor3.moveTo hostTensor3.m_device 8192).buffer = [7, 8, 9] ∧
    (∀ i value,
      readBuffer
        (writeElement (hostTensor3.CreateCopy writtenWorld hostAnswers8192).world
          (hostTensor3.moveTo hostTensor3.m_device 8192).GetDevice
          (hostTensor3.moveTo hostTensor3.m_device 8192).buffer i value)
        hostTensor3.GetDevice hostTensor3.buffer =
      readBuffer (hostTensor3.CreateCopy writtenWorld hostAnswers8192).world
        hostTensor3.GetDevice hostTensor3.buffer) :=
  have h := createCopy_independent hostTensor3 (hostTensor3.moveTo hostTensor3.m_device 8192)
    writtenWorld hostAnswers8192 (MemoryChunk.mk 3 4096 1)
    ⟨(GetMemoryHost MemoryManager.empty 3 (some 4096)).state,
      Reachable.getMemoryHost 3 (some 4096) Reachable.init (by decide), by decide⟩
    (by intro q hq; simp [hostAnswers8192] at hq; subst hq; decide)
    (by intro q hq; simp [hostAnswers8192] at hq)
    (by decide) (by decide) (by decide)
  ⟨by decide, h.2.2.2.1, h.2.2.2.2.2.1.trans (by decide), h.2.2.2.2.2.2.2.1⟩

end Motutapu.Util
